import Mathlib

/-! Process natives of the Zym runtime (src/natives/process.c)

A shallow embedding of the process subsystem: the POSIX launcher
(spawn_process_unix), the Windows launcher (spawn_process_windows), the
thirteen handle operations, process_cleanup and nativeProcess_spawn.

Every call into the operating system is modelled by

* an *answer* that the caller of the model supplies (what the OS returned), and
* an *event* appended to the trace of the operation (what the code asked for).

The code is deterministic once the answers are fixed, so each C function is a
total Lean function from (state, arguments, answers) to (state, result, trace).
-/

namespace Zym

/-! ## Platform constants and macros

The values of the signal numbers, errno codes and the wait-status macros come
from the system headers, not from this repository; the model takes them as a
parameter. -/

/-- Constants and macros of signal.h, errno.h and sys/wait.h that process.c uses,
together with the build-time availability of openpty. -/
structure Posix where
  SIGTERM : Int
  SIGKILL : Int
  SIGINT : Int
  SIGHUP : Int
  SIGQUIT : Int
  SIGUSR1 : Int
  SIGUSR2 : Int
  SIGSTOP : Int
  SIGCONT : Int
  WNOHANG : Int
  EAGAIN : Int
  EWOULDBLOCK : Int
  WIFEXITED : Int → Bool
  WEXITSTATUS : Int → Int
  WIFSIGNALED : Int → Bool
  WTERMSIG : Int → Int
  has_openpty : Bool

/-- The Linux (glibc, x86-64) values: the wait status keeps the terminating
signal in its low seven bits and the exit status in bits 8..15. -/
def linux : Posix where
  SIGTERM := 15
  SIGKILL := 9
  SIGINT := 2
  SIGHUP := 1
  SIGQUIT := 3
  SIGUSR1 := 10
  SIGUSR2 := 12
  SIGSTOP := 19
  SIGCONT := 18
  WNOHANG := 1
  EAGAIN := 11
  EWOULDBLOCK := 11
  WIFEXITED := fun s => s % 128 == 0
  WEXITSTATUS := fun s => (s / 256) % 256
  WIFSIGNALED := fun s => decide (1 ≤ s % 128 ∧ s % 128 ≤ 126)
  WTERMSIG := fun s => s % 128
  has_openpty := true

/-! ## Data model -/

/-- The size_t modulus of the 64-bit targets. -/
def SIZE_MAX1 : Nat := 2 ^ 64

/-- BufferData (process.c:48-57, buffer.c:12-21). The two script-visible
references hold numbers; data holds capacity bytes. -/
structure BufferData where
  data : List Nat
  capacity : Nat
  length : Nat
  position : Nat
  position_ref : Int
  length_ref : Int
  auto_grow : Bool
  endianness : Nat
deriving DecidableEq, Repr

/-- Host values (zym/zym.h) as far as the process natives inspect them.
A number is the double of a C integer; context is the native context of the
handle itself; a closure carries the native data of its context when that is a
buffer; error is ZYM_ERROR. -/
inductive ZymValue where
  | null
  | bool (b : Bool)
  | number (n : Int)
  | string (s : String)
  | list (xs : List ZymValue)
  | map (kvs : List (String × ZymValue))
  | closure (name : String) (data : Option BufferData)
  | context
  | error
deriving Repr

/-- StdioMode (process.c:59-64). -/
inductive StdioMode where
  | STDIO_PIPE
  | STDIO_INHERIT
  | STDIO_NULL
  | STDIO_PTY
deriving DecidableEq, Repr

/-- ProcessData, POSIX variant (process.c:66-104). -/
structure ProcessData where
  pid : Int
  stdin_fd : Int
  stdout_fd : Int
  stderr_fd : Int
  pty_master : Int
  use_pty : Bool
  is_running : Bool
  exit_code : Int
  exit_code_valid : Bool
  stdin_open : Bool
  stdout_open : Bool
  stderr_open : Bool
  stdout_buf_size : Nat
  stdout_buf_len : Nat
  stderr_buf_size : Nat
  stderr_buf_len : Nat
  command : String
  cwd : Option String
deriving DecidableEq, Repr

/-- One call into the operating system, with the arguments the code passed and,
where the code could look at it, the answer it got. -/
inductive Sys where
  | openpty (res : Option (Int × Int))
  | pipe (res : Option (Int × Int))
  | fcntl_nonblock (fd : Int)
  | malloc_argv (ok : Bool)
  | fork (pid : Int)
  | close (fd : Int)
  | setsid
  | ioctl_tiocsctty (fd : Int) (ok : Bool)
  | dup2 (oldfd : Int) (newfd : Int)
  | open_devnull (fd : Int)
  | chdir (path : String)
  | execvp (file : String) (argv : List String) (ok : Bool)
  | child_exit (code : Int)
  | write (fd : Int) (count : Nat) (res : Int)
  | read (fd : Int) (count : Nat)
  | select (fd : Int) (res : Int)
  | kill (pid : Int) (sig : Int) (res : Int)
  | usleep (us : Nat)
  | waitpid (pid : Int) (options : Int) (res : Int)
deriving DecidableEq, Repr

/-- Answer of read(2): the bytes delivered, or -1 with errno. -/
inductive ReadAns where
  | ok (bytes : List Nat)
  | fail (errno : Int)
deriving DecidableEq, Repr

/-- Outcome of one handle operation. fault is the message handed to
zym_runtimeError, buf the buffer after the call when one was involved. -/
structure OpResult where
  proc : ProcessData
  ret : ZymValue
  trace : List Sys
  fault : Option String
  buf : Option BufferData

/-! ## Host value helpers (zym/zym.h) -/

def zym_isNull : ZymValue → Bool
  | .null => true
  | _ => false

def zym_isString : ZymValue → Bool
  | .string _ => true
  | _ => false

def zym_isMap : ZymValue → Bool
  | .map _ => true
  | _ => false

def zym_isList : ZymValue → Bool
  | .list _ => true
  | _ => false

def zym_isNumber : ZymValue → Bool
  | .number _ => true
  | _ => false

/-- Lookup in an association list; null when the key is absent. -/
def lookupKey (key : String) : List (String × ZymValue) → ZymValue
  | [] => .null
  | (k, v) :: rest => if k == key then v else lookupKey key rest

/-- zym_mapGet: the value stored under the key, null when absent or when the
value is not a map. -/
def zym_mapGet (m : ZymValue) (key : String) : ZymValue :=
  match m with
  | .map kvs => lookupKey key kvs
  | _ => .null

/-- The characters of a C string: everything before the first NUL. -/
def cstr (s : List Char) : List Char :=
  s.takeWhile (fun c => c != Char.ofNat 0)

/-- strcmp(s, lit) == 0 for a literal without NUL. -/
def streq (s : String) (lit : String) : Bool :=
  cstr s.toList == lit.toList

/-- strlen of the C string behind a host string. -/
def strlen (s : String) : Nat :=
  (cstr s.toList).length

/-- zym_newString(vm, buffer) for a character buffer that was filled with the
given bytes and then NUL-terminated: the string ends at the first NUL. -/
def zym_newString (bytes : List Nat) : ZymValue :=
  .string (String.mk (cstr (bytes.map Char.ofNat)))

/-- An operation that returns a value without touching the OS. -/
def OpResult.pure (proc : ProcessData) (v : ZymValue) : OpResult :=
  ⟨proc, v, [], none, none⟩

/-- An operation that raises a runtime error: zym_runtimeError then ZYM_ERROR. -/
def OpResult.raise (proc : ProcessData) (msg : String) (trace : List Sys) : OpResult :=
  ⟨proc, .error, trace, some msg, none⟩

/-! ## Handle operations (process.c:728-1169), POSIX branch -/

/-- process_write (process.c:728-759). written is the answer of write(2). -/
def process_write (proc : ProcessData) (dataVal : ZymValue) (written : Int) : OpResult :=
  if !proc.stdin_open then
    OpResult.raise proc "Process stdin is not open" []
  else
    match dataVal with
    | .string data =>
      let len := strlen data
      let ev := [Sys.write proc.stdin_fd len written]
      if written < 0 then
        OpResult.raise proc "Failed to write to process stdin: %s" ev
      else
        ⟨proc, .context, ev, none, none⟩
    | _ => OpResult.raise proc "write() requires a string argument" []

/-- The BufferData behind a Buffer object, as process_writeBuffer and
process_readToBuffer find it: the native data of the context of the closure
stored under getLength. The left summand is the runtime error raised. -/
def bufferOf (who : String) (bufferVal : ZymValue) : String ⊕ BufferData :=
  if !zym_isMap bufferVal then
    .inl (who ++ "() requires a Buffer argument")
  else
    match zym_mapGet bufferVal "getLength" with
    | .null => .inl "Invalid Buffer object"
    | .closure _ (some buf) => .inr buf
    | _ => .inl "Failed to get buffer data"

/-- process_writeBuffer (process.c:761-808). The subtraction and the addition
are size_t arithmetic. -/
def process_writeBuffer (proc : ProcessData) (bufferVal : ZymValue) (written : Int) : OpResult :=
  if !proc.stdin_open then
    OpResult.raise proc "Process stdin is not open" []
  else
    match bufferOf "writeBuffer" bufferVal with
    | .inl msg => OpResult.raise proc msg []
    | .inr buf =>
      let bytes_to_write := (buf.length + SIZE_MAX1 - buf.position % SIZE_MAX1) % SIZE_MAX1
      if bytes_to_write == 0 then
        ⟨proc, .number 0, [], none, some buf⟩
      else
        let ev := [Sys.write proc.stdin_fd bytes_to_write written]
        if written < 0 then
          ⟨proc, .error, ev, some "Failed to write buffer to process stdin: %s", some buf⟩
        else
          let buf1 := { buf with position := (buf.position + written.toNat) % SIZE_MAX1 }
          ⟨proc, .number written, ev, none, some buf1⟩

/-- process_closeStdin (process.c:810-829). -/
def process_closeStdin (proc : ProcessData) : OpResult :=
  if !proc.stdin_open then
    OpResult.pure proc .context
  else if !proc.use_pty then
    ⟨{ proc with stdin_fd := -1, stdin_open := false }, .context, [Sys.close proc.stdin_fd], none, none⟩
  else
    ⟨{ proc with stdin_open := false }, .context, [], none, none⟩

/-- The shared body of process_read and process_readErr after the open check:
one read(2) of at most 4095 bytes into a stack buffer. -/
def read_chunk (P : Posix) (proc : ProcessData) (fd : Int) (msg : String) (ans : ReadAns) : OpResult :=
  let ev := [Sys.read fd 4095]
  match ans with
  | .fail errno =>
    if errno == P.EAGAIN || errno == P.EWOULDBLOCK then
      ⟨proc, .string "", ev, none, none⟩
    else
      OpResult.raise proc msg ev
  | .ok bytes => ⟨proc, zym_newString (bytes.take 4095), ev, none, none⟩

/-- process_read (process.c:831-870). -/
def process_read (P : Posix) (proc : ProcessData) (ans : ReadAns) : OpResult :=
  if !proc.stdout_open then
    OpResult.pure proc (.string "")
  else
    read_chunk P proc proc.stdout_fd "Failed to read from process stdout: %s" ans

/-- process_readErr (process.c:872-911). -/
def process_readErr (P : Posix) (proc : ProcessData) (ans : ReadAns) : OpResult :=
  if !proc.stderr_open then
    OpResult.pure proc (.string "")
  else
    read_chunk P proc proc.stderr_fd "Failed to read from process stderr: %s" ans

/-- process_readNonBlock (process.c:913-960). sel is the answer of select. -/
def process_readNonBlock (proc : ProcessData) (sel : Int) (ans : ReadAns) : OpResult :=
  if !proc.stdout_open then
    OpResult.pure proc (.string "")
  else if sel ≤ 0 then
    ⟨proc, .string "", [Sys.select proc.stdout_fd sel], none, none⟩
  else
    let ev := [Sys.select proc.stdout_fd sel, Sys.read proc.stdout_fd 4095]
    match ans with
    | .fail _ => ⟨proc, .string "", ev, none, none⟩
    | .ok bytes =>
      if (bytes.take 4095).length == 0 then
        ⟨proc, .string "", ev, none, none⟩
      else
        ⟨proc, zym_newString (bytes.take 4095), ev, none, none⟩

/-- process_readToBuffer (process.c:962-1020). -/
def process_readToBuffer (P : Posix) (proc : ProcessData) (bufferVal : ZymValue) (ans : ReadAns) : OpResult :=
  if !proc.stdout_open then
    OpResult.raise proc "Process stdout is not open" []
  else
    match bufferOf "readToBuffer" bufferVal with
    | .inl msg => OpResult.raise proc msg []
    | .inr buf =>
      let available_space := (buf.capacity + SIZE_MAX1 - buf.position % SIZE_MAX1) % SIZE_MAX1
      if available_space == 0 then
        ⟨proc, .error, [], some "Buffer is full", some buf⟩
      else
        let ev := [Sys.read proc.stdout_fd available_space]
        match ans with
        | .fail errno =>
          if errno == P.EAGAIN || errno == P.EWOULDBLOCK then
            ⟨proc, .number 0, ev, none, some buf⟩
          else
            ⟨proc, .error, ev, some "Failed to read from process stdout: %s", some buf⟩
        | .ok bytes =>
          let got := bytes.take available_space
          let data1 := buf.data.take buf.position ++ got ++ buf.data.drop (buf.position + got.length)
          let pos1 := (buf.position + got.length) % SIZE_MAX1
          let len1 := if pos1 > buf.length then pos1 else buf.length
          ⟨proc, .number got.length, ev, none,
            some { buf with data := data1, position := pos1, length := len1 }⟩

/-- INT_MIN of the 32-bit int. -/
def INT_MIN : Int := -2147483648

/-- INT_MAX of the 32-bit int. -/
def INT_MAX : Int := 2147483647

/-- The cast (int) of a number (process.c:1040). Inside the range of int it
is the identity. Outside that range the conversion is undefined in C; the
value modelled is the one the conversion instruction of x86-64 gives,
INT_MIN. -/
def to_int (n : Int) : Int :=
  if INT_MIN ≤ n ∧ n ≤ INT_MAX then n else INT_MIN

/-- The signal selected by the argument of kill (process.c:1036-1057);
none when the name is unknown. -/
def kill_signal (P : Posix) (signalVal : ZymValue) : Option Int :=
  match signalVal with
  | .null => some P.SIGTERM
  | .number n => some (to_int n)
  | .string signame =>
    if streq signame "SIGTERM" then some P.SIGTERM
    else if streq signame "SIGKILL" then some P.SIGKILL
    else if streq signame "SIGINT" then some P.SIGINT
    else if streq signame "SIGHUP" then some P.SIGHUP
    else if streq signame "SIGQUIT" then some P.SIGQUIT
    else if streq signame "SIGUSR1" then some P.SIGUSR1
    else if streq signame "SIGUSR2" then some P.SIGUSR2
    else if streq signame "SIGSTOP" then some P.SIGSTOP
    else if streq signame "SIGCONT" then some P.SIGCONT
    else none
  | _ => some P.SIGTERM

/-- process_kill (process.c:1022-1066). res is the answer of kill(2). -/
def process_kill (P : Posix) (proc : ProcessData) (signalVal : ZymValue) (res : Int) : OpResult :=
  if !proc.is_running then
    OpResult.pure proc .context
  else
    match kill_signal P signalVal with
    | none => OpResult.raise proc "Unknown signal: %s" []
    | some signal =>
      let ev := [Sys.kill proc.pid signal res]
      if res < 0 then
        OpResult.raise proc "Failed to send signal: %s" ev
      else
        ⟨proc, .context, ev, none, none⟩

/-- The exit code computed from the status word (process.c:1084-1090 and
1124-1130, the same three branches in both places). -/
def exit_code_of (P : Posix) (status : Int) : Int :=
  if P.WIFEXITED status then P.WEXITSTATUS status
  else if P.WIFSIGNALED status then 128 + P.WTERMSIG status
  else -1

/-- process_wait (process.c:1068-1097). res is the value waitpid returned
(the code discards it), status the content of the status variable afterwards. -/
def process_wait (P : Posix) (proc : ProcessData) (res : Int) (status : Int) : OpResult :=
  if !proc.is_running then
    OpResult.pure proc (.number proc.exit_code)
  else
    let code := exit_code_of P status
    ⟨{ proc with exit_code := code, is_running := false, exit_code_valid := true },
      .number code, [Sys.waitpid proc.pid 0 res], none, none⟩

/-- process_poll (process.c:1099-1138). result is the value of
waitpid(pid, &status, WNOHANG). -/
def process_poll (P : Posix) (proc : ProcessData) (result : Int) (status : Int) : OpResult :=
  if !proc.is_running then
    if proc.exit_code_valid then
      OpResult.pure proc (.number proc.exit_code)
    else
      OpResult.pure proc .null
  else
    let ev := [Sys.waitpid proc.pid P.WNOHANG result]
    if result > 0 then
      let code := exit_code_of P status
      ⟨{ proc with exit_code := code, is_running := false, exit_code_valid := true },
        .number code, ev, none, none⟩
    else
      ⟨proc, .null, ev, none, none⟩

/-- process_isRunning (process.c:1140-1149). -/
def process_isRunning (P : Posix) (proc : ProcessData) (result : Int) (status : Int) : OpResult :=
  if proc.is_running then
    let r := process_poll P proc result status
    ⟨r.proc, .bool r.proc.is_running, r.trace, none, none⟩
  else
    OpResult.pure proc (.bool proc.is_running)

/-- process_getPid (process.c:1151-1159). -/
def process_getPid (proc : ProcessData) : OpResult :=
  OpResult.pure proc (.number proc.pid)

/-- process_getExitCode (process.c:1161-1169). -/
def process_getExitCode (proc : ProcessData) : OpResult :=
  if !proc.exit_code_valid then
    OpResult.pure proc .null
  else
    OpResult.pure proc (.number proc.exit_code)

/-! ## process_cleanup (process.c:106-173), POSIX branch -/

/-- The descriptor part of process_cleanup (process.c:136-147). -/
def cleanup_closes (proc : ProcessData) : List Sys :=
  (if proc.stdin_fd ≥ 0 && proc.stdin_open then [Sys.close proc.stdin_fd] else []) ++
  (if proc.stdout_fd ≥ 0 && proc.stdout_open then [Sys.close proc.stdout_fd] else []) ++
  (if proc.stderr_fd ≥ 0 && proc.stderr_open then [Sys.close proc.stderr_fd] else []) ++
  (if proc.pty_master ≥ 0 then [Sys.close proc.pty_master] else [])

/-- The process part of process_cleanup (process.c:149-157). k1 and k2 are the
answers of the two kill calls, w1 and w2 those of the two waitpid calls; the
code looks at none of them, and the inner test reads the is_running field,
which nothing in this function writes. -/
def cleanup_reap (P : Posix) (proc : ProcessData) (k1 w1 k2 w2 : Int) : List Sys :=
  if proc.is_running && proc.pid > 0 then
    [Sys.kill proc.pid P.SIGTERM k1, Sys.usleep 100000, Sys.waitpid proc.pid P.WNOHANG w1] ++
    (if proc.is_running then
      [Sys.kill proc.pid P.SIGKILL k2, Sys.waitpid proc.pid 0 w2]
    else [])
  else []

/-- process_cleanup (process.c:106-173): the OS calls it makes, in order
(the frees of heap memory are not part of the trace). -/
def process_cleanup (P : Posix) (proc : ProcessData) (k1 w1 k2 w2 : Int) : List Sys :=
  cleanup_closes proc ++ cleanup_reap P proc k1 w1 k2 w2

/-! ## The POSIX launcher (process.c:509-724) -/

/-- The mode parsed from one option (process.c:516-522 and its two copies):
pipe unless the option is one of the three other names. -/
def stdio_mode (optionsMap : ZymValue) (key : String) : StdioMode :=
  if !zym_isNull optionsMap && zym_isMap optionsMap then
    match zym_mapGet optionsMap key with
    | .string mode =>
      if streq mode "inherit" then .STDIO_INHERIT
      else if streq mode "null" then .STDIO_NULL
      else if streq mode "pty" then .STDIO_PTY
      else .STDIO_PIPE
    | _ => .STDIO_PIPE
  else .STDIO_PIPE

/-- The use_pty flag after the three options were parsed. -/
def wants_pty (optionsMap : ZymValue) : Bool :=
  stdio_mode optionsMap "stdin" == .STDIO_PTY ||
  stdio_mode optionsMap "stdout" == .STDIO_PTY ||
  stdio_mode optionsMap "stderr" == .STDIO_PTY

/-- Answers of the OS during one run of spawn_process_unix (both sides of the
fork) and of the calloc in nativeProcess_spawn. -/
structure SpawnOs where
  calloc_ok : Bool
  openpty : Option (Int × Int)
  pipe_stdin : Option (Int × Int)
  pipe_stdout : Option (Int × Int)
  pipe_stderr : Option (Int × Int)
  malloc_ok : Bool
  fork : Int
  ioctl_ok : Bool
  null_fd : Int
  execvp_ok : Bool
deriving DecidableEq, Repr

/-- How one run of the launcher ends: it returns to its caller (in the parent,
or without having forked), or it is the forked child, which never returns. -/
inductive Launch where
  | returned (success : Bool) (proc : ProcessData) (trace : List Sys)
  | child (trace : List Sys)
deriving DecidableEq, Repr

/-- The guarded release of one descriptor pair:
if (p[0] >= 0) close(p[0]) and close(p[1]). -/
def close_pair (p : Int × Int) : List Sys :=
  if p.1 ≥ 0 then [Sys.close p.1, Sys.close p.2] else []

/-- The strings of the argument list, in order (process.c:588-596); anything
that is not a list gives no arguments, elements that are not strings are
skipped. -/
def string_args (argsVal : ZymValue) : List String :=
  match argsVal with
  | .list xs => xs.filterMap (fun v => match v with
      | .string s => some (String.mk (cstr s.toList))
      | _ => none)
  | _ => []

/-- The child side of the fork (process.c:612-682). -/
def child_side (proc : ProcessData) (use_pty : Bool) (stdin_mode stdout_mode stderr_mode : StdioMode)
    (stdin_pipe stdout_pipe stderr_pipe pty : Int × Int) (argv : List String) (os : SpawnOs) : List Sys :=
  let tail :=
    (match proc.cwd with
     | some d => [Sys.chdir d]
     | none => []) ++
    [Sys.execvp proc.command argv os.execvp_ok] ++
    (if os.execvp_ok then [] else [Sys.child_exit 127])
  if use_pty then
    [Sys.close pty.1, Sys.setsid, Sys.ioctl_tiocsctty pty.2 os.ioctl_ok] ++
    (if !os.ioctl_ok then [Sys.child_exit 1]
     else
      [Sys.dup2 pty.2 0, Sys.dup2 pty.2 1, Sys.dup2 pty.2 2] ++
      (if pty.2 > 2 then [Sys.close pty.2] else []) ++ tail)
  else
    (if stdin_mode == .STDIO_PIPE then
      [Sys.close stdin_pipe.2, Sys.dup2 stdin_pipe.1 0, Sys.close stdin_pipe.1]
     else if stdin_mode == .STDIO_NULL then
      [Sys.open_devnull os.null_fd, Sys.dup2 os.null_fd 0, Sys.close os.null_fd]
     else []) ++
    (if stdout_mode == .STDIO_PIPE then
      [Sys.close stdout_pipe.1, Sys.dup2 stdout_pipe.2 1, Sys.close stdout_pipe.2]
     else if stdout_mode == .STDIO_NULL then
      [Sys.open_devnull os.null_fd, Sys.dup2 os.null_fd 1, Sys.close os.null_fd]
     else []) ++
    (if stderr_mode == .STDIO_PIPE then
      [Sys.close stderr_pipe.1, Sys.dup2 stderr_pipe.2 2, Sys.close stderr_pipe.2]
     else if stderr_mode == .STDIO_NULL then
      [Sys.open_devnull os.null_fd, Sys.dup2 os.null_fd 2, Sys.close os.null_fd]
     else []) ++ tail

/-- The parent side after a successful fork (process.c:684-723). -/
def parent_side (proc : ProcessData) (use_pty : Bool) (stdin_mode stdout_mode stderr_mode : StdioMode)
    (stdin_pipe stdout_pipe stderr_pipe pty : Int × Int) (pid : Int) : ProcessData × List Sys :=
  if use_pty then
    ({ proc with stdin_fd := pty.1, stdout_fd := pty.1, stderr_fd := -1,
                 stdin_open := true, stdout_open := true, stderr_open := false,
                 pid := pid, is_running := true },
     [Sys.close pty.2])
  else
    let ev0 :=
      (if stdin_pipe.1 ≥ 0 then [Sys.close stdin_pipe.1] else []) ++
      (if stdout_pipe.2 ≥ 0 then [Sys.close stdout_pipe.2] else []) ++
      (if stderr_pipe.2 ≥ 0 then [Sys.close stderr_pipe.2] else [])
    let p1 := if stdin_mode == .STDIO_PIPE then
      { proc with stdin_fd := stdin_pipe.2, stdin_open := true } else proc
    let ev1 := if stdin_mode == .STDIO_PIPE then [Sys.fcntl_nonblock stdin_pipe.2] else []
    let p2 := if stdout_mode == .STDIO_PIPE then
      { p1 with stdout_fd := stdout_pipe.1, stdout_open := true } else p1
    let ev2 := if stdout_mode == .STDIO_PIPE then [Sys.fcntl_nonblock stdout_pipe.1] else []
    let p3 := if stderr_mode == .STDIO_PIPE then
      { p2 with stderr_fd := stderr_pipe.1, stderr_open := true } else p2
    let ev3 := if stderr_mode == .STDIO_PIPE then [Sys.fcntl_nonblock stderr_pipe.1] else []
    ({ p3 with pid := pid, is_running := true }, ev0 ++ ev1 ++ ev2 ++ ev3)

/-- The launcher from the argv allocation on (process.c:571-724); pre is the
trace of the channel phase. -/
def spawn_from_argv (proc : ProcessData) (argsVal : ZymValue) (use_pty : Bool)
    (stdin_mode stdout_mode stderr_mode : StdioMode)
    (stdin_pipe stdout_pipe stderr_pipe pty : Int × Int) (os : SpawnOs) (pre : List Sys) : Launch :=
  let release := close_pair stdin_pipe ++ close_pair stdout_pipe ++ close_pair stderr_pipe ++ close_pair pty
  if !os.malloc_ok then
    .returned false proc (pre ++ [Sys.malloc_argv false] ++ release)
  else
    let argv := String.mk (cstr proc.command.toList) :: string_args argsVal
    let pre1 := pre ++ [Sys.malloc_argv true, Sys.fork os.fork]
    if os.fork < 0 then
      .returned false proc (pre1 ++ release)
    else if os.fork == 0 then
      .child (pre1 ++ child_side proc use_pty stdin_mode stdout_mode stderr_mode
                stdin_pipe stdout_pipe stderr_pipe pty argv os)
    else
      let r := parent_side proc use_pty stdin_mode stdout_mode stderr_mode
                stdin_pipe stdout_pipe stderr_pipe pty os.fork
      .returned true r.1 (pre1 ++ r.2)

/-- spawn_process_unix (process.c:509-724). -/
def spawn_process_unix (P : Posix) (proc : ProcessData) (argsVal optionsMap : ZymValue) (os : SpawnOs) : Launch :=
  let stdin_mode := stdio_mode optionsMap "stdin"
  let stdout_mode := stdio_mode optionsMap "stdout"
  let stderr_mode := stdio_mode optionsMap "stderr"
  let none_pair : Int × Int := (-1, -1)
  if wants_pty optionsMap then
    if P.has_openpty then
      match os.openpty with
      | none => .returned false proc [Sys.openpty none]
      | some pty =>
        spawn_from_argv { proc with pty_master := pty.1, use_pty := true } argsVal true
          stdin_mode stdout_mode stderr_mode none_pair none_pair none_pair pty os
          [Sys.openpty (some pty), Sys.fcntl_nonblock pty.1]
    else
      .returned false proc []
  else
    match (if stdin_mode == .STDIO_PIPE then os.pipe_stdin else some none_pair) with
    | none => .returned false proc [Sys.pipe none]
    | some stdin_pipe =>
      let ev0 := if stdin_mode == .STDIO_PIPE then [Sys.pipe (some stdin_pipe)] else []
      match (if stdout_mode == .STDIO_PIPE then os.pipe_stdout else some none_pair) with
      | none => .returned false proc (ev0 ++ [Sys.pipe none] ++ close_pair stdin_pipe)
      | some stdout_pipe =>
        let ev1 := ev0 ++ (if stdout_mode == .STDIO_PIPE then [Sys.pipe (some stdout_pipe)] else [])
        match (if stderr_mode == .STDIO_PIPE then os.pipe_stderr else some none_pair) with
        | none =>
          .returned false proc (ev1 ++ [Sys.pipe none] ++ close_pair stdin_pipe ++ close_pair stdout_pipe)
        | some stderr_pipe =>
          let ev2 := ev1 ++ (if stderr_mode == .STDIO_PIPE then [Sys.pipe (some stderr_pipe)] else [])
          spawn_from_argv proc argsVal false stdin_mode stdout_mode stderr_mode
            stdin_pipe stdout_pipe stderr_pipe none_pair os ev2

/-! ## nativeProcess_spawn (process.c:1172-1310) -/

/-- How nativeProcess_spawn ends for its caller: a runtime error (ZYM_ERROR),
the error object, or the handle object together with the ProcessData it
controls; child is the forked child, which never returns to the script. -/
inductive SpawnResult where
  | fault (msg : String)
  | failure (errorObj : ZymValue) (trace : List Sys)
  | handle (obj : ZymValue) (proc : ProcessData) (trace : List Sys)
  | child (trace : List Sys)

/-- The error object built on the failure path (process.c:1236-1256). -/
def spawn_error_object : ZymValue :=
  .map [("error", .string "Failed to spawn process")]

/-- The handle object built on the success path (process.c:1270-1302). -/
def handle_object : ZymValue :=
  .map [("write", .closure "process_write(arg)" none),
        ("writeBuffer", .closure "process_writeBuffer(arg)" none),
        ("closeStdin", .closure "process_closeStdin()" none),
        ("read", .closure "process_read()" none),
        ("readErr", .closure "process_readErr()" none),
        ("readNonBlock", .closure "process_readNonBlock()" none),
        ("readToBuffer", .closure "process_readToBuffer(arg)" none),
        ("kill", .closure "process_kill(arg)" none),
        ("wait", .closure "process_wait()" none),
        ("poll", .closure "process_poll()" none),
        ("isRunning", .closure "process_isRunning()" none),
        ("getPid", .closure "process_getPid()" none),
        ("getExitCode", .closure "process_getExitCode()" none)]

/-- The cwd option as nativeProcess_spawn reads it (process.c:1219-1224). -/
def cwd_option (optionsMap : ZymValue) : Option String :=
  if !zym_isNull optionsMap && zym_isMap optionsMap then
    match zym_mapGet optionsMap "cwd" with
    | .string d => some (String.mk (cstr d.toList))
    | _ => none
  else none

/-- The ProcessData right before the launcher runs (process.c:1180-1224). -/
def initial_proc (command : String) (optionsMap : ZymValue) : ProcessData where
  pid := 0
  stdin_fd := -1
  stdout_fd := -1
  stderr_fd := -1
  pty_master := -1
  use_pty := false
  is_running := false
  exit_code := 0
  exit_code_valid := false
  stdin_open := false
  stdout_open := false
  stderr_open := false
  stdout_buf_size := 4096
  stdout_buf_len := 0
  stderr_buf_size := 4096
  stderr_buf_len := 0
  command := String.mk (cstr command.toList)
  cwd := cwd_option optionsMap

/-- nativeProcess_spawn (process.c:1172-1310), POSIX branch. -/
def nativeProcess_spawn (P : Posix) (commandVal argsVal optionsMap : ZymValue) (os : SpawnOs) : SpawnResult :=
  match commandVal with
  | .string command =>
    if !os.calloc_ok then
      .fault "Out of memory"
    else
      match spawn_process_unix P (initial_proc command optionsMap) argsVal optionsMap os with
      | .child trace => .child trace
      | .returned false _ trace => .failure spawn_error_object trace
      | .returned true proc trace => .handle handle_object proc trace
  | _ => .fault "Process.spawn() requires a string command"

/-! ## Sequences of handle operations -/

/-- One call of a handle method, with its argument and the answers of the OS
calls it may make. -/
inductive Op where
  | write (dataVal : ZymValue) (written : Int)
  | writeBuffer (bufferVal : ZymValue) (written : Int)
  | closeStdin
  | read (ans : ReadAns)
  | readErr (ans : ReadAns)
  | readNonBlock (sel : Int) (ans : ReadAns)
  | readToBuffer (bufferVal : ZymValue) (ans : ReadAns)
  | kill (signalVal : ZymValue) (res : Int)
  | wait (res : Int) (status : Int)
  | poll (result : Int) (status : Int)
  | isRunning (result : Int) (status : Int)
  | getPid
  | getExitCode

/-- The method called by an operation. -/
def step (P : Posix) (proc : ProcessData) : Op → OpResult
  | .write dataVal written => process_write proc dataVal written
  | .writeBuffer bufferVal written => process_writeBuffer proc bufferVal written
  | .closeStdin => process_closeStdin proc
  | .read ans => process_read P proc ans
  | .readErr ans => process_readErr P proc ans
  | .readNonBlock sel ans => process_readNonBlock proc sel ans
  | .readToBuffer bufferVal ans => process_readToBuffer P proc bufferVal ans
  | .kill signalVal res => process_kill P proc signalVal res
  | .wait res status => process_wait P proc res status
  | .poll result status => process_poll P proc result status
  | .isRunning result status => process_isRunning P proc result status
  | .getPid => process_getPid proc
  | .getExitCode => process_getExitCode proc

/-- The handle after a sequence of operations. -/
def run (P : Posix) (proc : ProcessData) : List Op → ProcessData
  | [] => proc
  | op :: ops => run P (step P proc op).proc ops

/-- The OS calls made by a sequence of operations, in order. -/
def run_trace (P : Posix) (proc : ProcessData) : List Op → List Sys
  | [] => []
  | op :: ops => (step P proc op).trace ++ run_trace P (step P proc op).proc ops

/-- Whether an operation is one of wait, poll and isRunning. -/
def Op.is_wait_or_poll : Op → Bool
  | .wait _ _ => true
  | .poll _ _ => true
  | .isRunning _ _ => true
  | _ => false

/-- Whether an OS call is a wait on a child. -/
def Sys.is_waitpid : Sys → Bool
  | .waitpid _ _ _ => true
  | _ => false

/-- A handle state that some successful spawn followed by some sequence of
handle operations produces. -/
def Reachable (P : Posix) (proc : ProcessData) : Prop :=
  ∃ commandVal argsVal optionsMap os obj p0 trace ops,
    nativeProcess_spawn P commandVal argsVal optionsMap os = .handle obj p0 trace ∧
    proc = run P p0 ops

/-! ## The Windows launcher (process.c:204-505) -/

/-- INVALID_HANDLE_VALUE, the value every handle variable starts with. -/
def INVALID_HANDLE_VALUE : Int := -1

/-- ProcessData, Windows variant (process.c:66-104). -/
structure WinProcessData where
  hProcess : Int
  hThread : Int
  hStdin : Int
  hStdout : Int
  hStderr : Int
  processId : Int
  threadId : Int
  hConPTY : Int
  use_conpty : Bool
  is_running : Bool
  exit_code : Int
  exit_code_valid : Bool
  stdin_open : Bool
  stdout_open : Bool
  stderr_open : Bool
  command : String
  cwd : Option String
deriving DecidableEq, Repr

/-- One Win32 call of the launcher with the answer the code could look at.
A pipe answer is (read end, write end). -/
inductive WinSys where
  | malloc_cmdline (size : Nat) (ok : Bool)
  | CreatePipe (res : Option (Int × Int))
  | SetHandleInformation (h : Int)
  | CreatePseudoConsole (hInput : Int) (hOutput : Int) (res : Option Int)
  | ClosePseudoConsole (h : Int)
  | CloseHandle (h : Int)
  | malloc_attr_list (ok : Bool)
  | InitializeProcThreadAttributeList (ok : Bool)
  | UpdateProcThreadAttribute (ok : Bool)
  | DeleteProcThreadAttributeList
  | CreateFileNul (res : Int)
  | CreateProcessA (cmdline : String) (cwd : Option String) (inherit : Bool) (ok : Bool)
deriving DecidableEq, Repr

/-- Answers of the OS during one run of spawn_process_windows. create_process
is (hProcess, hThread, processId, threadId) when CreateProcessA succeeds;
std_input, std_output and std_error are what GetStdHandle returns. -/
structure WinOs where
  malloc_ok : Bool
  pipe_in : Option (Int × Int)
  pipe_out : Option (Int × Int)
  pseudo_console : Option Int
  attr_malloc_ok : Bool
  attr_init_ok : Bool
  attr_update_ok : Bool
  create_process : Option (Int × Int × Int × Int)
  pipe_stdin : Option (Int × Int)
  pipe_stdout : Option (Int × Int)
  pipe_stderr : Option (Int × Int)
  nul_stdin : Int
  nul_stdout : Int
  nul_stderr : Int
  std_input : Int
  std_output : Int
  std_error : Int
deriving DecidableEq, Repr

/-- What spawn_process_windows hands back: its boolean, the ProcessData as it
left it, and the Win32 calls it made. -/
structure WinLaunch where
  success : Bool
  proc : WinProcessData
  trace : List WinSys
deriving DecidableEq, Repr

/-- The test that decides whether an argument is wrapped in double quotes
(process.c:239-242). -/
def needs_quotes (argstr : String) : Bool :=
  argstr.toList.contains (Char.ofNat 32) ||
  argstr.toList.contains (Char.ofNat 9) ||
  argstr.toList.contains (Char.ofNat 34) ||
  argstr.length == 0

/-- The size computed for the command line (process.c:205-218). -/
def cmdline_size (command : String) (argsVal : ZymValue) : Nat :=
  strlen command + ((string_args argsVal).map (fun a => a.length + 3)).sum + 1

/-- The command line built by strcpy and strcat (process.c:229-253). -/
def build_cmdline (command : String) (argsVal : ZymValue) : String :=
  (string_args argsVal).foldl
    (fun acc a =>
      let q := if needs_quotes a then String.mk [Char.ofNat 34] else ""
      acc ++ " " ++ q ++ a ++ q)
    (String.mk (cstr command.toList))

/-- The ConPTY branch (process.c:287-397). -/
def spawn_conpty (proc : WinProcessData) (cmdline : String) (os : WinOs) (pre : List WinSys) : WinLaunch :=
  match os.pipe_in with
  | none => ⟨false, proc, pre ++ [.CreatePipe none]⟩
  | some (hPipeIn_Read, hPipeIn_Write) =>
    match os.pipe_out with
    | none => ⟨false, proc, pre ++ [.CreatePipe (some (hPipeIn_Read, hPipeIn_Write)), .CreatePipe none]⟩
    | some (hPipeOut_Read, hPipeOut_Write) =>
      let ev0 := pre ++
        [.CreatePipe (some (hPipeIn_Read, hPipeIn_Write)), .CreatePipe (some (hPipeOut_Read, hPipeOut_Write)),
         .SetHandleInformation hPipeIn_Write, .SetHandleInformation hPipeOut_Read,
         .CreatePseudoConsole hPipeIn_Read hPipeOut_Write os.pseudo_console]
      match os.pseudo_console with
      | none =>
        ⟨false, proc, ev0 ++ [.CloseHandle hPipeIn_Read, .CloseHandle hPipeIn_Write,
                              .CloseHandle hPipeOut_Read, .CloseHandle hPipeOut_Write]⟩
      | some hPC =>
        let proc1 := { proc with hConPTY := hPC, hStdin := hPipeIn_Write, hStdout := hPipeOut_Read,
                                 hStderr := INVALID_HANDLE_VALUE, stdin_open := true,
                                 stdout_open := true, stderr_open := false, use_conpty := true }
        let ev1 := ev0 ++ [.CloseHandle hPipeIn_Read, .CloseHandle hPipeOut_Write,
                           .malloc_attr_list os.attr_malloc_ok]
        let giveup : List WinSys :=
          [.ClosePseudoConsole hPC, .CloseHandle hPipeIn_Write, .CloseHandle hPipeOut_Read]
        if !os.attr_malloc_ok then
          ⟨false, proc1, ev1 ++ giveup⟩
        else if !os.attr_init_ok then
          ⟨false, proc1, ev1 ++ [.InitializeProcThreadAttributeList false] ++ giveup⟩
        else
          let ev2 := ev1 ++ [.InitializeProcThreadAttributeList true,
                             .UpdateProcThreadAttribute os.attr_update_ok]
          if !os.attr_update_ok then
            ⟨false, proc1, ev2 ++ [.DeleteProcThreadAttributeList] ++ giveup⟩
          else
            let ev3 := ev2 ++ [.CreateProcessA cmdline proc.cwd false os.create_process.isSome,
                               .DeleteProcThreadAttributeList]
            match os.create_process with
            | none => ⟨false, proc1, ev3 ++ giveup⟩
            | some (hProcess, hThread, processId, threadId) =>
              ⟨true, { proc1 with hProcess := hProcess, hThread := hThread, processId := processId,
                                  threadId := threadId, is_running := true }, ev3⟩

/-- The channel set up for one stream in the regular branch
(process.c:410-435): the parent-side and the child-side handle variables and
the calls made. parent_is_read tells which end of a pipe the parent keeps.
The answer of CreatePipe is not tested; when it fails the variables keep
INVALID_HANDLE_VALUE. -/
def win_channel (mode : StdioMode) (parent_is_read : Bool) (pipe : Option (Int × Int)) (nul : Int) :
    Option Int × Int × List WinSys :=
  if mode == .STDIO_PIPE then
    let rd := match pipe with
      | some p => p.1
      | none => INVALID_HANDLE_VALUE
    let wr := match pipe with
      | some p => p.2
      | none => INVALID_HANDLE_VALUE
    let parent := if parent_is_read then rd else wr
    let child := if parent_is_read then wr else rd
    (some parent, child, [.CreatePipe pipe, .SetHandleInformation parent])
  else if mode == .STDIO_NULL then
    (none, nul, [.CreateFileNul nul])
  else
    (none, INVALID_HANDLE_VALUE, [])

/-- The guarded close of one child-side handle (process.c:481-489). -/
def close_child_side (h : Int) (std : Int) : List WinSys :=
  if h != INVALID_HANDLE_VALUE && h != std then [.CloseHandle h] else []

/-- The guarded close of one parent-side handle on failure (process.c:492-494). -/
def close_if_valid (h : Int) : List WinSys :=
  if h != INVALID_HANDLE_VALUE then [.CloseHandle h] else []

/-- The regular branch (process.c:399-505). -/
def spawn_regular (proc : WinProcessData) (cmdline : String)
    (stdin_mode stdout_mode stderr_mode : StdioMode) (os : WinOs) (pre : List WinSys) : WinLaunch :=
  let cin := win_channel stdin_mode false os.pipe_stdin os.nul_stdin
  let cout := win_channel stdout_mode true os.pipe_stdout os.nul_stdout
  let cerr := win_channel stderr_mode true os.pipe_stderr os.nul_stderr
  let p1 := match cin.1 with
    | some h => { proc with hStdin := h, stdin_open := true }
    | none => proc
  let p2 := match cout.1 with
    | some h => { p1 with hStdout := h, stdout_open := true }
    | none => p1
  let p3 := match cerr.1 with
    | some h => { p2 with hStderr := h, stderr_open := true }
    | none => p2
  let ev := pre ++ cin.2.2 ++ cout.2.2 ++ cerr.2.2 ++
    [.CreateProcessA cmdline proc.cwd true os.create_process.isSome] ++
    close_child_side cin.2.1 os.std_input ++
    close_child_side cout.2.1 os.std_output ++
    close_child_side cerr.2.1 os.std_error
  match os.create_process with
  | none =>
    ⟨false, p3, ev ++ close_if_valid p3.hStdin ++ close_if_valid p3.hStdout ++ close_if_valid p3.hStderr⟩
  | some (hProcess, hThread, processId, threadId) =>
    ⟨true, { p3 with hProcess := hProcess, hThread := hThread, processId := processId,
                     threadId := threadId, is_running := true }, ev⟩

/-- spawn_process_windows (process.c:204-505). -/
def spawn_process_windows (proc : WinProcessData) (argsVal optionsMap : ZymValue) (os : WinOs) : WinLaunch :=
  let cmd_len := cmdline_size proc.command argsVal
  if cmd_len > 32767 then
    ⟨false, proc, []⟩
  else if !os.malloc_ok then
    ⟨false, proc, [.malloc_cmdline cmd_len false]⟩
  else
    let cmdline := build_cmdline proc.command argsVal
    let pre := [WinSys.malloc_cmdline cmd_len true]
    if wants_pty optionsMap then
      spawn_conpty proc cmdline os pre
    else
      spawn_regular proc cmdline (stdio_mode optionsMap "stdin") (stdio_mode optionsMap "stdout")
        (stdio_mode optionsMap "stderr") os pre

/-- The ProcessData right before the Windows launcher runs (process.c:1180-1224). -/
def initial_win_proc (command : String) (optionsMap : ZymValue) : WinProcessData where
  hProcess := INVALID_HANDLE_VALUE
  hThread := INVALID_HANDLE_VALUE
  hStdin := INVALID_HANDLE_VALUE
  hStdout := INVALID_HANDLE_VALUE
  hStderr := INVALID_HANDLE_VALUE
  processId := 0
  threadId := 0
  hConPTY := INVALID_HANDLE_VALUE
  use_conpty := false
  is_running := false
  exit_code := 0
  exit_code_valid := false
  stdin_open := false
  stdout_open := false
  stderr_open := false
  command := String.mk (cstr command.toList)
  cwd := cwd_option optionsMap

/-- The handles that a launcher trace opened (both ends of every pipe, every
NUL handle that is valid). -/
def WinSys.opened : WinSys → List Int
  | .CreatePipe (some p) => [p.1, p.2]
  | .CreateFileNul h => if h != INVALID_HANDLE_VALUE then [h] else []
  | _ => []

/-- The descriptors that a POSIX launcher trace opened. -/
def Sys.opened : Sys → List Int
  | .pipe (some p) => [p.1, p.2]
  | .openpty (some p) => [p.1, p.2]
  | _ => []

/-! ## nativeProcess_exec (process.c:1320-1455) -/

/-- Answers of the OS during one iteration of the drain loop: the WNOHANG
waitpid of process_poll, the two reads, and whether a realloc of the stdout
or stderr accumulator succeeds should the iteration need one. -/
structure IterAns where
  poll_result : Int
  poll_status : Int
  read_out : ReadAns
  read_err : ReadAns
  realloc_out_ok : Bool
  realloc_err_ok : Bool
deriving DecidableEq, Repr

/-- One accumulator of the drain loop: the bytes gathered so far (stdout_data
up to stdout_len) and the allocated capacity (stdout_cap). -/
structure Accum where
  data : List Char
  cap : Nat
deriving DecidableEq, Repr

/-- Appending one chunk to an accumulator (process.c:1364-1385): only a string
of positive strlen is appended, the capacity doubles past the need when it is
too small, and none is the failed realloc. -/
def append_chunk (acc : Accum) (chunk : ZymValue) (realloc_ok : Bool) : Option Accum :=
  match chunk with
  | .string s =>
    let c := cstr s.toList
    if c.length > 0 then
      if acc.data.length + c.length + 1 > acc.cap then
        if realloc_ok then
          some ⟨acc.data ++ c, (acc.data.length + c.length + 1) * 2⟩
        else none
      else some ⟨acc.data ++ c, acc.cap⟩
    else some acc
  | _ => some acc

/-- The variables of the drain loop, the OS calls made so far, the number of
loop iterations entered and the runtime errors raised by the reads (which the
loop does not look at). -/
structure DrainState where
  proc : ProcessData
  out : Accum
  err : Accum
  process_exited : Bool
  trace : List Sys
  iterations : Nat
  faults : List String

/-- How one iteration of the drain loop ends: with the out-of-memory runtime
error, by falling through to the next iteration, or by the break. -/
inductive IterEnd where
  | oom (st : DrainState)
  | next (st : DrainState)
  | done (st : DrainState)

/-- One iteration of the drain loop (process.c:1359-1429). -/
def drain_iter (P : Posix) (st : DrainState) (a : IterAns) : IterEnd :=
  let r0 := process_poll P st.proc a.poll_result a.poll_status
  let r1 := process_read P r0.proc a.read_out
  let tr1 := st.trace ++ r0.trace ++ r1.trace
  let f1 := st.faults ++ r1.fault.toList
  match append_chunk st.out r1.ret a.realloc_out_ok with
  | none => .oom ⟨r1.proc, st.out, st.err, st.process_exited, tr1, st.iterations + 1, f1⟩
  | some out1 =>
    let r2 := process_readErr P r1.proc a.read_err
    let tr2 := tr1 ++ r2.trace
    let f2 := f1 ++ r2.fault.toList
    match append_chunk st.err r2.ret a.realloc_err_ok with
    | none => .oom ⟨r2.proc, out1, st.err, st.process_exited, tr2, st.iterations + 1, f2⟩
    | some err1 =>
      if !zym_isNull r0.ret then
        if st.process_exited then
          .done ⟨r2.proc, out1, err1, true, tr2, st.iterations + 1, f2⟩
        else
          .next ⟨r2.proc, out1, err1, true, tr2, st.iterations + 1, f2⟩
      else if !st.process_exited then
        .next ⟨r2.proc, out1, err1, false, tr2 ++ [Sys.usleep 10000], st.iterations + 1, f2⟩
      else
        .next ⟨r2.proc, out1, err1, true, tr2, st.iterations + 1, f2⟩

/-- How the drain loop ends on a finite supply of answers; waiting means the
loop was still running when the answers ended. -/
inductive LoopEnd where
  | oom (st : DrainState)
  | done (st : DrainState)
  | waiting (st : DrainState)

/-- The drain loop (process.c:1357-1429): while (true) over the answers of
the successive iterations. -/
def drain_loop (P : Posix) : DrainState → List IterAns → LoopEnd
  | st, [] => .waiting st
  | st, a :: rest =>
    match drain_iter P st a with
    | .oom s => .oom s
    | .done s => .done s
    | .next s => drain_loop P s rest

/-- The test by which exec recognises the error object (process.c:1323-1332):
a map with an "error" field and no "wait" field. -/
def is_error_object (v : ZymValue) : Bool :=
  zym_isMap v && !zym_isNull (zym_mapGet v "error") && zym_isNull (zym_mapGet v "wait")

/-- How nativeProcess_exec ends. failure hands the error object of spawn on;
result is the ExecResult map; oom is the runtime error "Out of memory while
reading process output"; not_a_handle says that exec went on past its error
test with a value that is not a handle object and called the listed handle
operations on what it took for the context (their behaviour is then
undefined); child is the forked child; waiting is the loop still running when
the answers ended. -/
inductive ExecOutcome where
  | failure (errorObj : ZymValue) (trace : List Sys)
  | result (obj : ZymValue) (st : DrainState)
  | oom (st : DrainState)
  | not_a_handle (value : ZymValue) (fault : Option String) (called : List String)
  | child (trace : List Sys)
  | waiting (st : DrainState)

/-- The ExecResult map built after the loop (process.c:1431-1454). -/
def exec_result_object (st : DrainState) : ZymValue :=
  .map [("stdout", .string (String.mk st.out.data)),
        ("stderr", .string (String.mk st.err.data)),
        ("exitCode", (process_getExitCode st.proc).ret)]

/-- The state in which the drain loop starts (process.c:1334-1358): stdin has
been closed, both accumulators are empty with capacity 1. -/
def drain_start (p0 : ProcessData) (trace : List Sys) : DrainState :=
  ⟨(process_closeStdin p0).proc, ⟨[], 1⟩, ⟨[], 1⟩, false,
    trace ++ (process_closeStdin p0).trace, 0, []⟩

/-- nativeProcess_exec (process.c:1320-1455), POSIX branch. -/
def nativeProcess_exec (P : Posix) (commandVal argsVal optionsMap : ZymValue) (os : SpawnOs)
    (answers : List IterAns) : ExecOutcome :=
  match nativeProcess_spawn P commandVal argsVal optionsMap os with
  | .child trace => .child trace
  | .fault msg =>
    if is_error_object .error then .failure .error []
    else .not_a_handle .error (some msg) ["process_closeStdin"]
  | .failure errorObj trace =>
    if is_error_object errorObj then .failure errorObj trace
    else .not_a_handle errorObj none ["process_closeStdin"]
  | .handle obj p0 trace =>
    if is_error_object obj then .failure obj trace
    else
      match drain_loop P (drain_start p0 trace) answers with
      | .oom st => .oom st
      | .waiting st => .waiting st
      | .done st => .result (exec_result_object st) st

/-- The OS calls of the three handle operations of one loop iteration, in
order: poll, read, readErr. -/
def iter_calls (P : Posix) (proc : ProcessData) (a : IterAns) : List Sys :=
  (process_poll P proc a.poll_result a.poll_status).trace ++
  (process_read P (process_poll P proc a.poll_result a.poll_status).proc a.read_out).trace ++
  (process_readErr P (process_poll P proc a.poll_result a.poll_status).proc a.read_err).trace

/-! ## Read operations, Windows branch (process.c:840-856, 881-897, 920-939, 994-1002) -/

/-- One Win32 call of a read operation. PeekNamedPipe carries the number of
bytes it reported as available (none when the call failed), ReadFile the
number of bytes asked for. -/
inductive WinIo where
  | PeekNamedPipe (h : Int) (res : Option Nat)
  | ReadFile (h : Int) (count : Nat)
deriving DecidableEq, Repr

/-- Answer of ReadFile: the bytes delivered, or failure with GetLastError. -/
inductive WinReadAns where
  | ok (bytes : List Nat)
  | fail (last_error : Int)
deriving DecidableEq, Repr

/-- ERROR_BROKEN_PIPE of winerror.h. -/
def ERROR_BROKEN_PIPE : Int := 109

/-- Outcome of one read operation on the Windows variant of the handle. -/
structure WinOpResult where
  proc : WinProcessData
  ret : ZymValue
  trace : List WinIo
  fault : Option String
  buf : Option BufferData

/-- The shared body of process_read, process_readErr and process_readNonBlock
on Windows after the open check: PeekNamedPipe, then ReadFile of at most
limit bytes only when bytes are available. -/
def win_peek_read (proc : WinProcessData) (h : Int) (limit : Option Nat) (peek : Option Nat)
    (ans : WinReadAns) : WinOpResult :=
  match peek with
  | none => ⟨proc, .string "", [.PeekNamedPipe h none], none, none⟩
  | some bytesAvail =>
    if bytesAvail == 0 then
      ⟨proc, .string "", [.PeekNamedPipe h (some 0)], none, none⟩
    else
      let toRead := match limit with
        | some n => if bytesAvail < n then bytesAvail else n
        | none => bytesAvail
      let ev := [WinIo.PeekNamedPipe h (some bytesAvail), WinIo.ReadFile h toRead]
      match ans with
      | .fail _ => ⟨proc, .string "", ev, none, none⟩
      | .ok bytes => ⟨proc, zym_newString (bytes.take toRead), ev, none, none⟩

/-- process_read, Windows branch (process.c:831-856, 869). -/
def process_read_windows (proc : WinProcessData) (peek : Option Nat) (ans : WinReadAns) : WinOpResult :=
  if !proc.stdout_open then ⟨proc, .string "", [], none, none⟩
  else win_peek_read proc proc.hStdout (some 4095) peek ans

/-- process_readErr, Windows branch (process.c:872-897, 910). -/
def process_readErr_windows (proc : WinProcessData) (peek : Option Nat) (ans : WinReadAns) : WinOpResult :=
  if !proc.stderr_open then ⟨proc, .string "", [], none, none⟩
  else win_peek_read proc proc.hStderr (some 4095) peek ans

/-- process_readNonBlock, Windows branch (process.c:913-939). -/
def process_readNonBlock_windows (proc : WinProcessData) (peek : Option Nat) (ans : WinReadAns) :
    WinOpResult :=
  if !proc.stdout_open then ⟨proc, .string "", [], none, none⟩
  else win_peek_read proc proc.hStdout none peek ans

/-- process_readToBuffer, Windows branch (process.c:962-1002, 1014-1019):
ReadFile is called at once, without PeekNamedPipe. -/
def process_readToBuffer_windows (proc : WinProcessData) (bufferVal : ZymValue) (ans : WinReadAns) :
    WinOpResult :=
  if !proc.stdout_open then
    ⟨proc, .error, [], some "Process stdout is not open", none⟩
  else
    match bufferOf "readToBuffer" bufferVal with
    | .inl msg => ⟨proc, .error, [], some msg, none⟩
    | .inr buf =>
      let available_space := (buf.capacity + SIZE_MAX1 - buf.position % SIZE_MAX1) % SIZE_MAX1
      if available_space == 0 then
        ⟨proc, .error, [], some "Buffer is full", some buf⟩
      else
        let ev := [WinIo.ReadFile proc.hStdout available_space]
        match ans with
        | .fail last_error =>
          if last_error == ERROR_BROKEN_PIPE then
            ⟨proc, .number 0, ev, none, some buf⟩
          else
            ⟨proc, .error, ev, some "Failed to read from process stdout", some buf⟩
        | .ok bytes =>
          let got := bytes.take available_space
          let data1 := buf.data.take buf.position ++ got ++ buf.data.drop (buf.position + got.length)
          let pos1 := (buf.position + got.length) % SIZE_MAX1
          let len1 := if pos1 > buf.length then pos1 else buf.length
          ⟨proc, .number got.length, ev, none,
            some { buf with data := data1, position := pos1, length := len1 }⟩

/-! ## Buffer operations used with the process natives (buffer.c:92-118, 655-697) -/

/-- Outcome of one of the buffer's own operations: the buffer afterwards, the
value returned and the runtime error raised, if any. -/
structure BufResult where
  buf : BufferData
  ret : ZymValue
  fault : Option String

/-- update_length (buffer.c:92-97). -/
def update_length (buf : BufferData) : BufferData :=
  if buf.position > buf.length then
    { buf with length := buf.position, length_ref := buf.position }
  else buf

/-- sync_position (buffer.c:99-101). -/
def sync_position (buf : BufferData) : BufferData :=
  { buf with position_ref := buf.position }

/-- sync_length (buffer.c:103-105). -/
def sync_length (buf : BufferData) : BufferData :=
  { buf with length_ref := buf.length }

/-- The cast (size_t) of a number as the compiled 64-bit code performs it:
the number modulo 2^64, so that a negative number gives its two's complement
(-1 gives 2^64 - 1). Beyond the 64-bit range the conversion is undefined in
C. -/
def to_size_t (n : Int) : Nat :=
  (n % (SIZE_MAX1 : Int)).toNat

/-- buffer_readUInt8 (buffer.c:106-118). -/
def buffer_readUInt8 (buf : BufferData) : BufResult :=
  if (buf.position + 1) % SIZE_MAX1 > buf.length then
    ⟨buf, .error, some "Read past end of buffer (pos=%zu, length=%zu)"⟩
  else
    ⟨sync_position { buf with position := (buf.position + 1) % SIZE_MAX1 },
      .number (buf.data.getD buf.position 0), none⟩

/-- buffer_remaining (buffer.c:655-659). -/
def buffer_remaining (buf : BufferData) : Nat :=
  if buf.position < buf.length then buf.length - buf.position else 0

/-- buffer_seek (buffer.c:661-677). -/
def buffer_seek (buf : BufferData) (posVal : ZymValue) : BufResult :=
  match posVal with
  | .number n =>
    let pos := to_size_t n
    if pos > buf.capacity then
      ⟨buf, .error, some "Seek position %zu exceeds capacity %zu"⟩
    else
      ⟨sync_position { buf with position := pos }, .context, none⟩
  | _ => ⟨buf, .error, some "seek() requires a number argument"⟩

/-- buffer_skip (buffer.c:679-697). -/
def buffer_skip (buf : BufferData) (countVal : ZymValue) : BufResult :=
  match countVal with
  | .number n =>
    let new_pos := (buf.position + to_size_t n) % SIZE_MAX1
    if new_pos > buf.capacity then
      ⟨buf, .error, some "Skip would exceed buffer capacity"⟩
    else
      ⟨sync_position { buf with position := new_pos }, .context, none⟩
  | _ => ⟨buf, .error, some "skip() requires a number argument"⟩

/-! ## GC roots pushed and popped by the native constructors -/

/-- One call of zym_pushRoot (with the name of the C variable pushed) or of
zym_popRoot. -/
inductive RootOp where
  | push (what : String)
  | pop
deriving DecidableEq, Repr

/-- The depth of the root stack after a sequence of pushes and pops, starting
from the given depth. -/
def root_depth (start : Int) : List RootOp → Int
  | [] => start
  | .push _ :: rest => root_depth (start + 1) rest
  | .pop :: rest => root_depth (start - 1) rest

/-- The thirteen method closures of the process handle, in the order in which
nativeProcess_spawn creates and pushes them (process.c:1270-1282). -/
def process_method_names : List String :=
  ["write", "writeBuffer", "closeStdin", "read", "readErr", "readNonBlock", "readToBuffer",
   "kill", "wait", "poll", "isRunning", "getPid", "getExitCode"]

/-- The root operations of nativeProcess_spawn on the path that ended in the
given result (process.c:1172-1310): none before a runtime error, three pushes
and three pops around the error object, and on success the context, the
thirteen methods and the object pushed and then the loop of fifteen pops. -/
def spawn_root_ops : SpawnResult → List RootOp
  | .fault _ => []
  | .child _ => []
  | .failure _ _ =>
    [.push "errorObj", .push "errorStr", .push "messageStr", .pop, .pop, .pop]
  | .handle _ _ _ =>
    [RootOp.push "context"] ++ process_method_names.map RootOp.push ++ [RootOp.push "obj"] ++
      List.replicate 15 RootOp.pop

/-- The root operations of nativeProcess_exec itself (without those of the
spawn it calls) on the path that ended in the given outcome that returns
(process.c:1320-1455): nothing when the error object is handed on, push and
pop of proc around the out-of-memory return, and on the normal return the
pushes of proc, result, stdoutStr and stderrStr with three pops and a last
pop. -/
def exec_root_ops : ExecOutcome → List RootOp
  | .failure _ _ => []
  | .oom _ => [.push "proc", .pop]
  | .result _ _ =>
    [.push "proc", .push "result", .push "stdoutStr", .push "stderrStr", .pop, .pop, .pop, .pop]
  | .not_a_handle _ _ _ => [.push "proc"]
  | .child _ => []
  | .waiting _ => [.push "proc"]

/-- The thirty-five method closures of the Buffer object with the argument
list that ends the name of each closure, in the order in which
nativeBuffer_create creates and pushes them (buffer.c:931-967). -/
def buffer_methods : List (String × String) :=
  [("readUInt8", "()"), ("readInt8", "()"), ("readUInt16", "()"), ("readInt16", "()"),
   ("readUInt32", "()"), ("readInt32", "()"), ("readFloat", "()"), ("readDouble", "()"),
   ("readBytes", "(arg)"), ("readString", "()"), ("readStringN", "(arg)"),
   ("writeUInt8", "(arg)"), ("writeInt8", "(arg)"), ("writeUInt16", "(arg)"),
   ("writeInt16", "(arg)"), ("writeUInt32", "(arg)"), ("writeInt32", "(arg)"),
   ("writeFloat", "(arg)"), ("writeDouble", "(arg)"), ("writeBytes", "(arg)"),
   ("writeString", "(arg)"), ("writeStringRaw", "(arg)"),
   ("getLength", "()"), ("getCapacity", "()"), ("remaining", "()"), ("seek", "(arg)"),
   ("skip", "(arg)"), ("rewind", "()"), ("clear", "()"), ("fill", "(arg)"),
   ("slice", "(arg1, arg2)"), ("toHex", "()"), ("toString", "()"), ("getEndianness", "()"),
   ("setEndianness", "(arg)")]

/-- How nativeBuffer_create ends: with a runtime error, or with the new
buffer, its object and the root operations made on the way. -/
inductive BufferCreate where
  | fault (msg : String)
  | created (buf : BufferData) (obj : ZymValue) (roots : List RootOp)

/-- nativeBuffer_create (buffer.c:869-1023). calloc_buf and calloc_data are
the answers of the two allocations. -/
def nativeBuffer_create (sizeVal autoGrowVal : ZymValue) (calloc_buf calloc_data : Bool) :
    BufferCreate :=
  match sizeVal with
  | .number n =>
    let size := to_size_t n
    if size == 0 || size > 100 * 1024 * 1024 then
      .fault "Buffer size must be between 1 and 104857600 bytes (100MB)"
    else
      let auto_grow := match autoGrowVal with
        | .bool b => b
        | _ => true
      if !calloc_buf then .fault "Out of memory"
      else if !calloc_data then .fault "Out of memory"
      else
        let buf : BufferData := ⟨List.replicate size 0, size, 0, 0, 0, 0, auto_grow, 0⟩
        let roots :=
          [RootOp.push "context", RootOp.push "posRef", RootOp.push "lenRef"] ++
          buffer_methods.map (fun m => RootOp.push m.1) ++ [RootOp.push "obj"] ++
          List.replicate 38 RootOp.pop
        let obj := ZymValue.map
          ([("position", ZymValue.number buf.position_ref),
            ("length", ZymValue.number buf.length_ref)] ++
           buffer_methods.map
             (fun m => (m.1, ZymValue.closure ("buffer_" ++ m.1 ++ m.2) (some buf))))
        .created buf obj roots
  | _ => .fault "Buffer() requires a number argument"

/-! ## The Windows command line and its parsing -/

/-- The argument as the specification words it: wrapped in a pair of double quotes if
and only if it contains a space, a tab or a double quote or is empty. -/
def quoted_spec (a : String) : String :=
  if (Char.ofNat 32) ∈ a.toList ∨ (Char.ofNat 9) ∈ a.toList ∨ (Char.ofNat 34) ∈ a.toList ∨ a = ""
  then String.mk [Char.ofNat 34] ++ a ++ String.mk [Char.ofNat 34]
  else a

/-- The command line as the specification words it: the command followed, for each
string argument in order, by one space and the (possibly quoted) argument. -/
def cmdline_spec (command : String) : List String → String
  | [] => command
  | a :: rest => cmdline_spec (command ++ " " ++ quoted_spec a) rest

/-- State of the argument parser: the characters of the argument being read
(reversed), whether an argument is being read, whether the parser is inside
double quotes, and the number of backslashes just seen. -/
structure SplitState where
  cur : List Char
  started : Bool
  in_quotes : Bool
  backslashes : Nat
  done : List String

/-- One character of the documented argument-parsing rules of the Microsoft C
runtime (and CommandLineToArgvW): arguments are separated by spaces and tabs
outside double quotes; 2n backslashes before a double quote give n
backslashes and the quote toggles quoting; 2n+1 backslashes before a double
quote give n backslashes and a literal quote; other backslashes are
literal. -/
def split_step (st : SplitState) (c : Char) : SplitState :=
  if c == Char.ofNat 92 then
    { st with backslashes := st.backslashes + 1, started := true }
  else if c == Char.ofNat 34 then
    let kept := List.replicate (st.backslashes / 2) (Char.ofNat 92)
    if st.backslashes % 2 == 1 then
      { st with cur := c :: (kept ++ st.cur), backslashes := 0, started := true }
    else
      { st with cur := kept ++ st.cur, backslashes := 0, started := true,
                in_quotes := !st.in_quotes }
  else
    let lit := List.replicate st.backslashes (Char.ofNat 92)
    if (c == Char.ofNat 32 || c == Char.ofNat 9) && !st.in_quotes then
      if st.started then
        { cur := [], started := false, in_quotes := false, backslashes := 0,
          done := st.done ++ [String.mk (lit ++ st.cur).reverse] }
      else st
    else
      { st with cur := c :: (lit ++ st.cur), backslashes := 0, started := true }

/-- The arguments that the documented Windows rules read from a command line. -/
def win_split (cmdline : String) : List String :=
  let st := cmdline.toList.foldl split_step ⟨[], false, false, 0, []⟩
  if st.started then
    st.done ++ [String.mk (List.replicate st.backslashes (Char.ofNat 92) ++ st.cur).reverse]
  else st.done

/-! ## Invariant and worked examples -/

/-- The lifecycle invariant of a handle: running and "exit code valid" exclude
each other and one of them holds, and the pid is that of a forked child. -/
def Inv (p : ProcessData) : Prop :=
  p.is_running = !p.exit_code_valid ∧ 0 < p.pid

/-- The demonstration answers: three pipes, a pty pair, and a fork that
returns pid 4242 to the parent; exec fails in the child. -/
def demo_os : SpawnOs where
  calloc_ok := true
  openpty := some (9, 10)
  pipe_stdin := some (3, 4)
  pipe_stdout := some (5, 6)
  pipe_stderr := some (7, 8)
  malloc_ok := true
  fork := 4242
  ioctl_ok := true
  null_fd := 11
  execvp_ok := false

/-- The handle that spawn("cat") returns under the demonstration answers. -/
def demo_proc : ProcessData where
  pid := 4242
  stdin_fd := 4
  stdout_fd := 5
  stderr_fd := 7
  pty_master := -1
  use_pty := false
  is_running := true
  exit_code := 0
  exit_code_valid := false
  stdin_open := true
  stdout_open := true
  stderr_open := true
  stdout_buf_size := 4096
  stdout_buf_len := 0
  stderr_buf_size := 4096
  stderr_buf_len := 0
  command := "cat"
  cwd := none

/-- The OS calls of spawn("cat") under the demonstration answers. -/
def demo_trace : List Sys :=
  [.pipe (some (3, 4)), .pipe (some (5, 6)), .pipe (some (7, 8)), .malloc_argv true, .fork 4242,
   .close 3, .close 6, .close 8, .fcntl_nonblock 4, .fcntl_nonblock 5, .fcntl_nonblock 7]

/-- The options of the pty example: stdout on a pty, stderr on a pipe. -/
def pty_options : ZymValue :=
  .map [("stdout", .string "pty"), ("stderr", .string "pipe")]

/-- The handle that spawn("sh", [], pty_options) returns under the
demonstration answers. -/
def pty_proc : ProcessData where
  pid := 4242
  stdin_fd := 9
  stdout_fd := 9
  stderr_fd := -1
  pty_master := 9
  use_pty := true
  is_running := true
  exit_code := 0
  exit_code_valid := false
  stdin_open := true
  stdout_open := true
  stderr_open := false
  stdout_buf_size := 4096
  stdout_buf_len := 0
  stderr_buf_size := 4096
  stderr_buf_len := 0
  command := "sh"
  cwd := none

/-- The OS calls of spawn("sh", [], pty_options) under the demonstration answers. -/
def pty_trace : List Sys :=
  [.openpty (some (9, 10)), .fcntl_nonblock 9, .malloc_argv true, .fork 4242, .close 10]

/-- An event of the channel phase: neither a fork nor a successful exec. -/
def Sys.is_channel_event (e : Sys) : Prop :=
  (∀ pid, e ≠ Sys.fork pid) ∧ ∀ f v, e ≠ Sys.execvp f v true

/-- The handle that spawn("/no/such/program") returns under the
demonstration answers. -/
def missing_proc : ProcessData :=
  { demo_proc with command := "/no/such/program" }

/-- Windows answers in which the first CreatePipe succeeds with handles 100
and 104 and every later call fails. -/
def win_os_pipe_fails : WinOs where
  malloc_ok := true
  pipe_in := some (100, 104)
  pipe_out := none
  pseudo_console := none
  attr_malloc_ok := false
  attr_init_ok := false
  attr_update_ok := false
  create_process := some (200, 204, 4242, 4243)
  pipe_stdin := none
  pipe_stdout := some (108, 112)
  pipe_stderr := some (116, 120)
  nul_stdin := -1
  nul_stdout := -1
  nul_stderr := -1
  std_input := 4
  std_output := 8
  std_error := 12

/-- A fresh 16-byte buffer. -/
def demo_buffer : BufferData where
  data := List.replicate 16 0
  capacity := 16
  length := 0
  position := 0
  position_ref := 0
  length_ref := 0
  auto_grow := false
  endianness := 0

/-- The Buffer object of a buffer, as far as the process natives look at it. -/
def buffer_object (b : BufferData) : ZymValue :=
  .map [("getLength", .closure "buffer_getLength()" (some b))]

/-- Options that send stdout to the null device. -/
def quiet_options : ZymValue :=
  .map [("stdout", .string "null")]

/-- The handle that spawn("cat", [], quiet_options) returns under the
demonstration answers: stdout is not open. -/
def quiet_proc : ProcessData :=
  { demo_proc with stdout_fd := -1, stdout_open := false }

/-- The OS calls of spawn("cat", [], quiet_options) under the demonstration answers. -/
def quiet_trace : List Sys :=
  [.pipe (some (3, 4)), .pipe (some (7, 8)), .malloc_argv true, .fork 4242,
   .close 3, .close 8, .fcntl_nonblock 4, .fcntl_nonblock 7]

/-- The state in which an iteration of the loop ends. -/
def IterEnd.state : IterEnd → DrainState
  | .oom s => s
  | .next s => s
  | .done s => s

/-- Answers of an iteration in which the child has exited with status 0 and a
full chunk of 4095 bytes c is delivered on stdout, none on stderr. -/
def flood (c : Nat) : IterAns :=
  ⟨4242, 0, .ok (List.replicate 4095 c), .fail 11, true, true⟩

/-- The bytes that the loop appends for the value a read returned. -/
def chunk_of (v : ZymValue) : List Char :=
  match v with
  | .string s => cstr s.toList
  | _ => []

/-- Answers of an iteration in which the child is still running and nothing
can be read. -/
def idle : IterAns :=
  ⟨0, 0, .fail 11, .fail 11, true, true⟩

/-- Answers of an iteration in which the child is found to have exited with
the given status word; "ok" arrives on stdout. -/
def exited_with (status : Int) : IterAns :=
  ⟨4242, status, .ok [111, 107], .fail 11, true, true⟩

/-- Windows answers in which every call succeeds. -/
def win_os_ok : WinOs :=
  { win_os_pipe_fails with pipe_stdin := some (100, 104) }

/-- The Windows handle of spawn("cmd") with default options under win_os_ok:
stdin on handle 104, stdout on 108, stderr on 116. -/
def win_proc : WinProcessData :=
  (spawn_process_windows (initial_win_proc "cmd" .null) .null .null win_os_ok).proc

/-! ## Trace predicates and further worked examples -/

/-- What a Win32 event of the launcher says about the command line: the size
asked of malloc and the string handed to CreateProcessA. -/
def WinSys.cmdline_facts (size : Nat) (cmdline : String) : WinSys → Prop
  | .malloc_cmdline n _ => n = size
  | .CreateProcessA c _ _ _ => c = cmdline
  | _ => True

/-- A command "prog" with the arguments a b, the number 1, the empty string
and c. -/
def sample_args : ZymValue :=
  .list [.string "a b", .number 1, .string "", .string "c"]

/-- An argument list whose single argument is 40000 letters long. -/
def long_args : ZymValue :=
  .list [.string (String.mk (List.replicate 40000 (Char.ofNat 97)))]

/-- An argument list whose single argument is a, a double quote, b. -/
def quote_args : ZymValue :=
  .list [.string (String.mk [Char.ofNat 97, Char.ofNat 34, Char.ofNat 98])]

/-- The root operations made by a run of nativeBuffer_create. -/
def BufferCreate.roots : BufferCreate → List RootOp
  | .fault _ => []
  | .created _ _ roots => roots

/-- The Buffer object returned by a run of nativeBuffer_create (the error
value after a runtime error). -/
def BufferCreate.obj : BufferCreate → ZymValue
  | .fault _ => .error
  | .created _ obj _ => obj

/-- The number of zym_pushRoot calls in a sequence of root operations. -/
def pushes (ops : List RootOp) : Nat :=
  (ops.filter (fun o => o != RootOp.pop)).length

/-- The number of zym_popRoot calls in a sequence of root operations. -/
def pops (ops : List RootOp) : Nat :=
  ops.count RootOp.pop

/-- The 16-byte buffer after two bytes were written into it and the position
was set back to the start. -/
def filled_buffer : BufferData :=
  { demo_buffer with data := [104, 105] ++ List.replicate 14 0, length := 2, length_ref := 2 }

/-- Options that ask for a working directory that does not exist. -/
def bad_cwd_options : ZymValue :=
  .map [("cwd", .string "/no/such/dir")]

/-- Answers of the OS as seen by the forked child of the demonstration (fork
returns 0) when the program exists. -/
def child_os : SpawnOs :=
  { demo_os with fork := 0, execvp_ok := true }

/-- The bytes that one read(2) of at most 4095 bytes put into the stack
buffer of a read operation: none when the call failed. -/
def delivered : ReadAns → List Nat
  | .ok bytes => bytes.take 4095
  | .fail _ => []

/-- The characters of delivered bytes up to the first NUL: what the C string
made from the stack buffer holds. -/
def text_of (bytes : List Nat) : List Char :=
  cstr (bytes.map Char.ofNat)

/-- Answers of an iteration in which the child is found to have exited with
status 0 and the three bytes h, NUL, i arrive on stdout. -/
def nul_output : IterAns :=
  ⟨4242, 0, .ok [104, 0, 105], .fail 11, true, true⟩

/-! ## Shared lemmas -/

theorem step_exited (P : Posix) (p : ProcessData) (op : Op) (h : p.is_running = false) :
    (step P p op).proc.is_running = false ∧
    (step P p op).proc.exit_code = p.exit_code ∧
    (step P p op).proc.exit_code_valid = p.exit_code_valid := by
  cases op <;>
    simp only [step, process_write, process_writeBuffer, process_closeStdin, process_read,
      process_readErr, process_readNonBlock, process_readToBuffer, process_kill, process_wait,
      process_poll, process_isRunning, process_getPid, process_getExitCode, read_chunk,
      OpResult.pure, OpResult.raise] <;>
    (repeat' split) <;> simp_all

theorem run_exited (P : Posix) (ops : List Op) (p : ProcessData) (h : p.is_running = false) :
    (run P p ops).is_running = false ∧
    (run P p ops).exit_code = p.exit_code ∧
    (run P p ops).exit_code_valid = p.exit_code_valid := by
  induction ops generalizing p with
  | nil => simp [run, h]
  | cons op ops ih =>
    obtain ⟨h1, h2, h3⟩ := step_exited P p op h
    obtain ⟨k1, k2, k3⟩ := ih (step P p op).proc h1
    simp only [run]
    exact ⟨k1, k2.trans h2, k3.trans h3⟩

theorem step_trace_exited (P : Posix) (p : ProcessData) (op : Op) (h : p.is_running = false) :
    ∀ e ∈ (step P p op).trace, e.is_waitpid = false := by
  cases op <;>
    simp only [step, process_write, process_writeBuffer, process_closeStdin, process_read,
      process_readErr, process_readNonBlock, process_readToBuffer, process_kill, process_wait,
      process_poll, process_isRunning, process_getPid, process_getExitCode, read_chunk,
      OpResult.pure, OpResult.raise] <;>
    (repeat' split) <;> simp_all [Sys.is_waitpid]

theorem run_trace_exited (P : Posix) (ops : List Op) (p : ProcessData) (h : p.is_running = false) :
    ∀ e ∈ run_trace P p ops, e.is_waitpid = false := by
  induction ops generalizing p with
  | nil => simp [run_trace]
  | cons op ops ih =>
    intro e he
    simp only [run_trace, List.mem_append] at he
    rcases he with he | he
    · exact step_trace_exited P p op h e he
    · exact ih (step P p op).proc (step_exited P p op h).1 e he

theorem step_inv (P : Posix) (p : ProcessData) (op : Op) (h : Inv p) : Inv (step P p op).proc := by
  obtain ⟨h1, h2⟩ := h
  cases op <;>
    simp only [Inv, step, process_write, process_writeBuffer, process_closeStdin, process_read,
      process_readErr, process_readNonBlock, process_readToBuffer, process_kill, process_wait,
      process_poll, process_isRunning, process_getPid, process_getExitCode, read_chunk,
      OpResult.pure, OpResult.raise] <;>
    (repeat' split) <;> simp_all

theorem run_inv (P : Posix) (ops : List Op) (p : ProcessData) (h : Inv p) : Inv (run P p ops) := by
  induction ops generalizing p with
  | nil => simpa [run] using h
  | cons op ops ih => exact ih _ (step_inv P p op h)

theorem spawn_from_argv_ok (proc : ProcessData) (argsVal : ZymValue) (use_pty : Bool)
    (m0 m1 m2 : StdioMode) (a b c pty : Int × Int) (os : SpawnOs) (pre : List Sys)
    (q : ProcessData) (tr : List Sys)
    (h : spawn_from_argv proc argsVal use_pty m0 m1 m2 a b c pty os pre = .returned true q tr) :
    0 < os.fork ∧
    q = (parent_side proc use_pty m0 m1 m2 a b c pty os.fork).1 := by
  unfold spawn_from_argv at h
  split at h
  · simp at h
  · split at h
    · simp at h
    · split at h
      · simp at h
      · rename_i h1 h2 h3
        simp only [Launch.returned.injEq, true_and] at h
        refine ⟨?_, h.1.symm⟩
        simp at h2 h3
        omega

theorem parent_side_inv (proc : ProcessData) (use_pty : Bool)
    (m0 m1 m2 : StdioMode) (a b c pty : Int × Int) (pid : Int) :
    (parent_side proc use_pty m0 m1 m2 a b c pty pid).1.is_running = true ∧
    (parent_side proc use_pty m0 m1 m2 a b c pty pid).1.pid = pid ∧
    (parent_side proc use_pty m0 m1 m2 a b c pty pid).1.exit_code_valid = proc.exit_code_valid := by
  unfold parent_side
  split
  · simp
  · simp only []
    split <;> split <;> split <;> simp

theorem spawn_unix_ok (P : Posix) (proc : ProcessData) (argsVal optionsMap : ZymValue) (os : SpawnOs)
    (q : ProcessData) (tr : List Sys)
    (h : spawn_process_unix P proc argsVal optionsMap os = .returned true q tr) :
    0 < os.fork ∧
    ∃ proc1 a b c pty,
      q = (parent_side proc1 (wants_pty optionsMap) (stdio_mode optionsMap "stdin")
            (stdio_mode optionsMap "stdout") (stdio_mode optionsMap "stderr") a b c pty os.fork).1 ∧
      proc1.exit_code_valid = proc.exit_code_valid ∧
      (wants_pty optionsMap = true →
        P.has_openpty = true ∧ os.openpty = some pty ∧ proc1.pty_master = pty.1) ∧
      (wants_pty optionsMap = false → proc1 = proc) := by
  unfold spawn_process_unix at h
  simp only [] at h
  split at h
  · rename_i hw
    split at h
    · split at h
      · simp at h
      · rename_i pty hpty
        obtain ⟨h1, h2⟩ := spawn_from_argv_ok _ _ _ _ _ _ _ _ _ _ _ _ _ _ h
        refine ⟨h1, ?_, ?_, ?_, ?_, pty, ?_, ?_, ?_, ?_⟩
        rotate_left 4
        · rw [hw]; exact h2
        · rfl
        · intro _; simp_all
        · intro hc; simp [hw] at hc
    · simp at h
  · rename_i hw
    split at h
    · simp at h
    · split at h
      · simp at h
      · split at h
        · simp at h
        · obtain ⟨h1, h2⟩ := spawn_from_argv_ok _ _ _ _ _ _ _ _ _ _ _ _ _ _ h
          refine ⟨h1, proc, ?_, ?_, ?_, ?_, ?_, ?_, ?_, ?_⟩
          rotate_left 4
          · simp only [Bool.not_eq_true] at hw
            rw [hw]; exact h2
          · rfl
          · intro hc; simp [hc] at hw
          · intro _; rfl

theorem spawn_handle_cases (P : Posix) (commandVal argsVal optionsMap : ZymValue) (os : SpawnOs)
    (obj : ZymValue) (p0 : ProcessData) (tr : List Sys)
    (h : nativeProcess_spawn P commandVal argsVal optionsMap os = .handle obj p0 tr) :
    ∃ command, commandVal = .string command ∧ obj = handle_object ∧
      spawn_process_unix P (initial_proc command optionsMap) argsVal optionsMap os
        = .returned true p0 tr := by
  unfold nativeProcess_spawn at h
  split at h
  · rename_i command
    split at h
    · simp at h
    · split at h
      · simp at h
      · simp at h
      · rename_i proc trace heq
        simp only [SpawnResult.handle.injEq] at h
        obtain ⟨h1, h2, h3⟩ := h
        subst h1 h2 h3
        exact ⟨command, rfl, rfl, heq⟩
  · simp at h

theorem spawn_handle_inv (P : Posix) (commandVal argsVal optionsMap : ZymValue) (os : SpawnOs)
    (obj : ZymValue) (p0 : ProcessData) (tr : List Sys)
    (h : nativeProcess_spawn P commandVal argsVal optionsMap os = .handle obj p0 tr) :
    Inv p0 ∧ p0.is_running = true := by
  obtain ⟨command, _, _, hs⟩ := spawn_handle_cases P _ _ _ _ _ _ _ h
  obtain ⟨hpos, proc1, a, b, c, pty, hq, hv, _, _⟩ := spawn_unix_ok P _ _ _ _ _ _ hs
  obtain ⟨k1, k2, k3⟩ := parent_side_inv proc1 (wants_pty optionsMap) (stdio_mode optionsMap "stdin")
    (stdio_mode optionsMap "stdout") (stdio_mode optionsMap "stderr") a b c pty os.fork
  rw [← hq] at k1 k2 k3
  refine ⟨⟨?_, ?_⟩, k1⟩
  · rw [k1, k3, hv]; rfl
  · rw [k2]; exact hpos

theorem reachable_inv (P : Posix) (p : ProcessData) (h : Reachable P p) : Inv p := by
  obtain ⟨c, a, o, os, obj, p0, tr, ops, hs, rfl⟩ := h
  exact run_inv P ops p0 (spawn_handle_inv P c a o os obj p0 tr hs).1

theorem step_stderr_open (P : Posix) (p : ProcessData) (op : Op) :
    (step P p op).proc.stderr_open = p.stderr_open := by
  cases op <;>
    simp only [step, process_write, process_writeBuffer, process_closeStdin, process_read,
      process_readErr, process_readNonBlock, process_readToBuffer, process_kill, process_wait,
      process_poll, process_isRunning, process_getPid, process_getExitCode, read_chunk,
      OpResult.pure, OpResult.raise] <;>
    (repeat' split) <;> simp_all

theorem run_stderr_open (P : Posix) (ops : List Op) (p : ProcessData) :
    (run P p ops).stderr_open = p.stderr_open := by
  induction ops generalizing p with
  | nil => rfl
  | cons op ops ih => simp only [run]; rw [ih, step_stderr_open]

/-- The handle right after wait or poll returned a number holds that number as
its valid, cached exit code and is no longer running. -/
theorem code_returned (P : Posix) (p : ProcessData) (hp : Inv p) (first : Op) (r s c : Int)
    (hfirst : first = .wait r s ∨ first = .poll r s)
    (hret : (step P p first).ret = .number c) :
    (step P p first).proc.is_running = false ∧
    (step P p first).proc.exit_code_valid = true ∧
    (step P p first).proc.exit_code = c := by
  obtain ⟨h1, _⟩ := hp
  rcases hfirst with rfl | rfl
  · simp only [step, process_wait, OpResult.pure] at hret ⊢
    split at hret <;> simp_all
  · simp only [step, process_poll, OpResult.pure] at hret ⊢
    split at hret
    · split at hret <;> simp_all
    · split at hret <;> simp_all

theorem demo_spawn :
    nativeProcess_spawn linux (.string "cat") .null .null demo_os
      = .handle handle_object demo_proc demo_trace := by
  rfl

theorem demo_reachable : Reachable linux demo_proc :=
  ⟨.string "cat", .null, .null, demo_os, handle_object, demo_proc, demo_trace, [], demo_spawn, rfl⟩

/-- C2: on a handle produced by a successful spawn and any operations, once
wait() or poll() has returned an exit code c, then after every sequence of
further handle operations isRunning() returns false and getExitCode(), wait()
and poll() return exactly c; none of these four calls and none of the
operations in between issues a waitpid. -/
theorem exit_code_is_sticky (P : Posix) (p : ProcessData) (hp : Reachable P p)
    (first : Op) (r s c : Int) (hfirst : first = .wait r s ∨ first = .poll r s)
    (hret : (step P p first).ret = .number c) (ops : List Op) (result status : Int) :
    (process_isRunning P (run P (step P p first).proc ops) result status).ret = .bool false ∧
    (process_getExitCode (run P (step P p first).proc ops)).ret = .number c ∧
    (process_wait P (run P (step P p first).proc ops) result status).ret = .number c ∧
    (process_poll P (run P (step P p first).proc ops) result status).ret = .number c ∧
    (process_isRunning P (run P (step P p first).proc ops) result status).trace = [] ∧
    (process_getExitCode (run P (step P p first).proc ops)).trace = [] ∧
    (process_wait P (run P (step P p first).proc ops) result status).trace = [] ∧
    (process_poll P (run P (step P p first).proc ops) result status).trace = [] ∧
    (∀ e ∈ run_trace P (step P p first).proc ops, e.is_waitpid = false) := by
  obtain ⟨h1, h2, h3⟩ := code_returned P p (reachable_inv P p hp) first r s c hfirst hret
  obtain ⟨k1, k2, k3⟩ := run_exited P ops _ h1
  rw [h3] at k2
  rw [h2] at k3
  refine ⟨?_, ?_, ?_, ?_, ?_, ?_, ?_, ?_, run_trace_exited P ops _ h1⟩ <;>
    simp [process_isRunning, process_getExitCode, process_wait, process_poll, OpResult.pure,
      k1, k2, k3]

theorem exit_code_is_sticky_witness :
    (process_isRunning linux
        (run linux (step linux demo_proc (.wait 4242 1792)).proc [.kill .null 0, .read (.ok [104, 105])])
        4242 0).ret = .bool false ∧
    (process_getExitCode
        (run linux (step linux demo_proc (.wait 4242 1792)).proc [.kill .null 0, .read (.ok [104, 105])])).ret
      = .number 7 :=
  have h := exit_code_is_sticky linux demo_proc demo_reachable (.wait 4242 1792) 4242 1792 7
    (Or.inl rfl) (by rfl) [.kill .null 0, .read (.ok [104, 105])] 4242 0
  ⟨h.1, h.2.1⟩

/-- C3: the lifecycle is one-directional. On an Exited handle every operation,
and on a Running handle every operation other than wait, poll and isRunning,
leaves the running flag, the cached exit code and its validity flag exactly as
they were: nothing brings an Exited handle back to Running or changes its code,
and only wait, poll or the poll inside isRunning can end the Running state. -/
theorem lifecycle_one_directional (P : Posix) (p : ProcessData) (op : Op)
    (h : p.is_running = false ∨ op.is_wait_or_poll = false) :
    (step P p op).proc.is_running = p.is_running ∧
    (step P p op).proc.exit_code = p.exit_code ∧
    (step P p op).proc.exit_code_valid = p.exit_code_valid := by
  rcases h with h | h
  · have := step_exited P p op h
    rw [h]; exact this
  · cases op <;>
      simp only [step, process_write, process_writeBuffer, process_closeStdin, process_read,
        process_readErr, process_readNonBlock, process_readToBuffer, process_kill, process_wait,
        process_poll, process_isRunning, process_getPid, process_getExitCode, read_chunk,
        OpResult.pure, OpResult.raise] <;>
      (repeat' split) <;> simp_all [Op.is_wait_or_poll]

theorem lifecycle_one_directional_witness :
    (step linux demo_proc (.kill (.string "SIGKILL") 0)).proc.is_running = true ∧
    (step linux (step linux demo_proc (.wait 4242 9)).proc (.kill .null 0)).proc.exit_code = 137 :=
  ⟨(lifecycle_one_directional linux demo_proc (.kill (.string "SIGKILL") 0) (Or.inr rfl)).1,
   (lifecycle_one_directional linux (step linux demo_proc (.wait 4242 9)).proc (.kill .null 0)
      (Or.inl rfl)).2.1⟩

/-- C4: on a Running handle wait() caches and returns the code derived from the
status word by one rule, and poll() does the same whenever its WNOHANG waitpid
returned a positive pid: WEXITSTATUS when WIFEXITED, 128 + WTERMSIG when
WIFSIGNALED, and -1 otherwise. Both leave the handle Exited with that code
valid. -/
theorem exit_code_derivation (P : Posix) (p : ProcessData) (res result status : Int)
    (hrun : p.is_running = true) (hres : 0 < result) :
    (process_wait P p res status).ret
      = .number (if P.WIFEXITED status then P.WEXITSTATUS status
                 else if P.WIFSIGNALED status then 128 + P.WTERMSIG status else -1) ∧
    (process_wait P p res status).proc.exit_code
      = (if P.WIFEXITED status then P.WEXITSTATUS status
         else if P.WIFSIGNALED status then 128 + P.WTERMSIG status else -1) ∧
    (process_wait P p res status).proc.exit_code_valid = true ∧
    (process_wait P p res status).proc.is_running = false ∧
    (process_poll P p result status).ret = (process_wait P p res status).ret ∧
    (process_poll P p result status).proc = (process_wait P p res status).proc := by
  simp [process_wait, process_poll, exit_code_of, hrun, hres]

theorem exit_code_derivation_witness :
    (process_wait linux demo_proc 4242 (7 * 256)).ret = .number 7 ∧
    (process_poll linux demo_proc 4242 (7 * 256)).ret = .number 7 ∧
    (process_wait linux demo_proc 4242 15).ret = .number (128 + 15) ∧
    (process_wait linux demo_proc 4242 (5 * 256 + 127)).ret = .number (-1) :=
  have h7 := exit_code_derivation linux demo_proc 4242 4242 (7 * 256) rfl (by decide)
  have h15 := exit_code_derivation linux demo_proc 4242 4242 15 rfl (by decide)
  have hst := exit_code_derivation linux demo_proc 4242 4242 (5 * 256 + 127) rfl (by decide)
  ⟨h7.1, h7.2.2.2.2.1.trans h7.1, h15.1, hst.1⟩

/-- C5: in every state reachable from a successful spawn exactly one of
"is running" and "exit code is valid" holds; getExitCode() returns null if and
only if the handle is Running; poll() returns null only when the handle is
Running afterwards; getPid() and getExitCode() leave the handle unchanged and
make no OS call. -/
theorem running_xor_code_valid (P : Posix) (p : ProcessData) (hp : Reachable P p)
    (result status : Int) :
    p.is_running = !p.exit_code_valid ∧
    ((process_getExitCode p).ret = .null ↔ p.is_running = true) ∧
    ((process_poll P p result status).ret = .null →
      (process_poll P p result status).proc.is_running = true) ∧
    (process_getPid p).proc = p ∧ (process_getPid p).trace = [] ∧
    (process_getExitCode p).proc = p ∧ (process_getExitCode p).trace = [] := by
  obtain ⟨h1, _⟩ := reachable_inv P p hp
  refine ⟨h1, ?_, ?_, ?_, ?_, ?_, ?_⟩
  · cases hv : p.exit_code_valid <;> simp_all [process_getExitCode, OpResult.pure]
  · simp only [process_poll, OpResult.pure]
    cases hv : p.exit_code_valid <;> simp_all
    split <;> simp [h1]
  · rfl
  · rfl
  · simp only [process_getExitCode, OpResult.pure]; split <;> rfl
  · simp only [process_getExitCode, OpResult.pure]; split <;> rfl

theorem running_xor_code_valid_witness :
    demo_proc.is_running = !demo_proc.exit_code_valid ∧
    ((process_getExitCode demo_proc).ret = .null ↔ demo_proc.is_running = true) :=
  have h := running_xor_code_valid linux demo_proc demo_reachable 0 0
  ⟨h.1, h.2.1⟩

theorem wants_pty_of_option (kvs : List (String × ZymValue))
    (h : lookupKey "stdin" kvs = .string "pty" ∨ lookupKey "stdout" kvs = .string "pty" ∨
         lookupKey "stderr" kvs = .string "pty") :
    wants_pty (.map kvs) = true := by
  have e1 : streq "pty" "inherit" = false := by decide
  have e2 : streq "pty" "null" = false := by decide
  have e3 : streq "pty" "pty" = true := by decide
  rcases h with h | h | h <;>
    simp [wants_pty, stdio_mode, zym_mapGet, zym_isNull, zym_isMap, h, e1, e2, e3]

/-- C6: when at least one of the stdin, stdout and stderr options is "pty", a
successful spawn leaves stdin and stdout open on the master of the one pty pair
that openpty returned, leaves stderr not open (descriptor -1) whatever mode
stderr asked for, and after any sequence of handle operations readErr()
returns the empty string without reading. -/
theorem pty_merges_stderr (P : Posix) (commandVal argsVal : ZymValue)
    (kvs : List (String × ZymValue)) (os : SpawnOs) (obj : ZymValue) (p0 : ProcessData)
    (tr : List Sys)
    (hpty : lookupKey "stdin" kvs = .string "pty" ∨ lookupKey "stdout" kvs = .string "pty" ∨
            lookupKey "stderr" kvs = .string "pty")
    (h : nativeProcess_spawn P commandVal argsVal (.map kvs) os = .handle obj p0 tr)
    (ops : List Op) (ans : ReadAns) :
    (∃ pty, os.openpty = some pty ∧ p0.pty_master = pty.1 ∧
      p0.stdin_fd = pty.1 ∧ p0.stdout_fd = pty.1) ∧
    p0.stdin_open = true ∧ p0.stdout_open = true ∧
    p0.stderr_fd = -1 ∧ p0.stderr_open = false ∧
    (process_readErr P (run P p0 ops) ans).ret = .string "" ∧
    (process_readErr P (run P p0 ops) ans).trace = [] := by
  have hw := wants_pty_of_option kvs hpty
  obtain ⟨command, _, _, hs⟩ := spawn_handle_cases P _ _ _ _ _ _ _ h
  obtain ⟨_, proc1, a, b, c, pty, hq, _, hp, _⟩ := spawn_unix_ok P _ _ _ _ _ _ hs
  obtain ⟨_, hopen, hm⟩ := hp hw
  rw [hw] at hq
  simp only [parent_side, if_true] at hq
  have hserr : (run P p0 ops).stderr_open = false := by
    rw [run_stderr_open, hq]
  have hr1 : (process_readErr P (run P p0 ops) ans).ret = .string "" := by
    simp [process_readErr, OpResult.pure, hserr]
  have hr2 : (process_readErr P (run P p0 ops) ans).trace = [] := by
    simp [process_readErr, OpResult.pure, hserr]
  refine ⟨⟨pty, hopen, ?_, ?_, ?_⟩, ?_, ?_, ?_, ?_, hr1, hr2⟩ <;> simp [hq, hm]

theorem pty_spawn :
    nativeProcess_spawn linux (.string "sh") (.list []) pty_options demo_os
      = .handle handle_object pty_proc pty_trace := by
  rfl

theorem pty_reachable : Reachable linux pty_proc :=
  ⟨.string "sh", .list [], pty_options, demo_os, handle_object, pty_proc, pty_trace, [], pty_spawn, rfl⟩

theorem pty_merges_stderr_witness :
    pty_proc.stderr_open = false ∧
    (process_readErr linux (run linux pty_proc [.closeStdin, .read (.ok [36, 32])])
      (.ok [111, 111, 112, 115])).ret = .string "" :=
  have h := pty_merges_stderr linux (.string "sh") (.list [])
    [("stdout", .string "pty"), ("stderr", .string "pipe")] demo_os handle_object pty_proc pty_trace
    (Or.inr (Or.inl rfl)) pty_spawn [.closeStdin, .read (.ok [36, 32])] (.ok [111, 111, 112, 115])
  ⟨h.2.2.2.2.1, h.2.2.2.2.2.1⟩

/-- C7: cleanup of a handle that is still Running sends SIGTERM to the child,
sleeps, polls, sends SIGKILL and then issues a blocking waitpid on the pid of
the child as its last OS call; everything before that sequence is a close of a
descriptor. -/
theorem cleanup_reaps_running_child (P : Posix) (p : ProcessData) (hp : Reachable P p)
    (hrun : p.is_running = true) (k1 w1 k2 w2 : Int) :
    process_cleanup P p k1 w1 k2 w2 =
      cleanup_closes p ++
        [Sys.kill p.pid P.SIGTERM k1, Sys.usleep 100000, Sys.waitpid p.pid P.WNOHANG w1,
         Sys.kill p.pid P.SIGKILL k2, Sys.waitpid p.pid 0 w2] ∧
    (process_cleanup P p k1 w1 k2 w2).getLast? = some (Sys.waitpid p.pid 0 w2) ∧
    (∀ e ∈ cleanup_closes p, ∃ fd, e = Sys.close fd) := by
  obtain ⟨_, hpid⟩ := reachable_inv P p hp
  have hc : process_cleanup P p k1 w1 k2 w2 =
      cleanup_closes p ++
        [Sys.kill p.pid P.SIGTERM k1, Sys.usleep 100000, Sys.waitpid p.pid P.WNOHANG w1,
         Sys.kill p.pid P.SIGKILL k2, Sys.waitpid p.pid 0 w2] := by
    simp [process_cleanup, cleanup_reap, hrun, hpid]
  refine ⟨hc, ?_, ?_⟩
  · rw [hc]; simp [List.getLast?_append]
  · intro e he
    simp only [cleanup_closes, List.mem_append] at he
    rcases he with ((he | he) | he) | he <;>
      (split at he <;> simp at he; exact ⟨_, he⟩)

theorem cleanup_reaps_running_child_witness :
    (process_cleanup linux demo_proc 0 0 0 4242).getLast? = some (Sys.waitpid 4242 0 4242) :=
  (cleanup_reaps_running_child linux demo_proc demo_reachable rfl 0 0 0 4242).2.1

theorem getLast?_append_some (l1 l2 : List Sys) (x : Sys) (h : l2.getLast? = some x) :
    (l1 ++ l2).getLast? = some x := by
  rw [List.getLast?_append, h]; rfl

theorem child_tail_last (proc : ProcessData) (argv : List String) :
    ((match proc.cwd with
      | some d => [Sys.chdir d]
      | none => []) ++ [Sys.execvp proc.command argv false] ++ [Sys.child_exit 127]).getLast?
      = some (Sys.child_exit 127) := by
  apply getLast?_append_some; rfl

theorem child_side_last (proc : ProcessData) (use_pty : Bool) (m0 m1 m2 : StdioMode)
    (a b c pty : Int × Int) (argv : List String) (os : SpawnOs) (h : os.execvp_ok = false) :
    ((child_side proc use_pty m0 m1 m2 a b c pty argv os).getLast? = some (Sys.child_exit 127) ∨
     (child_side proc use_pty m0 m1 m2 a b c pty argv os).getLast? = some (Sys.child_exit 1)) ∧
    ∀ f v, Sys.execvp f v true ∉ child_side proc use_pty m0 m1 m2 a b c pty argv os := by
  unfold child_side
  simp only [h]
  constructor
  · split
    · by_cases hi : os.ioctl_ok = true
      · left
        simp only [hi, Bool.not_true, Bool.false_eq_true, if_false]
        apply getLast?_append_some
        apply getLast?_append_some
        exact child_tail_last proc argv
      · right
        simp only [hi, Bool.not_false, if_true]
        apply getLast?_append_some; simp
    · left
      apply getLast?_append_some
      exact child_tail_last proc argv
  · intro f v
    split
    · by_cases hi : os.ioctl_ok = true
      · simp only [hi]
        cases proc.cwd <;> simp
      · simp [hi]
    · cases proc.cwd <;> simp <;> (repeat' split) <;> simp

theorem close_pair_closes (p : Int × Int) : ∀ e ∈ close_pair p, ∃ fd, e = Sys.close fd := by
  intro e he
  unfold close_pair at he
  split at he
  · simp at he
    rcases he with he | he <;> exact ⟨_, he⟩
  · simp at he

theorem release_no_fork (a b c pty : Int × Int) (pid : Int) :
    Sys.fork pid ∉ close_pair a ++ close_pair b ++ close_pair c ++ close_pair pty := by
  intro hmem
  simp only [List.mem_append] at hmem
  rcases hmem with ((hmem | hmem) | hmem) | hmem <;>
    (obtain ⟨fd, hfd⟩ := close_pair_closes _ _ hmem; cases hfd)

theorem spawn_from_argv_failed (proc : ProcessData) (argsVal : ZymValue) (use_pty : Bool)
    (m0 m1 m2 : StdioMode) (a b c pty : Int × Int) (os : SpawnOs) (pre : List Sys)
    (hpre : ∀ e ∈ pre, ∀ pid, e ≠ Sys.fork pid) (q : ProcessData) (tr : List Sys)
    (h : spawn_from_argv proc argsVal use_pty m0 m1 m2 a b c pty os pre = .returned false q tr) :
    ∀ pid, Sys.fork pid ∈ tr → pid < 0 := by
  unfold spawn_from_argv at h
  simp only [] at h
  intro pid hmem
  split at h
  · simp only [Launch.returned.injEq, true_and] at h
    rw [← h.2] at hmem
    simp only [List.mem_append, List.mem_singleton] at hmem
    rcases hmem with (hmem | hmem) | hmem
    · exact absurd rfl (hpre _ hmem pid)
    · cases hmem
    · exact absurd (by simpa only [List.mem_append] using hmem) (release_no_fork a b c pty pid)
  · split at h
    · rename_i hf
      simp only [Launch.returned.injEq, true_and] at h
      rw [← h.2] at hmem
      simp only [List.mem_append, List.mem_cons, List.mem_singleton] at hmem
      rcases hmem with (hmem | hmem) | hmem
      · exact absurd rfl (hpre _ hmem pid)
      · rcases hmem with hmem | hmem | hmem
        · cases hmem
        · cases hmem; exact hf
        · simp at hmem
      · exact absurd (by simpa only [List.mem_append] using hmem) (release_no_fork a b c pty pid)
    · split at h <;> simp at h

theorem spawn_from_argv_forked (proc : ProcessData) (argsVal : ZymValue) (use_pty : Bool)
    (m0 m1 m2 : StdioMode) (a b c pty : Int × Int) (os : SpawnOs) (pre : List Sys)
    (q : ProcessData) (tr : List Sys)
    (h : spawn_from_argv proc argsVal use_pty m0 m1 m2 a b c pty os pre = .returned true q tr) :
    Sys.fork os.fork ∈ tr := by
  unfold spawn_from_argv at h
  simp only [] at h
  split at h
  · simp at h
  · split at h
    · simp at h
    · split at h
      · simp at h
      · simp only [Launch.returned.injEq, true_and] at h
        rw [← h.2]
        simp

theorem spawn_from_argv_child (proc : ProcessData) (argsVal : ZymValue) (use_pty : Bool)
    (m0 m1 m2 : StdioMode) (a b c pty : Int × Int) (os : SpawnOs) (pre : List Sys)
    (hpre : ∀ e ∈ pre, ∀ f v, e ≠ Sys.execvp f v true) (tr : List Sys)
    (hx : os.execvp_ok = false)
    (h : spawn_from_argv proc argsVal use_pty m0 m1 m2 a b c pty os pre = .child tr) :
    (tr.getLast? = some (Sys.child_exit 127) ∨ tr.getLast? = some (Sys.child_exit 1)) ∧
    ∀ f v, Sys.execvp f v true ∉ tr := by
  unfold spawn_from_argv at h
  simp only [] at h
  split at h
  · simp at h
  · split at h
    · simp at h
    · split at h
      · simp only [Launch.child.injEq] at h
        obtain ⟨h1, h2⟩ := child_side_last proc use_pty m0 m1 m2 a b c pty
          (String.mk (cstr proc.command.toList) :: string_args argsVal) os hx
        rw [← h]
        constructor
        · rcases h1 with h1 | h1
          · left; exact getLast?_append_some _ _ _ h1
          · right; exact getLast?_append_some _ _ _ h1
        · intro f v hmem
          simp only [List.mem_append, List.mem_cons] at hmem
          rcases hmem with (hmem | hmem) | hmem
          · exact absurd rfl (hpre _ hmem f v)
          · simp at hmem
          · exact h2 f v hmem
      · simp at h

theorem close_pair_channel (p : Int × Int) : ∀ e ∈ close_pair p, e.is_channel_event := by
  intro e he
  obtain ⟨fd, rfl⟩ := close_pair_closes p e he
  exact ⟨fun _ => by simp, fun _ _ => by simp⟩

theorem spawn_unix_shape (P : Posix) (proc : ProcessData) (argsVal optionsMap : ZymValue)
    (os : SpawnOs) :
    (∃ tr0, spawn_process_unix P proc argsVal optionsMap os = .returned false proc tr0 ∧
      ∀ e ∈ tr0, e.is_channel_event) ∨
    (∃ proc1 up a b c pty pre,
      spawn_process_unix P proc argsVal optionsMap os =
        spawn_from_argv proc1 argsVal up (stdio_mode optionsMap "stdin")
          (stdio_mode optionsMap "stdout") (stdio_mode optionsMap "stderr") a b c pty os pre ∧
      ∀ e ∈ pre, e.is_channel_event) := by
  unfold spawn_process_unix
  simp only []
  split
  · split
    · split
      · left
        exact ⟨_, rfl, by simp [Sys.is_channel_event]⟩
      · right
        exact ⟨_, _, _, _, _, _, _, rfl, by simp [Sys.is_channel_event]⟩
    · left
      exact ⟨_, rfl, by simp⟩
  · split
    · left
      exact ⟨_, rfl, by simp [Sys.is_channel_event]⟩
    · split
      · left
        refine ⟨_, rfl, ?_⟩
        intro e he
        simp only [List.mem_append, List.mem_singleton] at he
        rcases he with (he | he) | he
        · split at he <;> simp at he
          subst he; simp [Sys.is_channel_event]
        · subst he; simp [Sys.is_channel_event]
        · exact close_pair_channel _ e he
      · split
        · left
          refine ⟨_, rfl, ?_⟩
          intro e he
          simp only [List.mem_append, List.mem_singleton] at he
          rcases he with (((he | he) | he) | he) | he
          · split at he <;> simp at he
            subst he; simp [Sys.is_channel_event]
          · split at he <;> simp at he
            subst he; simp [Sys.is_channel_event]
          · subst he; simp [Sys.is_channel_event]
          · exact close_pair_channel _ e he
          · exact close_pair_channel _ e he
        · right
          refine ⟨_, _, _, _, _, _, _, rfl, ?_⟩
          intro e he
          simp only [List.mem_append] at he
          rcases he with (he | he) | he <;>
            (split at he <;> simp at he; subst he; simp [Sys.is_channel_event])

/-- What the POSIX launcher can report: a failure only without a forked child,
a success only with one, and in the forked child a missing executable ends in
_exit without any program having been started. -/
theorem spawn_unix_trace (P : Posix) (proc : ProcessData) (argsVal optionsMap : ZymValue)
    (os : SpawnOs) :
    (∀ q tr, spawn_process_unix P proc argsVal optionsMap os = .returned false q tr →
      ∀ pid, Sys.fork pid ∈ tr → pid < 0) ∧
    (∀ q tr, spawn_process_unix P proc argsVal optionsMap os = .returned true q tr →
      Sys.fork os.fork ∈ tr) ∧
    (∀ tr, os.execvp_ok = false → spawn_process_unix P proc argsVal optionsMap os = .child tr →
      (tr.getLast? = some (Sys.child_exit 127) ∨ tr.getLast? = some (Sys.child_exit 1)) ∧
      ∀ f v, Sys.execvp f v true ∉ tr) := by
  rcases spawn_unix_shape P proc argsVal optionsMap os with ⟨tr0, h0, hev⟩ | ⟨proc1, up, a, b, c, pty, pre, h0, hev⟩
  · rw [h0]
    refine ⟨?_, ?_, ?_⟩
    · intro q tr h pid hmem
      simp only [Launch.returned.injEq, true_and] at h
      rw [← h.2] at hmem
      exact absurd rfl ((hev _ hmem).1 pid)
    · intro q tr h; simp at h
    · intro tr _ h; simp at h
  · rw [h0]
    refine ⟨?_, ?_, ?_⟩
    · intro q tr h
      exact spawn_from_argv_failed _ _ _ _ _ _ _ _ _ _ _ _ (fun e he => (hev e he).1) q tr h
    · intro q tr h
      exact spawn_from_argv_forked _ _ _ _ _ _ _ _ _ _ _ _ q tr h
    · intro tr hx h
      exact spawn_from_argv_child _ _ _ _ _ _ _ _ _ _ _ _ (fun e he => (hev e he).2) tr hx h

/-- C1 (counterexample): the executable does not exist (execvp fails), the fork
succeeds with pid 4242; spawn returns the handle object of a Running handle,
not the error object, and the trace holds the fork of a child. -/
theorem missing_executable_gets_handle :
    demo_os.execvp_ok = false ∧
    nativeProcess_spawn linux (.string "/no/such/program") .null .null demo_os
      = .handle handle_object missing_proc demo_trace ∧
    missing_proc.is_running = true ∧
    Sys.fork 4242 ∈ demo_trace ∧
    ¬ ∃ e tr, nativeProcess_spawn linux (.string "/no/such/program") .null .null demo_os
        = .failure e tr := by
  have h : nativeProcess_spawn linux (.string "/no/such/program") .null .null demo_os
      = .handle handle_object missing_proc demo_trace := rfl
  refine ⟨rfl, h, rfl, by decide, ?_⟩
  rintro ⟨e, tr, he⟩
  rw [h] at he
  cases he

/-- C1 (amended): on the POSIX launcher a missing executable is not detected by
spawn. Whatever the command, the error object (an "error" message and no
other key) is returned only when no child was forked; a handle is returned
exactly with a forked child and is Running with that child as pid; and in the
forked child a failing exec starts no program and ends in _exit(127), or
_exit(1) when the pty could not be made the controlling terminal. -/
theorem missing_executable_not_detected (P : Posix) (commandVal argsVal optionsMap : ZymValue)
    (os : SpawnOs) (hmissing : os.execvp_ok = false) :
    match nativeProcess_spawn P commandVal argsVal optionsMap os with
    | .failure e tr =>
        zym_mapGet e "error" = .string "Failed to spawn process" ∧
        (∀ m, m ≠ "error" → zym_mapGet e m = .null) ∧
        ∀ pid, Sys.fork pid ∈ tr → pid < 0
    | .handle obj p tr =>
        obj = handle_object ∧ 0 < os.fork ∧ Sys.fork os.fork ∈ tr ∧
        p.pid = os.fork ∧ p.is_running = true
    | .child tr =>
        (tr.getLast? = some (Sys.child_exit 127) ∨ tr.getLast? = some (Sys.child_exit 1)) ∧
        ∀ f v, Sys.execvp f v true ∉ tr
    | .fault _ => zym_isString commandVal = false ∨ os.calloc_ok = false := by
  cases hr : nativeProcess_spawn P commandVal argsVal optionsMap os with
  | fault msg =>
    simp only []
    unfold nativeProcess_spawn at hr
    split at hr
    · split at hr
      · rename_i hc; right; simpa using hc
      · split at hr <;> simp at hr
    · rename_i hns
      left
      cases commandVal <;> simp_all [zym_isString]
  | failure e tr =>
    simp only []
    unfold nativeProcess_spawn at hr
    split at hr
    · split at hr
      · simp at hr
      · split at hr
        · simp at hr
        · rename_i q trace heq
          simp only [SpawnResult.failure.injEq] at hr
          obtain ⟨rfl, rfl⟩ := hr
          refine ⟨rfl, ?_, (spawn_unix_trace P _ argsVal optionsMap os).1 q _ heq⟩
          intro m hm
          have : ("error" == m) = false := by
            simpa using fun h => hm h.symm
          simp [spawn_error_object, zym_mapGet, lookupKey, this]
        · simp at hr
    · simp at hr
  | handle obj p tr =>
    simp only []
    obtain ⟨command, _, hobj, hs⟩ := spawn_handle_cases P _ _ _ _ _ _ _ hr
    obtain ⟨hpos, proc1, a, b, c, pty, hq, _, _, _⟩ := spawn_unix_ok P _ _ _ _ _ _ hs
    obtain ⟨k1, k2, _⟩ := parent_side_inv proc1 (wants_pty optionsMap) (stdio_mode optionsMap "stdin")
      (stdio_mode optionsMap "stdout") (stdio_mode optionsMap "stderr") a b c pty os.fork
    rw [← hq] at k1 k2
    exact ⟨hobj, hpos, (spawn_unix_trace P _ argsVal optionsMap os).2.1 p tr hs, k2, k1⟩
  | child tr =>
    simp only []
    unfold nativeProcess_spawn at hr
    split at hr
    · split at hr
      · simp at hr
      · split at hr
        · rename_i trace heq
          simp only [SpawnResult.child.injEq] at hr
          subst hr
          exact (spawn_unix_trace P _ argsVal optionsMap os).2.2 _ hmissing heq
        · simp at hr
        · simp at hr
    · simp at hr

theorem missing_executable_not_detected_witness :
    demo_os.execvp_ok = false ∧
    (handle_object = handle_object ∧ 0 < demo_os.fork ∧ Sys.fork demo_os.fork ∈ demo_trace ∧
      missing_proc.pid = demo_os.fork ∧ missing_proc.is_running = true) :=
  ⟨rfl, missing_executable_not_detected linux (.string "/no/such/program") .null .null demo_os rfl⟩

/-- C8 (the code at the failing input): cleanup of the Running handle of child
4242, where the child exited on SIGTERM and the WNOHANG waitpid reaped it
(it returned 4242). The code still sends SIGKILL to pid 4242 and waits again;
both calls fail (-1) because the child is gone. -/
theorem cleanup_signals_reaped_pid :
    demo_proc.is_running = true ∧
    process_cleanup linux demo_proc 0 4242 (-1) (-1) =
      [.close 4, .close 5, .close 7,
       .kill 4242 15 0, .usleep 100000, .waitpid 4242 1 4242,
       .kill 4242 9 (-1), .waitpid 4242 0 (-1)] := by
  decide

/-- C9 (the code at the failing input): cleanup of a pty-mode handle whose
stdin, stdout and pty_master all hold descriptor 9 closes descriptor 9 three
times, and twice when closeStdin() was called before (which closes nothing in
pty mode). -/
theorem cleanup_closes_pty_master_thrice :
    process_cleanup linux pty_proc 0 0 0 0 =
      [.close 9, .close 9, .close 9,
       .kill 4242 15 0, .usleep 100000, .waitpid 4242 1 0, .kill 4242 9 0, .waitpid 4242 0 0] ∧
    (process_cleanup linux pty_proc 0 0 0 0).count (Sys.close 9) = 3 ∧
    (process_closeStdin pty_proc).trace = [] ∧
    (process_cleanup linux (process_closeStdin pty_proc).proc 0 0 0 0).count (Sys.close 9) = 2 := by
  decide

/-- C10 (the code at the failing inputs, Windows launcher). With stdin: "pty",
the first CreatePipe returns handles 100 and 104 and the second fails: the
launcher returns false having closed neither handle. With default options and
a failing CreatePipe for stdin the launcher does not abort: it goes on to
CreateProcessA and reports success with stdin marked open on an invalid
handle. -/
theorem windows_launcher_leaks_and_continues :
    (spawn_process_windows (initial_win_proc "cmd" (.map [("stdin", .string "pty")])) .null
        (.map [("stdin", .string "pty")]) win_os_pipe_fails).success = false ∧
    (spawn_process_windows (initial_win_proc "cmd" (.map [("stdin", .string "pty")])) .null
        (.map [("stdin", .string "pty")]) win_os_pipe_fails).trace =
      [.malloc_cmdline 4 true, .CreatePipe (some (100, 104)), .CreatePipe none] ∧
    (spawn_process_windows (initial_win_proc "cmd" .null) .null .null win_os_pipe_fails).success
      = true ∧
    (spawn_process_windows (initial_win_proc "cmd" .null) .null .null win_os_pipe_fails).trace =
      [.malloc_cmdline 4 true,
       .CreatePipe none, .SetHandleInformation (-1),
       .CreatePipe (some (108, 112)), .SetHandleInformation 108,
       .CreatePipe (some (116, 120)), .SetHandleInformation 116,
       .CreateProcessA "cmd" none true true, .CloseHandle 112, .CloseHandle 120] ∧
    (spawn_process_windows (initial_win_proc "cmd" .null) .null .null win_os_pipe_fails).proc.stdin_open
      = true ∧
    (spawn_process_windows (initial_win_proc "cmd" .null) .null .null win_os_pipe_fails).proc.hStdin
      = INVALID_HANDLE_VALUE := by
  refine ⟨?_, ?_, ?_, ?_, ?_, ?_⟩ <;> rfl

theorem spawn_from_argv_releases (proc : ProcessData) (argsVal : ZymValue) (use_pty : Bool)
    (m0 m1 m2 : StdioMode) (a b c pty : Int × Int) (os : SpawnOs) (pre : List Sys)
    (q : ProcessData) (tr : List Sys)
    (h : spawn_from_argv proc argsVal use_pty m0 m1 m2 a b c pty os pre = .returned false q tr) :
    ∃ mid, tr = pre ++ mid ++ (close_pair a ++ close_pair b ++ close_pair c ++ close_pair pty) ∧
      ∀ e ∈ mid, e.opened = [] := by
  unfold spawn_from_argv at h
  simp only [] at h
  split at h
  · simp only [Launch.returned.injEq, true_and] at h
    exact ⟨[Sys.malloc_argv false], h.2.symm, by simp [Sys.opened]⟩
  · split at h
    · simp only [Launch.returned.injEq, true_and] at h
      exact ⟨[Sys.malloc_argv true, Sys.fork os.fork], h.2.symm, by simp [Sys.opened]⟩
    · split at h <;> simp at h

theorem mem_close_pair (p : Int × Int) (h : 0 ≤ p.1) :
    Sys.close p.1 ∈ close_pair p ∧ Sys.close p.2 ∈ close_pair p := by
  simp [close_pair, h]

theorem close_pair_opened (p : Int × Int) : ∀ e ∈ close_pair p, e.opened = [] := by
  intro e he
  obtain ⟨x, rfl⟩ := close_pair_closes _ _ he
  rfl

theorem released_of_shape (opens mid closes : List Sys)
    (hmid : ∀ e ∈ mid, e.opened = []) (hcl : ∀ e ∈ closes, e.opened = [])
    (hop : ∀ e ∈ opens, ∀ fd ∈ e.opened, Sys.close fd ∈ closes) :
    ∀ e ∈ opens ++ mid ++ closes, ∀ fd ∈ e.opened, Sys.close fd ∈ opens ++ mid ++ closes := by
  intro e he fd hfd
  simp only [List.mem_append] at he ⊢
  rcases he with (he | he) | he
  · exact Or.inr (hop e he fd hfd)
  · rw [hmid e he] at hfd; simp at hfd
  · rw [hcl e he] at hfd; simp at hfd

theorem pipe_event_released (mode : StdioMode) (ans : Option (Int × Int)) (p : Int × Int)
    (hans : ∀ x, ans = some x → 0 ≤ x.1)
    (hp : (if mode == StdioMode.STDIO_PIPE then ans else some (-1, -1)) = some p)
    (closes : List Sys) (hsub : ∀ e ∈ close_pair p, e ∈ closes) :
    ∀ e ∈ (if mode == StdioMode.STDIO_PIPE then [Sys.pipe (some p)] else []),
      ∀ fd ∈ e.opened, Sys.close fd ∈ closes := by
  intro e he fd hfd
  split at he
  · rename_i hm
    simp only [hm, if_true] at hp
    have := mem_close_pair p (hans p hp)
    simp only [List.mem_singleton] at he
    subst he
    simp only [Sys.opened, List.mem_cons, List.mem_singleton, List.not_mem_nil, or_false] at hfd
    rcases hfd with rfl | rfl
    · exact hsub _ this.1
    · exact hsub _ this.2
  · simp at he

/-- The POSIX launcher, for comparison with the Windows one: when it returns
failure, every descriptor that a pipe or openpty call of this attempt returned
has been closed (descriptors returned by the OS are not negative). -/
theorem unix_launcher_releases_on_failure (P : Posix) (proc : ProcessData)
    (argsVal optionsMap : ZymValue) (os : SpawnOs)
    (h0 : ∀ p, os.openpty = some p → 0 ≤ p.1) (h1 : ∀ p, os.pipe_stdin = some p → 0 ≤ p.1)
    (h2 : ∀ p, os.pipe_stdout = some p → 0 ≤ p.1) (h3 : ∀ p, os.pipe_stderr = some p → 0 ≤ p.1)
    (q : ProcessData) (tr : List Sys)
    (h : spawn_process_unix P proc argsVal optionsMap os = .returned false q tr) :
    ∀ e ∈ tr, ∀ fd ∈ e.opened, Sys.close fd ∈ tr := by
  unfold spawn_process_unix at h
  simp only [] at h
  split at h
  · split at h
    · split at h
      · simp only [Launch.returned.injEq, true_and] at h
        rw [← h.2]; simp [Sys.opened]
      · rename_i pty hpty
        obtain ⟨mid, rfl, hmid⟩ := spawn_from_argv_releases _ _ _ _ _ _ _ _ _ _ _ _ _ _ h
        have hp := mem_close_pair pty (h0 pty hpty)
        apply released_of_shape _ _ _ hmid
        · intro e he
          simp only [List.mem_append] at he
          rcases he with ((he | he) | he) | he <;> exact close_pair_opened _ e he
        · intro e he fd hfd
          simp only [List.mem_cons, List.mem_singleton, List.not_mem_nil, or_false] at he
          rcases he with rfl | rfl
          · simp only [Sys.opened, List.mem_cons, List.mem_singleton, List.not_mem_nil, or_false] at hfd
            rcases hfd with rfl | rfl
            · simp only [List.mem_append]; right; exact hp.1
            · simp only [List.mem_append]; right; exact hp.2
          · simp [Sys.opened] at hfd
    · simp only [Launch.returned.injEq, true_and] at h
      rw [← h.2]; simp
  · split at h
    · simp only [Launch.returned.injEq, true_and] at h
      rw [← h.2]; simp [Sys.opened]
    · rename_i a ha
      split at h
      · simp only [Launch.returned.injEq, true_and] at h
        rw [← h.2]
        apply released_of_shape _ _ _ (by simp [Sys.opened]) (close_pair_opened a)
        exact pipe_event_released _ _ a h1 ha _ (fun e he => he)
      · rename_i b hb
        split at h
        · simp only [Launch.returned.injEq, true_and] at h
          rw [← h.2, List.append_assoc _ (close_pair a)]
          apply released_of_shape _ _ _ (by simp [Sys.opened])
          · intro e he
            simp only [List.mem_append] at he
            rcases he with he | he <;> exact close_pair_opened _ e he
          · intro e he
            simp only [List.mem_append] at he
            rcases he with he | he
            · exact pipe_event_released _ _ a h1 ha _ (fun e he => List.mem_append_left _ he) e he
            · exact pipe_event_released _ _ b h2 hb _ (fun e he => List.mem_append_right _ he) e he
        · rename_i c hc
          obtain ⟨mid, rfl, hmid⟩ := spawn_from_argv_releases _ _ _ _ _ _ _ _ _ _ _ _ _ _ h
          apply released_of_shape _ _ _ hmid
          · intro e he
            simp only [List.mem_append] at he
            rcases he with ((he | he) | he) | he <;> exact close_pair_opened _ e he
          · intro e he
            simp only [List.mem_append] at he
            rcases he with (he | he) | he
            · exact pipe_event_released _ _ a h1 ha _
                (fun e he => by simp only [List.mem_append]; exact Or.inl (Or.inl (Or.inl he))) e he
            · exact pipe_event_released _ _ b h2 hb _
                (fun e he => by simp only [List.mem_append]; exact Or.inl (Or.inl (Or.inr he))) e he
            · exact pipe_event_released _ _ c h3 hc _
                (fun e he => by simp only [List.mem_append]; exact Or.inl (Or.inr he)) e he

theorem quiet_spawn :
    nativeProcess_spawn linux (.string "cat") (.list []) quiet_options demo_os
      = .handle handle_object quiet_proc quiet_trace := by
  rfl

theorem quiet_reachable : Reachable linux quiet_proc :=
  ⟨.string "cat", .list [], quiet_options, demo_os, handle_object, quiet_proc, quiet_trace, [],
    quiet_spawn, rfl⟩

/-- C13 (counterexample): on the Running handle of child 4242 a first kill()
succeeds and a second kill() right after it sends SIGTERM to pid 4242 again. -/
theorem second_kill_signals_again :
    (process_kill linux demo_proc .null 0).fault = none ∧
    (process_kill linux demo_proc .null 0).trace = [Sys.kill 4242 15 0] ∧
    (process_kill linux (process_kill linux demo_proc .null 0).proc .null 0).trace
      = [Sys.kill 4242 15 0] := by
  decide

theorem process_kill_running (P : Posix) (p : ProcessData) (signalVal : ZymValue) (res sig : Int)
    (hrun : p.is_running = true) (hs : kill_signal P signalVal = some sig) :
    (process_kill P p signalVal res).trace = [Sys.kill p.pid sig res] ∧
    (process_kill P p signalVal res).proc = p ∧
    (0 ≤ res → (process_kill P p signalVal res).fault = none ∧
      (process_kill P p signalVal res).ret = .context) := by
  unfold process_kill
  simp only [hrun, hs, Bool.not_true, Bool.false_eq_true, if_false]
  by_cases hr : res < 0
  · simp only [hr, if_true, OpResult.raise, true_and]
    intro h; omega
  · simp [hr]

theorem process_kill_proc (P : Posix) (p : ProcessData) (signalVal : ZymValue) (res : Int) :
    (process_kill P p signalVal res).proc = p := by
  simp only [process_kill, OpResult.pure, OpResult.raise]
  (repeat' split) <;> rfl

/-- C13 (amended): kill() does not change the handle, so on a handle that is
still Running a second kill() (no wait() or poll() in between) sends its signal
to the same pid again; it raises no fault when that OS call succeeds. kill()
makes no OS call and raises no fault only on a handle that wait() or poll() has
made Exited. -/
theorem kill_repeats_while_running (P : Posix) (p : ProcessData) (sig1 sig2 : ZymValue)
    (res1 res2 s2 : Int) (hrun : p.is_running = true) (hs : kill_signal P sig2 = some s2) :
    (process_kill P p sig1 res1).proc = p ∧
    (process_kill P (process_kill P p sig1 res1).proc sig2 res2).trace
      = [Sys.kill p.pid s2 res2] ∧
    (0 ≤ res2 →
      (process_kill P (process_kill P p sig1 res1).proc sig2 res2).fault = none) ∧
    (∀ q : ProcessData, q.is_running = false →
      (process_kill P q sig2 res2).trace = [] ∧ (process_kill P q sig2 res2).fault = none ∧
      (process_kill P q sig2 res2).proc = q) := by
  have h1 := process_kill_proc P p sig1 res1
  obtain ⟨k1, _, k3⟩ := process_kill_running P p sig2 res2 s2 hrun hs
  refine ⟨h1, ?_, ?_, ?_⟩
  · rw [h1]; exact k1
  · intro hres
    rw [h1]; exact (k3 hres).1
  · intro q hq
    simp [process_kill, hq, OpResult.pure]

theorem kill_repeats_while_running_witness :
    (process_kill linux (process_kill linux demo_proc (.string "SIGINT") 0).proc
      (.string "SIGKILL") 0).trace = [Sys.kill 4242 9 0] :=
  (kill_repeats_while_running linux demo_proc (.string "SIGINT") (.string "SIGKILL") 0 0 9
    rfl rfl).2.1

/-- C15 (counterexample): write("hello") on a handle with stdin open, where the
OS writes 3 of the 5 bytes: one write call is made, and the value returned is
the context of the handle, not the number 3. -/
theorem write_returns_context :
    demo_proc.stdin_open = true ∧
    (process_write demo_proc (.string "hello") 3).trace = [Sys.write 4 5 3] ∧
    (process_write demo_proc (.string "hello") 3).ret = .context ∧
    (process_write demo_proc (.string "hello") 3).ret ≠ .number 3 := by
  refine ⟨rfl, rfl, rfl, ?_⟩
  intro h
  have h2 : (process_write demo_proc (.string "hello") 3).ret = .context := rfl
  rw [h2] at h
  cases h

/-- C15 (amended): with stdin open, write(data) for a string makes exactly one
OS write call, for strlen(data) bytes, and when that call does not fail it
returns the context of the handle (not a byte count) and raises no fault;
writeBuffer(buffer) with bytes between position and length makes one OS write
call for that many bytes and returns the number of bytes the call wrote, and
returns 0 without an OS call when there are none. With stdin closed both raise
"Process stdin is not open" and make no OS call. -/
theorem write_single_os_call (p : ProcessData) (data : String) (bufferVal : ZymValue)
    (b : BufferData) (written : Int) (hbuf : bufferOf "writeBuffer" bufferVal = .inr b) :
    (p.stdin_open = true →
      (process_write p (.string data) written).trace
        = [Sys.write p.stdin_fd (strlen data) written] ∧
      (0 ≤ written → (process_write p (.string data) written).ret = .context ∧
        (process_write p (.string data) written).fault = none) ∧
      ((b.length + SIZE_MAX1 - b.position % SIZE_MAX1) % SIZE_MAX1 ≠ 0 →
        (process_writeBuffer p bufferVal written).trace
          = [Sys.write p.stdin_fd ((b.length + SIZE_MAX1 - b.position % SIZE_MAX1) % SIZE_MAX1)
              written] ∧
        (0 ≤ written → (process_writeBuffer p bufferVal written).ret = .number written ∧
          (process_writeBuffer p bufferVal written).fault = none)) ∧
      ((b.length + SIZE_MAX1 - b.position % SIZE_MAX1) % SIZE_MAX1 = 0 →
        (process_writeBuffer p bufferVal written).trace = [] ∧
        (process_writeBuffer p bufferVal written).ret = .number 0)) ∧
    (p.stdin_open = false →
      (process_write p (.string data) written).trace = [] ∧
      (process_write p (.string data) written).fault = some "Process stdin is not open" ∧
      (process_writeBuffer p bufferVal written).trace = [] ∧
      (process_writeBuffer p bufferVal written).fault = some "Process stdin is not open") := by
  constructor
  · intro hopen
    refine ⟨?_, ?_, ?_, ?_⟩
    · by_cases hw : written < 0 <;> simp [process_write, hopen, hw, OpResult.raise]
    · intro hw
      have : ¬ written < 0 := by omega
      simp [process_write, hopen, this]
    · intro hn
      constructor
      · by_cases hw : written < 0 <;> simp [process_writeBuffer, hopen, hbuf, hn, hw]
      · intro hw
        have : ¬ written < 0 := by omega
        simp [process_writeBuffer, hopen, hbuf, hn, this]
    · intro hn
      simp [process_writeBuffer, hopen, hbuf, hn]
  · intro hclosed
    simp [process_write, process_writeBuffer, hclosed, OpResult.raise]

theorem write_single_os_call_witness :
    (process_write demo_proc (.string "hello") 3).trace = [Sys.write 4 5 3] ∧
    (process_writeBuffer demo_proc
      (buffer_object { demo_buffer with length := 8, position := 2 }) 4).ret = .number 4 :=
  have h := (write_single_os_call demo_proc "hello"
    (buffer_object { demo_buffer with length := 8, position := 2 })
    { demo_buffer with length := 8, position := 2 } 3 rfl).1 rfl
  have h4 := (write_single_os_call demo_proc "hello"
    (buffer_object { demo_buffer with length := 8, position := 2 })
    { demo_buffer with length := 8, position := 2 } 4 rfl).1 rfl
  ⟨h.1, ((h4.2.2.1 (by decide)).2 (by decide)).1⟩

/-- C16 (counterexample): closeStdin() on a pty-mode handle whose stdin is open
makes no OS call at all: the endpoint is not closed, only marked closed. -/
theorem closeStdin_pty_closes_nothing :
    pty_proc.stdin_open = true ∧
    (process_closeStdin pty_proc).trace = [] ∧
    (process_closeStdin pty_proc).proc.stdin_open = false ∧
    (process_closeStdin pty_proc).proc.stdin_fd = 9 := by
  decide

/-- C16 (amended): closeStdin() is idempotent. On a pipe-mode handle with stdin
open the first call makes one OS close of the stdin descriptor, forgets the
descriptor and marks stdin closed; on a pty-mode handle the first call makes
no OS call (the pty master also serves stdout) and only marks stdin closed.
Every further call makes no OS call and leaves the handle unchanged. -/
theorem closeStdin_idempotent (p : ProcessData) (hopen : p.stdin_open = true) :
    (p.use_pty = false →
      (process_closeStdin p).trace = [Sys.close p.stdin_fd] ∧
      (process_closeStdin p).proc = { p with stdin_fd := -1, stdin_open := false }) ∧
    (p.use_pty = true →
      (process_closeStdin p).trace = [] ∧
      (process_closeStdin p).proc = { p with stdin_open := false }) ∧
    (process_closeStdin (process_closeStdin p).proc).trace = [] ∧
    (process_closeStdin (process_closeStdin p).proc).proc = (process_closeStdin p).proc := by
  cases hp : p.use_pty <;> simp [process_closeStdin, hopen, hp, OpResult.pure]

theorem closeStdin_idempotent_witness :
    (process_closeStdin demo_proc).trace = [Sys.close 4] ∧
    (process_closeStdin (process_closeStdin demo_proc).proc).trace = [] :=
  have h := closeStdin_idempotent demo_proc rfl
  ⟨(h.1 rfl).1, h.2.2.1⟩

/-- C17: when the OS answers a read on an open channel with EAGAIN or
EWOULDBLOCK, read(), readErr() and readNonBlock() return the empty string and
readToBuffer() (given a buffer with free space) returns 0; none raises a
fault, the handle is unchanged and the buffer is handed back unchanged. -/
theorem would_block_is_empty (P : Posix) (p : ProcessData) (errno sel : Int)
    (bufferVal : ZymValue) (b : BufferData)
    (herr : errno = P.EAGAIN ∨ errno = P.EWOULDBLOCK)
    (hbuf : bufferOf "readToBuffer" bufferVal = .inr b)
    (hspace : (b.capacity + SIZE_MAX1 - b.position % SIZE_MAX1) % SIZE_MAX1 ≠ 0) :
    (p.stdout_open = true →
      (process_read P p (.fail errno)).ret = .string "" ∧
      (process_read P p (.fail errno)).fault = none ∧
      (process_read P p (.fail errno)).proc = p ∧
      (process_readNonBlock p sel (.fail errno)).ret = .string "" ∧
      (process_readNonBlock p sel (.fail errno)).fault = none ∧
      (process_readNonBlock p sel (.fail errno)).proc = p ∧
      (process_readToBuffer P p bufferVal (.fail errno)).ret = .number 0 ∧
      (process_readToBuffer P p bufferVal (.fail errno)).fault = none ∧
      (process_readToBuffer P p bufferVal (.fail errno)).proc = p ∧
      (process_readToBuffer P p bufferVal (.fail errno)).buf = some b) ∧
    (p.stderr_open = true →
      (process_readErr P p (.fail errno)).ret = .string "" ∧
      (process_readErr P p (.fail errno)).fault = none ∧
      (process_readErr P p (.fail errno)).proc = p) := by
  have he : (errno == P.EAGAIN || errno == P.EWOULDBLOCK) = true := by
    rcases herr with h | h <;> simp [h]
  constructor
  · intro hopen
    refine ⟨?_, ?_, ?_, ?_, ?_, ?_, ?_, ?_, ?_, ?_⟩ <;>
      first
      | simp [process_read, read_chunk, hopen, he]
      | (by_cases hs : sel ≤ 0 <;> simp [process_readNonBlock, hopen, hs])
      | simp [process_readToBuffer, hopen, hbuf, hspace, he]
  · intro hopen
    simp [process_readErr, read_chunk, hopen, he]

theorem would_block_is_empty_witness :
    (process_read linux demo_proc (.fail 11)).ret = .string "" ∧
    (process_readToBuffer linux demo_proc (buffer_object demo_buffer) (.fail 11)).ret = .number 0 ∧
    (process_readErr linux demo_proc (.fail 11)).ret = .string "" :=
  have h := would_block_is_empty linux demo_proc 11 0 (buffer_object demo_buffer) demo_buffer
    (Or.inl rfl) rfl (by decide)
  ⟨(h.1 rfl).1, (h.1 rfl).2.2.2.2.2.2.1, (h.2 rfl).1⟩

/-- C18 (counterexample): readToBuffer() on a handle whose stdout is not open
(stdout was sent to the null device) raises a runtime error instead of
returning 0. -/
theorem readToBuffer_faults_when_closed :
    quiet_proc.stdout_open = false ∧
    (process_readToBuffer linux quiet_proc (buffer_object demo_buffer) (.ok [104, 105])).fault
      = some "Process stdout is not open" ∧
    (process_readToBuffer linux quiet_proc (buffer_object demo_buffer) (.ok [104, 105])).trace
      = [] := by
  refine ⟨rfl, rfl, rfl⟩

/-- C18 (amended): when the channel is not open, read(), readErr() and
readNonBlock() return the empty string without raising a fault and without
any OS call; readToBuffer(buffer) makes no OS call either but raises the
runtime error "Process stdout is not open" and returns the error value. -/
theorem closed_channel_reads (P : Posix) (p : ProcessData) (sel : Int) (bufferVal : ZymValue)
    (ans : ReadAns) :
    (p.stdout_open = false →
      (process_read P p ans).ret = .string "" ∧ (process_read P p ans).fault = none ∧
      (process_read P p ans).trace = [] ∧
      (process_readNonBlock p sel ans).ret = .string "" ∧
      (process_readNonBlock p sel ans).fault = none ∧
      (process_readNonBlock p sel ans).trace = [] ∧
      (process_readToBuffer P p bufferVal ans).ret = .error ∧
      (process_readToBuffer P p bufferVal ans).fault = some "Process stdout is not open" ∧
      (process_readToBuffer P p bufferVal ans).trace = []) ∧
    (p.stderr_open = false →
      (process_readErr P p ans).ret = .string "" ∧ (process_readErr P p ans).fault = none ∧
      (process_readErr P p ans).trace = []) := by
  constructor <;> intro h <;>
    simp [process_read, process_readErr, process_readNonBlock, process_readToBuffer, h,
      OpResult.pure, OpResult.raise]

theorem closed_channel_reads_witness :
    (process_read linux quiet_proc (.ok [104, 105])).ret = .string "" ∧
    (process_readErr linux pty_proc (.ok [104, 105])).trace = [] :=
  ⟨((closed_channel_reads linux quiet_proc 1 (buffer_object demo_buffer) (.ok [104, 105])).1 rfl).1,
   ((closed_channel_reads linux pty_proc 1 (buffer_object demo_buffer) (.ok [104, 105])).2 rfl).2.2⟩

theorem process_read_proc (P : Posix) (p : ProcessData) (ans : ReadAns) :
    (process_read P p ans).proc = p := by
  simp only [process_read, read_chunk, OpResult.pure, OpResult.raise]
  (repeat' split) <;> rfl

theorem process_readErr_proc (P : Posix) (p : ProcessData) (ans : ReadAns) :
    (process_readErr P p ans).proc = p := by
  simp only [process_readErr, read_chunk, OpResult.pure, OpResult.raise]
  (repeat' split) <;> rfl

theorem append_chunk_ok (acc : Accum) (chunk : ZymValue) :
    ∃ acc1, append_chunk acc chunk true = some acc1 := by
  unfold append_chunk
  split
  · simp only [if_true]
    split
    · split <;> exact ⟨_, rfl⟩
    · exact ⟨_, rfl⟩
  · exact ⟨_, rfl⟩

/-- One iteration of the loop whose reallocs succeed, seen from outside: the
handle is the one poll left, the counter went up by one, the exit flag is set
when poll returned a value, the loop breaks exactly when the flag was already
set and poll returned a value, and the trace grew by the calls of poll, read
and readErr plus the delay when the flag is still clear. -/
theorem drain_iter_cases (P : Posix) (st : DrainState) (a : IterAns)
    (hout : a.realloc_out_ok = true) (herr : a.realloc_err_ok = true) :
    (drain_iter P st a).state.proc = (process_poll P st.proc a.poll_result a.poll_status).proc ∧
    (drain_iter P st a).state.iterations = st.iterations + 1 ∧
    (drain_iter P st a).state.process_exited =
      (!zym_isNull (process_poll P st.proc a.poll_result a.poll_status).ret || st.process_exited) ∧
    (drain_iter P st a).state.trace = st.trace ++ iter_calls P st.proc a ++
      (if (drain_iter P st a).state.process_exited then [] else [Sys.usleep 10000]) ∧
    drain_iter P st a =
      (if !zym_isNull (process_poll P st.proc a.poll_result a.poll_status).ret && st.process_exited
       then .done (drain_iter P st a).state else .next (drain_iter P st a).state) := by
  have hp1 := process_read_proc P (process_poll P st.proc a.poll_result a.poll_status).proc a.read_out
  have hp2 := process_readErr_proc P (process_poll P st.proc a.poll_result a.poll_status).proc a.read_err
  obtain ⟨o1, ho1⟩ := append_chunk_ok st.out
    (process_read P (process_poll P st.proc a.poll_result a.poll_status).proc a.read_out).ret
  obtain ⟨e1, he1⟩ := append_chunk_ok st.err
    (process_readErr P (process_poll P st.proc a.poll_result a.poll_status).proc a.read_err).ret
  cases hn : zym_isNull (process_poll P st.proc a.poll_result a.poll_status).ret <;>
    cases hx : st.process_exited <;>
    simp [drain_iter, IterEnd.state, hout, herr, ho1, he1, hn, hx, iter_calls, hp1, hp2,
      List.append_assoc]

theorem poll_still_running (P : Posix) (p : ProcessData) (result status : Int)
    (hrun : p.is_running = true) (hres : result ≤ 0) :
    (process_poll P p result status).ret = .null ∧ (process_poll P p result status).proc = p ∧
    (process_poll P p result status).trace = [Sys.waitpid p.pid P.WNOHANG result] := by
  have : ¬ result > 0 := by omega
  simp [process_poll, hrun, this]

theorem poll_observes_exit (P : Posix) (p : ProcessData) (result status : Int)
    (hrun : p.is_running = true) (hres : 0 < result) :
    (process_poll P p result status).ret = .number (exit_code_of P status) ∧
    (process_poll P p result status).proc.is_running = false ∧
    (process_poll P p result status).proc.exit_code_valid = true ∧
    (process_poll P p result status).proc.exit_code = exit_code_of P status ∧
    (process_poll P p result status).trace = [Sys.waitpid p.pid P.WNOHANG result] := by
  simp [process_poll, hrun, hres]

theorem poll_cached (P : Posix) (p : ProcessData) (result status : Int)
    (hrun : p.is_running = false) (hv : p.exit_code_valid = true) :
    (process_poll P p result status).ret = .number p.exit_code ∧
    (process_poll P p result status).proc = p ∧
    (process_poll P p result status).trace = [] := by
  simp [process_poll, hrun, hv, OpResult.pure]

theorem append_chunk_data (acc acc1 : Accum) (chunk : ZymValue) (ok : Bool)
    (h : append_chunk acc chunk ok = some acc1) : acc1.data = acc.data ++ chunk_of chunk := by
  cases chunk with
  | string s =>
    simp only [append_chunk, chunk_of] at h ⊢
    split at h
    · split at h
      · split at h
        · simp only [Option.some.injEq] at h; rw [← h]
        · simp at h
      · simp only [Option.some.injEq] at h; rw [← h]
    · rename_i hz
      simp only [Option.some.injEq] at h
      have : cstr s.toList = [] := List.eq_nil_of_length_eq_zero (by omega)
      rw [← h, this]; simp
  | _ =>
    simp only [append_chunk, chunk_of, Option.some.injEq] at h ⊢
    rw [← h]; simp

theorem drain_iter_out (P : Posix) (st : DrainState) (a : IterAns)
    (hout : a.realloc_out_ok = true) (herr : a.realloc_err_ok = true) :
    (drain_iter P st a).state.out.data = st.out.data ++
      chunk_of (process_read P (process_poll P st.proc a.poll_result a.poll_status).proc
        a.read_out).ret := by
  have hp1 := process_read_proc P (process_poll P st.proc a.poll_result a.poll_status).proc a.read_out
  obtain ⟨o1, ho1⟩ := append_chunk_ok st.out
    (process_read P (process_poll P st.proc a.poll_result a.poll_status).proc a.read_out).ret
  obtain ⟨e1, he1⟩ := append_chunk_ok st.err
    (process_readErr P (process_poll P st.proc a.poll_result a.poll_status).proc a.read_err).ret
  have hd := append_chunk_data _ _ _ _ ho1
  rw [← hd]
  cases hn : zym_isNull (process_poll P st.proc a.poll_result a.poll_status).ret <;>
    cases hx : st.process_exited <;>
    simp [drain_iter, IterEnd.state, hout, herr, ho1, he1, hn, hx, hp1]

theorem cstr_replicate (n : Nat) (c : Char) (hc : c ≠ Char.ofNat 0) :
    cstr (List.replicate n c) = List.replicate n c := by
  unfold cstr
  induction n with
  | zero => rfl
  | succ n ih => simp [List.replicate_succ, List.takeWhile_cons, hc, ih]

theorem read_chunk_replicate (P : Posix) (p : ProcessData) (n c : Nat)
    (hopen : p.stdout_open = true) (hn : n ≤ 4095) (hc : Char.ofNat c ≠ Char.ofNat 0) :
    chunk_of (process_read P p (.ok (List.replicate n c))).ret
      = List.replicate n (Char.ofNat c) := by
  have ht : List.take 4095 (List.replicate n c) = List.replicate n c := by
    rw [List.take_replicate, Nat.min_eq_right hn]
  simp only [process_read, read_chunk, hopen, zym_newString, chunk_of, ht, List.map_replicate,
    cstr_replicate _ _ hc, Bool.not_true, Bool.false_eq_true, if_false]
  exact cstr_replicate _ _ hc

theorem process_read_ret_congr (P : Posix) (p q : ProcessData) (ans : ReadAns)
    (h1 : q.stdout_open = p.stdout_open) :
    (process_read P q ans).ret = (process_read P p ans).ret := by
  simp only [process_read, read_chunk, OpResult.pure, OpResult.raise, h1]
  (repeat' split) <;> rfl

theorem poll_stdout_open (P : Posix) (p : ProcessData) (result status : Int) :
    (process_poll P p result status).proc.stdout_open = p.stdout_open := by
  simp only [process_poll, OpResult.pure]
  (repeat' split) <;> rfl

theorem read_after_poll (P : Posix) (p : ProcessData) (result status : Int) (ans : ReadAns) :
    (process_read P (process_poll P p result status).proc ans).ret = (process_read P p ans).ret :=
  process_read_ret_congr P p _ ans (poll_stdout_open P p result status)

/-- The drain loop on a Running handle: when poll first reports the exit in
iteration k, the loop ends by its break in iteration k+1. -/
theorem drain_loop_k_plus_one (P : Posix) (pre : List IterAns) (st0 : DrainState)
    (ak ak1 : IterAns) (rest : List IterAns)
    (hrun : st0.proc.is_running = true) (hpe : st0.process_exited = false)
    (hpre : ∀ a ∈ pre, a.poll_result ≤ 0) (hk : 0 < ak.poll_result)
    (halloc : ∀ a ∈ pre ++ [ak, ak1], a.realloc_out_ok = true ∧ a.realloc_err_ok = true) :
    ∃ st, drain_loop P st0 (pre ++ ak :: ak1 :: rest) = .done st ∧
      st.iterations = st0.iterations + pre.length + 2 ∧
      st.proc = (process_poll P st0.proc ak.poll_result ak.poll_status).proc ∧
      st.trace = st0.trace ++
        (pre.flatMap fun a => iter_calls P st0.proc a ++ [Sys.usleep 10000]) ++
        iter_calls P st0.proc ak ++
        iter_calls P (process_poll P st0.proc ak.poll_result ak.poll_status).proc ak1 ∧
      st.out.data = st0.out.data ++
        (pre ++ [ak, ak1]).flatMap fun a => chunk_of (process_read P st0.proc a.read_out).ret := by
  induction pre generalizing st0 with
  | nil =>
    have ha := halloc ak (by simp)
    have ha1 := halloc ak1 (by simp)
    obtain ⟨p1, p2, p3, p4, _⟩ := poll_observes_exit P st0.proc ak.poll_result ak.poll_status hrun hk
    obtain ⟨c1, c2, c3, c4, c5⟩ := drain_iter_cases P st0 ak ha.1 ha.2
    have hnn : zym_isNull (process_poll P st0.proc ak.poll_result ak.poll_status).ret = false := by
      rw [p1]; rfl
    rw [hnn, hpe] at c3
    simp only [hnn, hpe, Bool.not_false, Bool.and_false, Bool.false_eq_true, if_false] at c5
    simp only [Bool.not_false, Bool.or_false] at c3
    rw [c3] at c4
    simp only [if_true, List.append_nil] at c4
    have o1 := drain_iter_out P st0 ak ha.1 ha.2
    rw [read_after_poll] at o1
    generalize (drain_iter P st0 ak).state = s1 at c1 c2 c3 c4 c5 o1
    obtain ⟨d1, d2, d3, d4, d5⟩ := drain_iter_cases P s1 ak1 ha1.1 ha1.2
    have o2 := drain_iter_out P s1 ak1 ha1.1 ha1.2
    rw [read_after_poll, c1, read_after_poll] at o2
    rw [c1] at d1 d3 d4 d5
    obtain ⟨q1, q2, _⟩ := poll_cached P (process_poll P st0.proc ak.poll_result ak.poll_status).proc
      ak1.poll_result ak1.poll_status p2 p3
    have hnn1 : zym_isNull (process_poll P
        (process_poll P st0.proc ak.poll_result ak.poll_status).proc
        ak1.poll_result ak1.poll_status).ret = false := by
      rw [q1]; rfl
    rw [hnn1, c3] at d3
    simp only [hnn1, c3, Bool.not_false, Bool.and_true, if_true] at d5
    simp only [Bool.not_false, Bool.or_true] at d3
    rw [d3] at d4
    simp only [if_true, List.append_nil] at d4
    generalize (drain_iter P s1 ak1).state = s2 at d1 d2 d3 d4 d5 o2
    refine ⟨s2, ?_, ?_, ?_, ?_, ?_⟩
    · simp only [List.nil_append, drain_loop, c5, d5]
    · rw [d2, c2]; simp
    · rw [d1, q2]
    · rw [d4, c4]; simp
    · rw [o2, o1]; simp
  | cons a pre ih =>
    have ha := halloc a (by simp)
    have hres := hpre a (by simp)
    obtain ⟨p1, p2, _⟩ := poll_still_running P st0.proc a.poll_result a.poll_status hrun hres
    obtain ⟨c1, c2, c3, c4, c5⟩ := drain_iter_cases P st0 a ha.1 ha.2
    have hn : zym_isNull (process_poll P st0.proc a.poll_result a.poll_status).ret = true := by
      rw [p1]; rfl
    rw [hn, hpe] at c3
    simp only [hn, Bool.not_true, Bool.false_and, Bool.false_eq_true, if_false] at c5
    simp only [Bool.not_true, Bool.or_false] at c3
    rw [c3] at c4
    simp only [Bool.false_eq_true, if_false] at c4
    rw [p2] at c1
    have o1 := drain_iter_out P st0 a ha.1 ha.2
    rw [read_after_poll] at o1
    generalize (drain_iter P st0 a).state = s1 at c1 c2 c3 c4 c5 o1
    obtain ⟨st, h1, h2, h3, h4, h5⟩ := ih s1 (by rw [c1]; exact hrun) c3
      (fun x hx => hpre x (by simp [hx]))
      (fun x hx => halloc x (by
        simp only [List.mem_append, List.mem_cons] at hx ⊢
        rcases hx with hx | hx
        · exact Or.inl (Or.inr hx)
        · exact Or.inr hx))
    refine ⟨st, ?_, ?_, ?_, ?_, ?_⟩
    · simp only [List.cons_append, drain_loop, c5]
      exact h1
    · rw [h2, c2]; simp; omega
    · rw [h3, c1]
    · rw [h4, c4, c1]; simp [List.append_assoc]
    · rw [h5, o1, c1]; simp [List.append_assoc]

theorem closeStdin_is_running (p : ProcessData) :
    (process_closeStdin p).proc.is_running = p.is_running := by
  simp only [process_closeStdin, OpResult.pure]
  (repeat' split) <;> rfl

theorem process_read_trace (P : Posix) (p : ProcessData) (ans : ReadAns) :
    (process_read P p ans).trace = if p.stdout_open then [Sys.read p.stdout_fd 4095] else [] := by
  unfold process_read read_chunk
  by_cases h : p.stdout_open = true
  · simp only [h, Bool.not_true, Bool.false_eq_true, if_false, if_true]
    cases ans with
    | ok bytes => rfl
    | fail errno => simp only []; split <;> rfl
  · simp only [Bool.not_eq_true] at h
    simp [h, OpResult.pure]

theorem process_readErr_trace (P : Posix) (p : ProcessData) (ans : ReadAns) :
    (process_readErr P p ans).trace = if p.stderr_open then [Sys.read p.stderr_fd 4095] else [] := by
  unfold process_readErr read_chunk
  by_cases h : p.stderr_open = true
  · simp only [h, Bool.not_true, Bool.false_eq_true, if_false, if_true]
    cases ans with
    | ok bytes => rfl
    | fail errno => simp only []; split <;> rfl
  · simp only [Bool.not_eq_true] at h
    simp [h, OpResult.pure]

theorem poll_channels (P : Posix) (p : ProcessData) (result status : Int) :
    (process_poll P p result status).proc.stdout_open = p.stdout_open ∧
    (process_poll P p result status).proc.stdout_fd = p.stdout_fd ∧
    (process_poll P p result status).proc.stderr_open = p.stderr_open ∧
    (process_poll P p result status).proc.stderr_fd = p.stderr_fd := by
  simp only [process_poll, OpResult.pure]
  (repeat' split) <;> exact ⟨rfl, rfl, rfl, rfl⟩

theorem iter_calls_running (P : Posix) (p : ProcessData) (a : IterAns)
    (hrun : p.is_running = true) :
    iter_calls P p a = [Sys.waitpid p.pid P.WNOHANG a.poll_result] ++
      (if p.stdout_open then [Sys.read p.stdout_fd 4095] else []) ++
      (if p.stderr_open then [Sys.read p.stderr_fd 4095] else []) := by
  obtain ⟨h1, h2, h3, h4⟩ := poll_channels P p a.poll_result a.poll_status
  have ht : (process_poll P p a.poll_result a.poll_status).trace
      = [Sys.waitpid p.pid P.WNOHANG a.poll_result] := by
    simp only [process_poll, hrun, Bool.not_true, Bool.false_eq_true, if_false]
    split <;> rfl
  unfold iter_calls
  rw [process_read_trace, process_readErr_trace, ht, h1, h2, h3, h4]

theorem iter_calls_exited (P : Posix) (p : ProcessData) (a : IterAns)
    (hrun : p.is_running = false) :
    iter_calls P p a =
      (if p.stdout_open then [Sys.read p.stdout_fd 4095] else []) ++
      (if p.stderr_open then [Sys.read p.stderr_fd 4095] else []) := by
  obtain ⟨h1, h2, h3, h4⟩ := poll_channels P p a.poll_result a.poll_status
  have ht : (process_poll P p a.poll_result a.poll_status).trace = [] := by
    simp only [process_poll, hrun, Bool.not_false, if_true, OpResult.pure]
    split <;> rfl
  unfold iter_calls
  rw [process_read_trace, process_readErr_trace, ht, h1, h2, h3, h4, List.nil_append]

theorem closeStdin_channels (p : ProcessData) :
    (process_closeStdin p).proc.pid = p.pid ∧
    (process_closeStdin p).proc.stdout_open = p.stdout_open ∧
    (process_closeStdin p).proc.stdout_fd = p.stdout_fd ∧
    (process_closeStdin p).proc.stderr_open = p.stderr_open ∧
    (process_closeStdin p).proc.stderr_fd = p.stderr_fd := by
  simp only [process_closeStdin, OpResult.pure]
  (repeat' split) <;> exact ⟨rfl, rfl, rfl, rfl, rfl⟩

/-- C12: after a successful spawn, if the poll of the drain loop reports
"still running" in the first k-1 iterations and an exit in iteration k, and no
accumulator growth fails, exec returns its result after exactly k+1 iterations.
Every iteration makes the calls of poll, read and readErr in that order, the
10 ms delay follows each of the first k-1 iterations and neither iteration k
nor k+1, and the exitCode of the result is the code poll derived in
iteration k. The calls of an iteration up to and including iteration k are
the WNOHANG waitpid of poll, then one read(2) of up to 4095 bytes on stdout
and one on stderr (each when that channel is open); iteration k+1 makes the
same two reads after a poll that needs no OS call. -/
theorem exec_loop_runs_k_plus_one (P : Posix) (commandVal argsVal optionsMap : ZymValue)
    (os : SpawnOs) (obj : ZymValue) (p0 : ProcessData) (tr : List Sys)
    (hs : nativeProcess_spawn P commandVal argsVal optionsMap os = .handle obj p0 tr)
    (pre : List IterAns) (ak ak1 : IterAns) (rest : List IterAns)
    (hpre : ∀ a ∈ pre, a.poll_result ≤ 0) (hk : 0 < ak.poll_result)
    (halloc : ∀ a ∈ pre ++ [ak, ak1], a.realloc_out_ok = true ∧ a.realloc_err_ok = true) :
    ∃ st, nativeProcess_exec P commandVal argsVal optionsMap os (pre ++ ak :: ak1 :: rest)
        = .result (exec_result_object st) st ∧
      st.iterations = pre.length + 1 + 1 ∧
      st.trace = tr ++ (process_closeStdin p0).trace ++
        (pre.flatMap fun a => iter_calls P (process_closeStdin p0).proc a ++ [Sys.usleep 10000]) ++
        iter_calls P (process_closeStdin p0).proc ak ++
        iter_calls P
          (process_poll P (process_closeStdin p0).proc ak.poll_result ak.poll_status).proc ak1 ∧
      zym_mapGet (exec_result_object st) "exitCode" = .number (exit_code_of P ak.poll_status) ∧
      (∀ a, iter_calls P (process_closeStdin p0).proc a =
        [Sys.waitpid p0.pid P.WNOHANG a.poll_result] ++
        (if p0.stdout_open then [Sys.read p0.stdout_fd 4095] else []) ++
        (if p0.stderr_open then [Sys.read p0.stderr_fd 4095] else [])) ∧
      (∀ a, iter_calls P
          (process_poll P (process_closeStdin p0).proc ak.poll_result ak.poll_status).proc a =
        (if p0.stdout_open then [Sys.read p0.stdout_fd 4095] else []) ++
        (if p0.stderr_open then [Sys.read p0.stderr_fd 4095] else [])) := by
  obtain ⟨_, _, hobj, _⟩ := spawn_handle_cases P _ _ _ _ _ _ _ hs
  have hrun0 := (spawn_handle_inv P _ _ _ _ _ _ _ hs).2
  have hrun : (drain_start p0 tr).proc.is_running = true := by
    simp only [drain_start]
    rw [closeStdin_is_running, hrun0]
  obtain ⟨st, h1, h2, h3, h4, _⟩ := drain_loop_k_plus_one P pre (drain_start p0 tr) ak ak1 rest
    hrun rfl hpre hk halloc
  obtain ⟨_, p2, p3, p4, _⟩ := poll_observes_exit P (drain_start p0 tr).proc ak.poll_result
    ak.poll_status hrun hk
  obtain ⟨c1, c2, c3, c4, c5⟩ := closeStdin_channels p0
  obtain ⟨q1, q2, q3, q4⟩ := poll_channels P (process_closeStdin p0).proc ak.poll_result
    ak.poll_status
  refine ⟨st, ?_, ?_, ?_, ?_, ?_, ?_⟩
  · have he : is_error_object obj = false := by rw [hobj]; rfl
    simp only [nativeProcess_exec, hs, he, Bool.false_eq_true, if_false, h1]
  · rw [h2]; simp [drain_start]
  · rw [h4]; simp [drain_start, List.append_assoc]
  · have hv : st.proc.exit_code_valid = true := by rw [h3]; exact p3
    have hc : st.proc.exit_code = exit_code_of P ak.poll_status := by rw [h3]; exact p4
    simp [exec_result_object, zym_mapGet, lookupKey, process_getExitCode, hv, hc, OpResult.pure]
  · intro a
    have hrunq : (process_closeStdin p0).proc.is_running = true := hrun
    rw [iter_calls_running P _ a hrunq, c1, c2, c3, c4, c5]
  · intro a
    have p2q : (process_poll P (process_closeStdin p0).proc ak.poll_result
        ak.poll_status).proc.is_running = false := p2
    rw [iter_calls_exited P _ a p2q, q1, q2, q3, q4, c2, c3, c4, c5]

theorem exec_loop_runs_k_plus_one_witness :
    ∃ st, nativeProcess_exec linux (.string "cat") .null .null demo_os
        [idle, idle, exited_with 1792, idle, idle]
        = .result (exec_result_object st) st ∧
      st.iterations = 4 ∧
      zym_mapGet (exec_result_object st) "exitCode" = .number 7 ∧
      st.trace = demo_trace ++
        [.close 4,
         .waitpid 4242 1 0, .read 5 4095, .read 7 4095, .usleep 10000,
         .waitpid 4242 1 0, .read 5 4095, .read 7 4095, .usleep 10000,
         .waitpid 4242 1 4242, .read 5 4095, .read 7 4095,
         .read 5 4095, .read 7 4095] :=
  let ⟨st, h1, h2, h3, h4, _⟩ := exec_loop_runs_k_plus_one linux (.string "cat") .null .null
    demo_os handle_object demo_proc demo_trace demo_spawn [idle, idle] (exited_with 1792) idle
    [idle] (by decide) (by decide) (by decide)
  ⟨st, h1, h2, h4, h3.trans (by decide)⟩

/-- C11 (the code at the failing input): the child wrote 4095 bytes "a", 4095
bytes "b" and more after them to stdout and exited with status 0 before the
first poll. The loop observes the exit in iteration 1, reads one chunk in
iteration 1 and one in iteration 2 and breaks: the result holds exitCode 0 and
the first 8190 bytes only; the third chunk is never read. -/
theorem exec_drops_pending_output :
    ∃ st, nativeProcess_exec linux (.string "cat") .null .null demo_os
        [flood 97, flood 98, flood 99] = .result (exec_result_object st) st ∧
      st.iterations = 2 ∧
      zym_mapGet (exec_result_object st) "exitCode" = .number 0 ∧
      zym_mapGet (exec_result_object st) "stdout" = .string (String.mk
        (List.replicate 4095 (Char.ofNat 97) ++ List.replicate 4095 (Char.ofNat 98))) ∧
      st.out.data.length = 8190 := by
  have hrun : (drain_start demo_proc demo_trace).proc.is_running = true := rfl
  obtain ⟨st, h1, h2, h3, _, h5⟩ := drain_loop_k_plus_one linux [] (drain_start demo_proc demo_trace)
    (flood 97) (flood 98) [flood 99] hrun rfl (by simp) (by decide)
    (fun a ha => by
      simp only [List.nil_append, List.mem_cons, List.mem_singleton, List.not_mem_nil,
        or_false] at ha
      rcases ha with rfl | rfl <;> exact ⟨rfl, rfl⟩)
  simp only [List.nil_append] at h1 h5
  obtain ⟨_, _, p3, p4, _⟩ := poll_observes_exit linux (drain_start demo_proc demo_trace).proc
    (flood 97).poll_result (flood 97).poll_status hrun (by decide)
  have hopen : (drain_start demo_proc demo_trace).proc.stdout_open = true := rfl
  have ha := read_chunk_replicate linux (drain_start demo_proc demo_trace).proc 4095 97 hopen
    (Nat.le_refl _) (by decide)
  have hb := read_chunk_replicate linux (drain_start demo_proc demo_trace).proc 4095 98 hopen
    (Nat.le_refl _) (by decide)
  have hdata : st.out.data
      = List.replicate 4095 (Char.ofNat 97) ++ List.replicate 4095 (Char.ofNat 98) := by
    rw [h5]
    simp only [List.flatMap_cons, List.flatMap_nil, List.append_nil]
    have e1 : (flood 97).read_out = .ok (List.replicate 4095 97) := rfl
    have e2 : (flood 98).read_out = .ok (List.replicate 4095 98) := rfl
    rw [e1, e2, ha, hb]
    rfl
  have hv : st.proc.exit_code_valid = true := by rw [h3]; exact p3
  have hc : st.proc.exit_code = 0 := by rw [h3, p4]; rfl
  refine ⟨st, ?_, ?_, ?_, ?_, ?_⟩
  · have he : is_error_object handle_object = false := rfl
    simp only [nativeProcess_exec, demo_spawn, he, Bool.false_eq_true, if_false, h1]
  · rw [h2]; rfl
  · simp [exec_result_object, zym_mapGet, lookupKey, process_getExitCode, hv, hc, OpResult.pure]
  · simp only [exec_result_object, zym_mapGet, lookupKey, hdata]
    rfl
  · rw [hdata, List.length_append, List.length_replicate, List.length_replicate]

/-- C20 (the code at the failing input): with the number 42 as command, spawn
raises its runtime error and returns the error value at once, while exec takes
that value past its error test (it is not a map) and calls process_closeStdin
on what it takes for the context of a handle. -/
theorem exec_uses_failed_spawn_value :
    nativeProcess_spawn linux (.number 42) .null .null demo_os
      = .fault "Process.spawn() requires a string command" ∧
    is_error_object .error = false ∧
    nativeProcess_exec linux (.number 42) .null .null demo_os []
      = .not_a_handle .error (some "Process.spawn() requires a string command")
          ["process_closeStdin"] :=
  ⟨rfl, rfl, rfl⟩

/-- C19 (the code at the failing input, Windows): on a handle whose stdout
pipe (handle 108) was created by CreatePipe and never put into a non-blocking
mode, read() with nothing available makes only the PeekNamedPipe check, while
readToBuffer() calls ReadFile for the 16 free bytes of the buffer at once,
without any availability check. -/
theorem windows_readToBuffer_reads_unchecked :
    (spawn_process_windows (initial_win_proc "cmd" .null) .null .null win_os_ok).success = true ∧
    (spawn_process_windows (initial_win_proc "cmd" .null) .null .null win_os_ok).trace =
      [.malloc_cmdline 4 true,
       .CreatePipe (some (100, 104)), .SetHandleInformation 104,
       .CreatePipe (some (108, 112)), .SetHandleInformation 108,
       .CreatePipe (some (116, 120)), .SetHandleInformation 116,
       .CreateProcessA "cmd" none true true,
       .CloseHandle 100, .CloseHandle 112, .CloseHandle 120] ∧
    win_proc.stdout_open = true ∧ win_proc.hStdout = 108 ∧
    (process_read_windows win_proc (some 0) (.ok [])).trace = [.PeekNamedPipe 108 (some 0)] ∧
    (process_readNonBlock_windows win_proc (some 0) (.ok [])).trace
      = [.PeekNamedPipe 108 (some 0)] ∧
    (process_readToBuffer_windows win_proc (buffer_object demo_buffer) (.ok [])).trace
      = [.ReadFile 108 16] := by
  refine ⟨?_, ?_, ?_, ?_, ?_, ?_, ?_⟩ <;> rfl

theorem spawn_from_argv_ok_trace (proc : ProcessData) (argsVal : ZymValue) (use_pty : Bool)
    (m0 m1 m2 : StdioMode) (a b c pty : Int × Int) (os : SpawnOs) (pre : List Sys)
    (q : ProcessData) (tr : List Sys)
    (h : spawn_from_argv proc argsVal use_pty m0 m1 m2 a b c pty os pre = .returned true q tr) :
    q = (parent_side proc use_pty m0 m1 m2 a b c pty os.fork).1 ∧
    tr = pre ++ [Sys.malloc_argv true, Sys.fork os.fork] ++
      (parent_side proc use_pty m0 m1 m2 a b c pty os.fork).2 := by
  unfold spawn_from_argv at h
  simp only [] at h
  split at h
  · simp at h
  · split at h
    · simp at h
    · split at h
      · simp at h
      · simp only [Launch.returned.injEq, true_and] at h
        exact ⟨h.1.symm, h.2.symm⟩

theorem parent_side_nonblock (proc : ProcessData) (m0 m1 m2 : StdioMode) (a b c pty : Int × Int)
    (pid : Int) (h1 : proc.stdout_open = false) (h2 : proc.stderr_open = false) :
    ((parent_side proc false m0 m1 m2 a b c pty pid).1.stdout_open = true →
      Sys.fcntl_nonblock (parent_side proc false m0 m1 m2 a b c pty pid).1.stdout_fd
        ∈ (parent_side proc false m0 m1 m2 a b c pty pid).2) ∧
    ((parent_side proc false m0 m1 m2 a b c pty pid).1.stderr_open = true →
      Sys.fcntl_nonblock (parent_side proc false m0 m1 m2 a b c pty pid).1.stderr_fd
        ∈ (parent_side proc false m0 m1 m2 a b c pty pid).2) := by
  cases m0 <;> cases m1 <;> cases m2 <;> simp [parent_side, h1, h2]

/-- The POSIX launcher, for comparison with the Windows read path: every
descriptor on which a handle operation can issue a read was put into
non-blocking mode by the spawn that created the handle. -/
theorem posix_read_fds_nonblocking (P : Posix) (commandVal argsVal optionsMap : ZymValue)
    (os : SpawnOs) (obj : ZymValue) (p0 : ProcessData) (tr : List Sys)
    (hs : nativeProcess_spawn P commandVal argsVal optionsMap os = .handle obj p0 tr) :
    (p0.stdout_open = true → Sys.fcntl_nonblock p0.stdout_fd ∈ tr) ∧
    (p0.stderr_open = true → Sys.fcntl_nonblock p0.stderr_fd ∈ tr) := by
  obtain ⟨command, _, _, h⟩ := spawn_handle_cases P _ _ _ _ _ _ _ hs
  unfold spawn_process_unix at h
  simp only [] at h
  split at h
  · split at h
    · split at h
      · simp at h
      · obtain ⟨rfl, rfl⟩ := spawn_from_argv_ok_trace _ _ _ _ _ _ _ _ _ _ _ _ _ _ h
        simp [parent_side]
    · simp at h
  · split at h
    · simp at h
    · split at h
      · simp at h
      · split at h
        · simp at h
        · obtain ⟨rfl, rfl⟩ := spawn_from_argv_ok_trace _ _ _ _ _ _ _ _ _ _ _ _ _ _ h
          obtain ⟨k1, k2⟩ := parent_side_nonblock (initial_proc command optionsMap)
            (stdio_mode optionsMap "stdin") (stdio_mode optionsMap "stdout")
            (stdio_mode optionsMap "stderr") _ _ _ (-1, -1) os.fork rfl rfl
          constructor
          · intro hopen
            exact List.mem_append_right _ (k1 hopen)
          · intro hopen
            exact List.mem_append_right _ (k2 hopen)

theorem step_read_fds (P : Posix) (p : ProcessData) (op : Op) :
    (step P p op).proc.stdout_open = p.stdout_open ∧
    (step P p op).proc.stdout_fd = p.stdout_fd ∧
    (step P p op).proc.stderr_fd = p.stderr_fd := by
  cases op <;>
    simp only [step, process_write, process_writeBuffer, process_closeStdin, process_read,
      process_readErr, process_readNonBlock, process_readToBuffer, process_kill, process_wait,
      process_poll, process_isRunning, process_getPid, process_getExitCode, read_chunk,
      OpResult.pure, OpResult.raise] <;>
    (repeat' split) <;> simp_all

theorem spawn_congr_args (P : Posix) (commandVal a1 a2 optionsMap : ZymValue) (os : SpawnOs)
    (h : string_args a1 = string_args a2) :
    nativeProcess_spawn P commandVal a1 optionsMap os
      = nativeProcess_spawn P commandVal a2 optionsMap os := by
  simp only [nativeProcess_spawn, spawn_process_unix, spawn_from_argv, h]

theorem spawn_congr_options (P : Posix) (commandVal argsVal o1 o2 : ZymValue) (os : SpawnOs)
    (hm : ∀ key, stdio_mode o1 key = stdio_mode o2 key) (hc : cwd_option o1 = cwd_option o2) :
    nativeProcess_spawn P commandVal argsVal o1 os
      = nativeProcess_spawn P commandVal argsVal o2 os := by
  simp only [nativeProcess_spawn, spawn_process_unix, initial_proc, wants_pty, hm, hc]

/-- C21 (counterexample): spawn("cat", 7, options) where args is the number 7,
the stdout mode is the unknown word "bogus" and cwd is the number 3 raises no
fault: it returns the same handle, with the same OS calls, as spawn("cat"). -/
theorem invalid_config_gets_handle :
    nativeProcess_spawn linux (.string "cat") (.number 7)
        (.map [("stdout", .string "bogus"), ("cwd", .number 3)]) demo_os
      = .handle handle_object demo_proc demo_trace ∧
    nativeProcess_spawn linux (.string "cat") .null (.string "not a map") demo_os
      = .handle handle_object demo_proc demo_trace :=
  ⟨rfl, rfl⟩

/-- C21 (amended): of the configuration values only the command is validated.
With a string command (and the handle allocated) spawn raises no fault
whatever args and options are: an args value that is not a list counts as no
arguments, list elements that are not strings are skipped, an options value
that is not a map counts as no options, a mode that is not "inherit", "null"
or "pty" (also one that is not a string) selects pipe, and a cwd that is not
a string leaves the working directory unset. -/
theorem invalid_config_is_defaulted (P : Posix) (command : String)
    (argsVal optionsMap : ZymValue) (os : SpawnOs) (hc : os.calloc_ok = true) :
    (∀ msg, nativeProcess_spawn P (.string command) argsVal optionsMap os ≠ .fault msg) ∧
    (zym_isList argsVal = false →
      nativeProcess_spawn P (.string command) argsVal optionsMap os
        = nativeProcess_spawn P (.string command) (.list []) optionsMap os) ∧
    (∀ xs, argsVal = .list xs →
      nativeProcess_spawn P (.string command) argsVal optionsMap os
        = nativeProcess_spawn P (.string command) (.list (xs.filter zym_isString)) optionsMap os) ∧
    (zym_isMap optionsMap = false →
      nativeProcess_spawn P (.string command) argsVal optionsMap os
        = nativeProcess_spawn P (.string command) argsVal .null os) ∧
    (∀ key, (∀ mode, zym_mapGet optionsMap key = .string mode →
        streq mode "inherit" = false ∧ streq mode "null" = false ∧ streq mode "pty" = false) →
      stdio_mode optionsMap key = .STDIO_PIPE) ∧
    (zym_isString (zym_mapGet optionsMap "cwd") = false → cwd_option optionsMap = none) := by
  refine ⟨?_, ?_, ?_, ?_, ?_, ?_⟩
  · intro msg h
    simp only [nativeProcess_spawn, hc, Bool.not_true, Bool.false_eq_true, if_false] at h
    split at h <;> simp at h
  · intro hl
    apply spawn_congr_args
    cases argsVal <;> simp_all [string_args, zym_isList]
  · rintro xs rfl
    apply spawn_congr_args
    simp only [string_args]
    induction xs with
    | nil => rfl
    | cons x xs ih =>
      cases x <;> simp_all [List.filter_cons, zym_isString, List.filterMap_cons]
  · intro hm
    apply spawn_congr_options
    · intro key
      cases optionsMap <;> simp_all [stdio_mode, zym_isMap, zym_isNull]
    · cases optionsMap <;> simp_all [cwd_option, zym_isMap, zym_isNull]
  · intro key hk
    unfold stdio_mode
    split
    · split
      · rename_i mode hmode
        obtain ⟨h1, h2, h3⟩ := hk mode hmode
        simp [h1, h2, h3]
      · rfl
    · rfl
  · intro hs
    unfold cwd_option
    split
    · split
      · rename_i d hd
        rw [hd] at hs
        simp [zym_isString] at hs
      · rfl
    · rfl

theorem invalid_config_is_defaulted_witness :
    nativeProcess_spawn linux (.string "cat") (.number 7) .null demo_os
      = nativeProcess_spawn linux (.string "cat") (.list []) .null demo_os ∧
    stdio_mode (.map [("stdout", .string "bogus")]) "stdout" = .STDIO_PIPE :=
  have h := invalid_config_is_defaulted linux "cat" (.number 7) (.map [("stdout", .string "bogus")])
    demo_os rfl
  have h2 := invalid_config_is_defaulted linux "cat" (.number 7) .null demo_os rfl
  ⟨h2.2.1 rfl, h.2.2.2.2.1 "stdout" (by
    intro mode hm
    have : mode = "bogus" := by
      have h3 : zym_mapGet (.map [("stdout", .string "bogus")]) "stdout" = .string "bogus" := rfl
      rw [h3] at hm
      injection hm with hm
      exact hm.symm
    subst this
    decide)⟩

theorem quoted_eq (acc a : String) :
    acc ++ " " ++ (if needs_quotes a then String.mk [Char.ofNat 34] else "") ++ a ++
      (if needs_quotes a then String.mk [Char.ofNat 34] else "")
      = acc ++ " " ++ quoted_spec a := by
  have hq : needs_quotes a = true ↔
      ((Char.ofNat 32) ∈ a.toList ∨ (Char.ofNat 9) ∈ a.toList ∨ (Char.ofNat 34) ∈ a.toList ∨
        a = "") := by
    have : a.length = 0 ↔ a = "" := by
      constructor
      · intro h
        apply String.ext
        exact List.eq_nil_of_length_eq_zero h
      · rintro rfl; rfl
    simp [needs_quotes, this, or_assoc]
  unfold quoted_spec
  by_cases h : needs_quotes a = true
  · rw [if_pos (hq.1 h)]
    simp only [h, if_true, String.append_assoc]
  · rw [if_neg (fun hc => h (hq.2 hc))]
    simp only [h, Bool.false_eq_true, if_false, String.append_assoc, String.append_empty,
      String.empty_append]

theorem foldl_cmdline_spec (l : List String) (acc : String) :
    l.foldl (fun acc a =>
        let q := if needs_quotes a then String.mk [Char.ofNat 34] else ""
        acc ++ " " ++ q ++ a ++ q) acc
      = cmdline_spec acc l := by
  induction l generalizing acc with
  | nil => rfl
  | cons a l ih =>
    simp only [List.foldl_cons, cmdline_spec]
    rw [quoted_eq]
    exact ih _

theorem cmdline_spec_length (l : List String) (acc : String) :
    (cmdline_spec acc l).length ≤ acc.length + (l.map (fun a => a.length + 3)).sum := by
  induction l generalizing acc with
  | nil => simp [cmdline_spec]
  | cons a l ih =>
    simp only [cmdline_spec, List.map_cons, List.sum_cons]
    have h := ih (acc ++ " " ++ quoted_spec a)
    have hq : (quoted_spec a).length ≤ a.length + 2 := by
      unfold quoted_spec
      split
      · simp only [String.length_append]
        have : (String.mk [Char.ofNat 34]).length = 1 := rfl
        omega
      · omega
    simp only [String.length_append] at h
    have h1 : (" " : String).length = 1 := rfl
    omega

theorem win_channel_facts (size : Nat) (cmdline : String) (mode : StdioMode) (b : Bool)
    (pipe : Option (Int × Int)) (nul : Int) :
    ∀ e ∈ (win_channel mode b pipe nul).2.2, e.cmdline_facts size cmdline := by
  intro e he
  unfold win_channel at he
  split at he
  · simp at he
    rcases he with rfl | rfl <;> trivial
  · split at he
    · simp at he; subst he; trivial
    · simp at he

theorem close_child_side_facts (size : Nat) (cmdline : String) (h std : Int) :
    ∀ e ∈ close_child_side h std, e.cmdline_facts size cmdline := by
  intro e he
  unfold close_child_side at he
  split at he <;> simp at he
  subst he; trivial

theorem close_if_valid_facts (size : Nat) (cmdline : String) (h : Int) :
    ∀ e ∈ close_if_valid h, e.cmdline_facts size cmdline := by
  intro e he
  unfold close_if_valid at he
  split at he <;> simp at he
  subst he; trivial

theorem spawn_regular_facts (size : Nat) (proc : WinProcessData) (cmdline : String)
    (m0 m1 m2 : StdioMode) (os : WinOs) (pre : List WinSys)
    (hpre : ∀ e ∈ pre, e.cmdline_facts size cmdline) :
    ∀ e ∈ (spawn_regular proc cmdline m0 m1 m2 os pre).trace, e.cmdline_facts size cmdline := by
  intro e he
  unfold spawn_regular at he
  simp only [] at he
  split at he <;>
  · simp only [List.mem_append, List.mem_singleton] at he
    casesm* _ ∨ _
    all_goals
      first
      | exact hpre _ (by assumption)
      | exact win_channel_facts _ _ _ _ _ _ _ (by assumption)
      | exact close_child_side_facts _ _ _ _ _ (by assumption)
      | exact close_if_valid_facts _ _ _ _ (by assumption)
      | (subst_vars; exact rfl)

theorem spawn_conpty_facts (size : Nat) (proc : WinProcessData) (cmdline : String)
    (os : WinOs) (pre : List WinSys)
    (hpre : ∀ e ∈ pre, e.cmdline_facts size cmdline) :
    ∀ e ∈ (spawn_conpty proc cmdline os pre).trace, e.cmdline_facts size cmdline := by
  intro e he
  unfold spawn_conpty at he
  simp only [] at he
  repeat' split at he
  all_goals
    simp only [List.mem_append, List.mem_singleton, List.mem_cons, List.mem_nil_iff, or_false] at he
    casesm* _ ∨ _
    all_goals
      first
      | exact hpre _ (by assumption)
      | (subst_vars; exact rfl)
      | (subst_vars; trivial)

theorem spawn_windows_facts (proc : WinProcessData) (argsVal optionsMap : ZymValue) (os : WinOs) :
    ∀ e ∈ (spawn_process_windows proc argsVal optionsMap os).trace,
      e.cmdline_facts (cmdline_size proc.command argsVal) (build_cmdline proc.command argsVal) := by
  have hpre : ∀ e ∈ [WinSys.malloc_cmdline (cmdline_size proc.command argsVal) true],
      e.cmdline_facts (cmdline_size proc.command argsVal) (build_cmdline proc.command argsVal) := by
    intro e he
    simp only [List.mem_singleton] at he
    subst he; exact rfl
  intro e he
  unfold spawn_process_windows at he
  simp only [] at he
  split at he
  · simp at he
  · split at he
    · simp only [List.mem_singleton] at he
      subst he; exact rfl
    · split at he
      · exact spawn_conpty_facts _ _ _ _ _ hpre e he
      · exact spawn_regular_facts _ _ _ _ _ _ _ _ hpre e he

theorem build_cmdline_spec (command : String) (argsVal : ZymValue) :
    build_cmdline command argsVal
      = cmdline_spec (String.mk (cstr command.toList)) (string_args argsVal) := by
  unfold build_cmdline
  exact foldl_cmdline_spec _ _

theorem replicate_args_size (command : String) (n : Nat) (c : Char) (hc : c ≠ Char.ofNat 0) :
    cmdline_size command (.list [.string (String.mk (List.replicate n c))])
      = strlen command + (n + 3) + 1 := by
  have h : string_args (.list [.string (String.mk (List.replicate n c))])
      = [String.mk (List.replicate n c)] := by
    simp only [string_args, List.filterMap_cons, List.filterMap_nil]
    show [String.mk (cstr (List.replicate n c))] = _
    rw [cstr_replicate _ _ hc]
  unfold cmdline_size
  rw [h]
  simp only [List.map_cons, List.map_nil, List.sum_cons, List.sum_nil, String.length,
    List.length_replicate, Nat.add_zero]

theorem long_args_size (command : String) : 32767 < cmdline_size command long_args := by
  unfold long_args
  rw [replicate_args_size _ _ _ (by decide)]
  omega

/-- C22: the command line that the Windows launcher builds, and hands to
CreateProcessA in both branches, is the command (as a C string) followed for
each string argument in list order by one space and the argument, the
argument standing between two double quotes exactly when it contains a space,
a tab or a double quote or is empty; elements that are not strings add
nothing. -/
theorem windows_cmdline_shape (proc : WinProcessData) (argsVal optionsMap : ZymValue) (os : WinOs) :
    build_cmdline proc.command argsVal
      = cmdline_spec (String.mk (cstr proc.command.toList)) (string_args argsVal) ∧
    (∀ c cwd inh ok,
      WinSys.CreateProcessA c cwd inh ok ∈ (spawn_process_windows proc argsVal optionsMap os).trace →
      c = cmdline_spec (String.mk (cstr proc.command.toList)) (string_args argsVal)) ∧
    build_cmdline "prog" sample_args = "prog \"a b\" \"\" c" ∧
    WinSys.CreateProcessA "cmd \"a b\" \"\" c" none true true
      ∈ (spawn_process_windows (initial_win_proc "cmd" .null) sample_args .null win_os_ok).trace := by
  refine ⟨build_cmdline_spec _ _, ?_, by decide, by decide⟩
  intro c cwd inh ok hmem
  rw [← build_cmdline_spec]
  exact spawn_windows_facts proc argsVal optionsMap os _ hmem

/-- C29: the size passed to malloc for the command line is the computed size,
the command line built afterwards together with its terminating NUL fits in
it, and a computed size above 32767 makes the launcher return false before it
has called malloc or any other function of the OS. -/
theorem windows_cmdline_fits (proc : WinProcessData) (argsVal optionsMap : ZymValue) (os : WinOs) :
    (build_cmdline proc.command argsVal).length + 1 ≤ cmdline_size proc.command argsVal ∧
    (∀ n ok, WinSys.malloc_cmdline n ok ∈ (spawn_process_windows proc argsVal optionsMap os).trace →
      n = cmdline_size proc.command argsVal) ∧
    (32767 < cmdline_size proc.command argsVal →
      spawn_process_windows proc argsVal optionsMap os = ⟨false, proc, []⟩) := by
  refine ⟨?_, ?_, ?_⟩
  · rw [build_cmdline_spec]
    have h := cmdline_spec_length (string_args argsVal) (String.mk (cstr proc.command.toList))
    unfold cmdline_size strlen
    simp only [String.length] at h ⊢
    omega
  · intro n ok hmem
    exact spawn_windows_facts proc argsVal optionsMap os _ hmem
  · intro h
    unfold spawn_process_windows
    simp only [gt_iff_lt, h, if_true]

theorem windows_cmdline_fits_witness :
    32767 < cmdline_size win_proc.command long_args ∧
    spawn_process_windows win_proc long_args .null win_os_ok = ⟨false, win_proc, []⟩ :=
  ⟨long_args_size _,
   (windows_cmdline_fits win_proc long_args .null win_os_ok).2.2 (long_args_size _)⟩

/-- C23: for the command "prog" and the single argument a"b the launcher
builds prog "a"b" (the quote inside the argument is copied as it is), and the
documented Windows parsing rules read the arguments prog and ab from it: the
argument that the child sees has lost its double quote. -/
theorem windows_cmdline_loses_quote :
    string_args quote_args = [String.mk [Char.ofNat 97, Char.ofNat 34, Char.ofNat 98]] ∧
    build_cmdline "prog" quote_args = "prog \"a\"b\"" ∧
    win_split (build_cmdline "prog" quote_args) = ["prog", "ab"] ∧
    win_split (build_cmdline "prog" quote_args) ≠ "prog" :: string_args quote_args ∧
    win_split (build_cmdline "prog" sample_args) = ["prog", "a b", "", "c"] := by
  refine ⟨by decide, by decide, by decide, by decide, by decide⟩

theorem root_depth_append (a b : List RootOp) (d : Int) :
    root_depth d (a ++ b) = root_depth (root_depth d a) b := by
  induction a generalizing d with
  | nil => rfl
  | cons x a ih => cases x <;> exact ih _

theorem root_depth_count (ops : List RootOp) (d : Int) :
    root_depth d ops = d + (pushes ops : Int) - (pops ops : Int) := by
  induction ops generalizing d with
  | nil => simp [root_depth, pushes, pops]
  | cons x ops ih =>
    cases x
    · have h := ih (d + 1)
      simp only [pushes, pops] at h ⊢
      simp only [root_depth, h, List.filter_cons, List.count_cons]
      simp
      omega
    · have h := ih (d - 1)
      simp only [pushes, pops] at h ⊢
      simp only [root_depth, h, List.filter_cons, List.count_cons]
      simp
      omega

theorem spawn_roots_balanced (r : SpawnResult) (d : Int) :
    root_depth d (spawn_root_ops r) = d := by
  cases r <;> simp [spawn_root_ops, root_depth, process_method_names, List.replicate]

theorem exec_roots_balanced (o : ExecOutcome) (d : Int)
    (hret : (∃ v p, o = .failure v p) ∨ (∃ st, o = .oom st) ∨ (∃ v st, o = .result v st)) :
    root_depth d (exec_root_ops o) = d := by
  rcases hret with ⟨v, p, rfl⟩ | ⟨st, rfl⟩ | ⟨v, st, rfl⟩ <;>
    simp [exec_root_ops, root_depth]

/-- C25 (the code at the failing input): wait() on the running handle of child
4242 when waitpid fails (it returns -1) and the status variable, which the
call did not set, holds 1792. The code never looks at the value waitpid
returned: it caches and returns 7, the exit status encoded in those bytes,
and marks the handle Exited. poll() with the same answers returns null and
leaves the handle Running. -/
theorem wait_ignores_waitpid_failure :
    demo_proc.is_running = true ∧
    (process_wait linux demo_proc (-1) 1792).trace = [.waitpid 4242 0 (-1)] ∧
    (process_wait linux demo_proc (-1) 1792).proc.exit_code = 7 ∧
    (process_wait linux demo_proc (-1) 1792).proc.exit_code_valid = true ∧
    (process_wait linux demo_proc (-1) 1792).proc.is_running = false ∧
    (process_wait linux demo_proc (-1) 1792).ret = .number 7 ∧
    (process_poll linux demo_proc (-1) 1792).ret = .null ∧
    (process_poll linux demo_proc (-1) 1792).proc = demo_proc := by
  refine ⟨?_, ?_, ?_, ?_, ?_, ?_, ?_, ?_⟩ <;> rfl

/-- C27 (the code at the failing input): seek(8) on a fresh 16-byte buffer
(length 0) succeeds and leaves position 8 beyond length 0; remaining() is 0
there, but writeBuffer computes length - position in size_t arithmetic and
asks write(2) for 2^64 - 8 bytes starting at data + 8, where only 8 bytes of
storage are left. When the OS writes 8 of them the position moves to 16. -/
theorem writeBuffer_wraps_after_seek :
    (buffer_seek demo_buffer (.number 8)).fault = none ∧
    (buffer_seek demo_buffer (.number 8)).buf.position = 8 ∧
    (buffer_seek demo_buffer (.number 8)).buf.length = 0 ∧
    (buffer_seek demo_buffer (.number 8)).buf.capacity = 16 ∧
    buffer_remaining (buffer_seek demo_buffer (.number 8)).buf = 0 ∧
    (process_writeBuffer demo_proc (buffer_object (buffer_seek demo_buffer (.number 8)).buf) 8).trace
      = [.write 4 18446744073709551608 8] ∧
    (process_writeBuffer demo_proc (buffer_object (buffer_seek demo_buffer (.number 8)).buf) 8).fault
      = none ∧
    (process_writeBuffer demo_proc (buffer_object (buffer_seek demo_buffer (.number 8)).buf) 8).buf
      = some { demo_buffer with position := 16, position_ref := 8 } ∧
    (buffer_skip demo_buffer (.number 8)).buf = (buffer_seek demo_buffer (.number 8)).buf := by
  refine ⟨?_, ?_, ?_, ?_, ?_, ?_, ?_, ?_, ?_⟩ <;> decide

/-- C28 (the code at the failing input): readToBuffer of the two bytes "hi"
into a fresh 16-byte buffer moves position and length to 2 and leaves both
script-visible references at 0; writeBuffer of a buffer holding two bytes
moves position to 2 and leaves the position reference at 0; the own
readUInt8 of the buffer moves position and position reference together. -/
theorem process_io_leaves_refs_stale :
    (process_readToBuffer linux demo_proc (buffer_object demo_buffer) (.ok [104, 105])).trace
      = [.read 5 16] ∧
    (process_readToBuffer linux demo_proc (buffer_object demo_buffer) (.ok [104, 105])).buf
      = some { filled_buffer with position := 2, position_ref := 0, length_ref := 0 } ∧
    (process_writeBuffer demo_proc (buffer_object filled_buffer) 2).trace = [.write 4 2 2] ∧
    (process_writeBuffer demo_proc (buffer_object filled_buffer) 2).buf
      = some { filled_buffer with position := 2, position_ref := 0 } ∧
    (buffer_readUInt8 filled_buffer).buf
      = { filled_buffer with position := 1, position_ref := 1 } := by
  refine ⟨?_, ?_, ?_, ?_, ?_⟩ <;> decide

/-- C30 (the code at the failing input): Buffer(16) pushes 39 roots (the
context, the two references, 35 method closures and the object) and its loop
pops 38, so it returns with the root stack one deeper than at entry; the
success path (15 roots) and the failure path (3 roots) of spawn and the
normal return of exec (4 roots) under the demonstration answers end at the
entry depth. -/
theorem buffer_create_leaves_a_root :
    pushes (nativeBuffer_create (.number 16) .null true true).roots = 39 ∧
    pops (nativeBuffer_create (.number 16) .null true true).roots = 38 ∧
    root_depth 0 (nativeBuffer_create (.number 16) .null true true).roots = 1 ∧
    bufferOf "writeBuffer" (nativeBuffer_create (.number 16) .null true true).obj
      = .inr { demo_buffer with auto_grow := true } ∧
    root_depth 0 (spawn_root_ops (nativeProcess_spawn linux (.string "cat") .null .null demo_os)) = 0 ∧
    pushes (spawn_root_ops (nativeProcess_spawn linux (.string "cat") .null .null demo_os)) = 15 ∧
    pushes (spawn_root_ops
      (nativeProcess_spawn linux (.string "cat") .null .null { demo_os with fork := -1 })) = 3 ∧
    root_depth 0 (spawn_root_ops
      (nativeProcess_spawn linux (.string "cat") .null .null { demo_os with fork := -1 })) = 0 ∧
    pushes (exec_root_ops
      (nativeProcess_exec linux (.string "cat") .null .null demo_os [exited_with 0, idle])) = 4 ∧
    root_depth 0 (exec_root_ops
      (nativeProcess_exec linux (.string "cat") .null .null demo_os [exited_with 0, idle])) = 0 := by
  have h1 : pushes (nativeBuffer_create (.number 16) .null true true).roots = 39 := rfl
  have h2 : pops (nativeBuffer_create (.number 16) .null true true).roots = 38 := rfl
  refine ⟨h1, h2, ?_, ?_, ?_, ?_, ?_, ?_, ?_, ?_⟩
  · rw [root_depth_count, h1, h2]; rfl
  · decide
  · rfl
  · rfl
  · rfl
  · rfl
  · rfl
  · rfl

theorem exists_prefix_pty (A B T : List Sys) (x y : Sys) :
    ∃ pre, A ++ (B ++ ([x] ++ [y] ++ T)) = pre ++ [x, y] ++ T :=
  ⟨A ++ B, by simp⟩

theorem exists_prefix_pipes (A B C T : List Sys) (x y : Sys) :
    ∃ pre, A ++ B ++ C ++ ([x] ++ [y] ++ T) = pre ++ [x, y] ++ T :=
  ⟨A ++ B ++ C, by simp⟩

theorem child_side_chdir (proc : ProcessData) (use_pty : Bool) (m0 m1 m2 : StdioMode)
    (a b c pty : Int × Int) (argv : List String) (os : SpawnOs) (d : String)
    (hd : proc.cwd = some d) :
    (os.ioctl_ok = false ∧
      (child_side proc use_pty m0 m1 m2 a b c pty argv os).getLast? = some (Sys.child_exit 1)) ∨
    ∃ pre, child_side proc use_pty m0 m1 m2 a b c pty argv os =
      pre ++ [Sys.chdir d, Sys.execvp proc.command argv os.execvp_ok] ++
        (if os.execvp_ok then [] else [Sys.child_exit 127]) := by
  unfold child_side
  simp only [hd]
  split
  · by_cases hi : os.ioctl_ok = true
    · right
      simp only [hi, Bool.not_true, Bool.false_eq_true, if_false]
      exact exists_prefix_pty _ _ _ _ _
    · left
      simp only [Bool.not_eq_true] at hi
      simp [hi]
  · right
    exact exists_prefix_pipes _ _ _ _ _ _

theorem spawn_from_argv_chdir (proc : ProcessData) (argsVal : ZymValue) (use_pty : Bool)
    (m0 m1 m2 : StdioMode) (a b c pty : Int × Int) (os : SpawnOs) (pre : List Sys)
    (tr : List Sys) (d : String) (hd : proc.cwd = some d)
    (h : spawn_from_argv proc argsVal use_pty m0 m1 m2 a b c pty os pre = .child tr) :
    (os.ioctl_ok = false ∧ tr.getLast? = some (Sys.child_exit 1)) ∨
    ∃ pre1, tr = pre1 ++
      [Sys.chdir d,
       Sys.execvp proc.command (String.mk (cstr proc.command.toList) :: string_args argsVal)
         os.execvp_ok] ++
      (if os.execvp_ok then [] else [Sys.child_exit 127]) := by
  unfold spawn_from_argv at h
  simp only [] at h
  split at h
  · simp at h
  · split at h
    · simp at h
    · split at h
      · simp only [Launch.child.injEq] at h
        rw [← h]
        rcases child_side_chdir proc use_pty m0 m1 m2 a b c pty
          (String.mk (cstr proc.command.toList) :: string_args argsVal) os d hd with
          ⟨h1, h2⟩ | ⟨pre1, h1⟩
        · left; exact ⟨h1, getLast?_append_some _ _ _ h2⟩
        · right
          rw [h1]
          exact ⟨pre ++ [Sys.malloc_argv true, Sys.fork os.fork] ++ pre1,
            by simp only [List.append_assoc]⟩
      · simp at h

/-- In the forked child of the POSIX launcher with a working directory d, the
chdir to d is directly followed by the execvp of the command, with no test in
between, unless the child already ended in _exit(1) at the pty set-up. -/
theorem spawn_unix_chdir (P : Posix) (proc : ProcessData) (argsVal optionsMap : ZymValue)
    (os : SpawnOs) (tr : List Sys) (d : String) (hd : proc.cwd = some d)
    (h : spawn_process_unix P proc argsVal optionsMap os = .child tr) :
    (os.ioctl_ok = false ∧ tr.getLast? = some (Sys.child_exit 1)) ∨
    ∃ pre1, tr = pre1 ++
      [Sys.chdir d,
       Sys.execvp proc.command (String.mk (cstr proc.command.toList) :: string_args argsVal)
         os.execvp_ok] ++
      (if os.execvp_ok then [] else [Sys.child_exit 127]) := by
  unfold spawn_process_unix at h
  simp only [] at h
  repeat' split at h
  all_goals first
    | (simp at h; done)
    | (have key := (spawn_from_argv_chdir _ _ _ _ _ _ _ _ _ _ _ _ _ d · h)
       exact key hd)

/-- C24 (the code at the failing input): spawn("cat", null, options) with
cwd "/no/such/dir". With a successful fork the parent gets the handle object
of a Running handle, not the error object. The forked child calls chdir on
that directory and, without looking at what chdir returned, goes on to the
execvp of the command, which therefore starts in the directory the child
inherited. -/
theorem unenterable_cwd_gets_handle :
    cwd_option bad_cwd_options = some "/no/such/dir" ∧
    nativeProcess_spawn linux (.string "cat") .null bad_cwd_options demo_os
      = .handle handle_object { demo_proc with cwd := some "/no/such/dir" } demo_trace ∧
    nativeProcess_spawn linux (.string "cat") .null bad_cwd_options child_os
      = .child [.pipe (some (3, 4)), .pipe (some (5, 6)), .pipe (some (7, 8)), .malloc_argv true,
          .fork 0, .close 4, .dup2 3 0, .close 3, .close 5, .dup2 6 1, .close 6, .close 7,
          .dup2 8 2, .close 8, .chdir "/no/such/dir", .execvp "cat" ["cat"] true] :=
  ⟨rfl, rfl, rfl⟩

theorem cstr_no_nul (l : List Char) (h : ∀ c ∈ l, c ≠ Char.ofNat 0) : cstr l = l := by
  unfold cstr
  rw [List.takeWhile_eq_self_iff]
  intro c hc
  simpa using h c hc

theorem cstr_idem (l : List Char) : cstr (cstr l) = cstr l := by
  apply cstr_no_nul
  intro c hc
  have h := List.mem_takeWhile_imp hc
  simpa using h

theorem closeStdin_stdout_open (p : ProcessData) :
    (process_closeStdin p).proc.stdout_open = p.stdout_open := by
  simp only [process_closeStdin, OpResult.pure]
  (repeat' split) <;> rfl

theorem read_chunk_text (P : Posix) (p : ProcessData) (a : ReadAns)
    (hopen : p.stdout_open = true) :
    chunk_of (process_read P p a).ret = text_of (delivered a) := by
  unfold process_read read_chunk
  simp only [hopen, Bool.not_true, Bool.false_eq_true, if_false]
  cases a with
  | ok bytes =>
    simp only [zym_newString, chunk_of, delivered, text_of]
    exact cstr_idem _
  | fail errno =>
    simp only [delivered, text_of, List.map_nil]
    split <;> rfl

theorem text_of_no_nul (bytes : List Nat) (h : ∀ b ∈ bytes, Char.ofNat b ≠ Char.ofNat 0) :
    text_of bytes = bytes.map Char.ofNat := by
  unfold text_of
  apply cstr_no_nul
  intro c hc
  obtain ⟨b, hb, rfl⟩ := List.mem_map.1 hc
  exact h b hb

theorem flatMap_text_length (l : List IterAns)
    (h : ∀ a ∈ l, ∀ b ∈ delivered a.read_out, Char.ofNat b ≠ Char.ofNat 0) :
    (l.flatMap fun a => text_of (delivered a.read_out)).length
      = (l.map fun a => (delivered a.read_out).length).sum := by
  induction l with
  | nil => rfl
  | cons a l ih =>
    rw [List.flatMap_cons, List.length_append, List.map_cons, List.sum_cons,
      ih (fun x hx => h x (List.mem_cons_of_mem _ hx)),
      text_of_no_nul _ (h a (List.mem_cons_self _ _)), List.length_map]

/-- C26 (counterexample): one read(2) delivers the three bytes h, NUL, i.
read(), readErr() and readNonBlock() each return the one-character string
"h"; exec, reading the same three bytes, returns a stdout of length 1. -/
theorem read_cuts_at_nul :
    (process_read linux demo_proc (.ok [104, 0, 105])).trace = [.read 5 4095] ∧
    (process_read linux demo_proc (.ok [104, 0, 105])).ret = .string "h" ∧
    (process_readErr linux demo_proc (.ok [104, 0, 105])).ret = .string "h" ∧
    (process_readNonBlock demo_proc 1 (.ok [104, 0, 105])).ret = .string "h" ∧
    ∃ st, nativeProcess_exec linux (.string "cat") .null .null demo_os [nul_output, idle]
        = .result (exec_result_object st) st ∧
      zym_mapGet (exec_result_object st) "stdout" = .string "h" ∧
      st.out.data.length = 1 :=
  ⟨rfl, rfl, rfl, rfl, _, rfl, rfl, rfl⟩

/-- C26 (amended): the string returned by read(), readErr() or readNonBlock()
holds the bytes delivered by its single OS read up to, and without, the first
NUL byte; exec appends the characters of that string to its accumulator, so
its stdout is the concatenation of the NUL-cut chunks of all iterations, and
its length is the total number of bytes read when no byte read is NUL. -/
theorem read_text_is_nul_cut (P : Posix) (commandVal argsVal optionsMap : ZymValue)
    (os : SpawnOs) (obj : ZymValue) (p0 : ProcessData) (tr : List Sys)
    (hs : nativeProcess_spawn P commandVal argsVal optionsMap os = .handle obj p0 tr)
    (hopen : p0.stdout_open = true)
    (pre : List IterAns) (ak ak1 : IterAns) (rest : List IterAns)
    (hpre : ∀ a ∈ pre, a.poll_result ≤ 0) (hk : 0 < ak.poll_result)
    (halloc : ∀ a ∈ pre ++ [ak, ak1], a.realloc_out_ok = true ∧ a.realloc_err_ok = true) :
    (∀ bytes, (process_read P p0 (.ok bytes)).ret
      = .string (String.mk (text_of (delivered (.ok bytes))))) ∧
    (∀ bytes, p0.stderr_open = true → (process_readErr P p0 (.ok bytes)).ret
      = .string (String.mk (text_of (delivered (.ok bytes))))) ∧
    (∀ bytes sel, 0 < sel → (process_readNonBlock p0 sel (.ok bytes)).ret
      = .string (String.mk (text_of (delivered (.ok bytes))))) ∧
    ∃ st, nativeProcess_exec P commandVal argsVal optionsMap os (pre ++ ak :: ak1 :: rest)
        = .result (exec_result_object st) st ∧
      zym_mapGet (exec_result_object st) "stdout" = .string (String.mk
        ((pre ++ [ak, ak1]).flatMap fun a => text_of (delivered a.read_out))) ∧
      ((∀ a ∈ pre ++ [ak, ak1], ∀ b ∈ delivered a.read_out, Char.ofNat b ≠ Char.ofNat 0) →
        st.out.data.length = ((pre ++ [ak, ak1]).map fun a => (delivered a.read_out).length).sum) := by
  refine ⟨?_, ?_, ?_, ?_⟩
  · intro bytes
    simp [process_read, read_chunk, hopen, zym_newString, text_of, delivered]
  · intro bytes herr
    simp [process_readErr, read_chunk, herr, zym_newString, text_of, delivered]
  · intro bytes sel hsel
    have hns : ¬ sel ≤ 0 := by omega
    simp only [process_readNonBlock, hopen, Bool.not_true, Bool.false_eq_true, if_false, hns,
      zym_newString, text_of, delivered]
    split
    · rename_i h0
      have : List.take 4095 bytes = [] := List.eq_nil_of_length_eq_zero (by simpa using h0)
      rw [this]
      rfl
    · rfl
  · obtain ⟨_, _, hobj, _⟩ := spawn_handle_cases P _ _ _ _ _ _ _ hs
    have hrun0 := (spawn_handle_inv P _ _ _ _ _ _ _ hs).2
    have hrun : (drain_start p0 tr).proc.is_running = true := by
      simp only [drain_start]
      rw [closeStdin_is_running, hrun0]
    have hop : (drain_start p0 tr).proc.stdout_open = true := by
      simp only [drain_start]
      rw [closeStdin_stdout_open, hopen]
    obtain ⟨st, h1, _, _, _, h5⟩ := drain_loop_k_plus_one P pre (drain_start p0 tr) ak ak1 rest
      hrun rfl hpre hk halloc
    have hdata : st.out.data
        = (pre ++ [ak, ak1]).flatMap fun a => text_of (delivered a.read_out) := by
      rw [h5]
      simp only [drain_start, List.nil_append]
      congr 1
      funext a
      exact read_chunk_text P _ a.read_out hop
    refine ⟨st, ?_, ?_, ?_⟩
    · have he : is_error_object obj = false := by rw [hobj]; rfl
      simp only [nativeProcess_exec, hs, he, Bool.false_eq_true, if_false, h1]
    · simp only [exec_result_object, zym_mapGet, lookupKey, hdata]
      rfl
    · intro hnn
      rw [hdata]
      exact flatMap_text_length _ hnn

theorem read_text_is_nul_cut_witness :
    ∃ st, nativeProcess_exec linux (.string "cat") .null .null demo_os [nul_output, idle, idle]
        = .result (exec_result_object st) st ∧
      zym_mapGet (exec_result_object st) "stdout" = .string "h" :=
  let ⟨st, h1, h2, _⟩ := (read_text_is_nul_cut linux (.string "cat") .null .null demo_os
    handle_object demo_proc demo_trace demo_spawn rfl [] nul_output idle [idle]
    (by decide) (by decide) (by decide)).2.2.2
  ⟨st, h1, h2⟩

end Zym
